import Mathlib

/-!
# CPU frequency cooling device (drivers/thermal/cpu_cooling.c)

A shallow embedding of the cpufreq cooling driver: the level/frequency
translation over a raw cpufreq frequency table (get_property), the dynamic
power table lookups (cpu_freq_to_power, cpu_power_to_freq), the power to
state conversion (cpufreq_power2state), the application of a cooling
state (cpufreq_apply_cooling), the policy notifier
(cpufreq_thermal_notifier), the construction of the power table
(build_dyn_power_table), the load tracking (get_load) and the remaining
callbacks (cpufreq_get_requested_power, cpufreq_state2power,
cpufreq_get_max_state, cpufreq_get_cur_state).

Conventions of the embedding.
* C unsigned int / u32 values are Nat, reduced modulo 2^32 where the C code
  truncates or may wrap; unsigned long is 64 bit (arm64) and reduced modulo
  2^64 where it may wrap.  Signed 32 bit values are Int, brought back into
  range by to_s32 (the kernel is built with -fno-strict-overflow, so signed
  arithmetic wraps).
* A raw cpufreq frequency table is the list of the frequency fields of the C
  array; scanning stops at the first CPUFREQ_TABLE_END entry (or at the end
  of the list, which stands for the terminator).  The loop counters i and j
  are not reduced: a table is an in-memory array far shorter than 2^31.
* A function returning an errno and writing through an output pointer only
  on success is modelled as Except Int Nat (the error is the negative errno);
  a callback that may return without writing returns its status and the
  value written, if any.
* An outcome the C code leaves undefined (an index outside the sample arrays
  of get_load, a call through a NULL plat_get_static_power, a lookup in a
  NULL power table by the callbacks taken as transformers of the driver
  state) is the result none of an Option.  The lookups cpu_freq_to_power and
  cpu_power_to_freq themselves, and the value-only forms of the callbacks
  that use them, are total and stand for the code on devices that have a
  power table.
-/

namespace CpuCooling

/-! ## Constants of the kernel headers -/

/-- Modelled from the spec: the errno EINVAL of the kernel headers (not under src/), reported
as the negative value -EINVAL for invalid parameters and states. -/
def EINVAL : Int := 22

/-- Modelled from the spec: the errno ENODEV of the kernel headers (not under src/), reported
as -ENODEV when no CPU of the device is online. -/
def ENODEV : Int := 19

/-- Modelled from the spec: the sentinel frequency of linux/cpufreq.h (not under src/) marking
an invalid entry of a raw frequency table, the all-ones 32 bit value. -/
def CPUFREQ_ENTRY_INVALID : Nat := 2 ^ 32 - 1

/-- Modelled from the spec: the sentinel frequency of linux/cpufreq.h (not under src/) that
terminates a raw frequency table. -/
def CPUFREQ_TABLE_END : Nat := 2 ^ 32 - 2

/-- Modelled from the spec: the value of linux/thermal.h (not under src/) standing for
"no such cooling state", the all-ones unsigned long. -/
def THERMAL_CSTATE_INVALID : Nat := 2 ^ 64 - 1

/-- Equality of results (an errno or an output value) is decidable. -/
instance : DecidableEq (Except Int Nat)
  | Except.ok a, Except.ok b =>
    if h : a = b then isTrue (by rw [h]) else isFalse (fun h2 => h (Except.ok.inj h2))
  | Except.error a, Except.error b =>
    if h : a = b then isTrue (by rw [h]) else isFalse (fun h2 => h (Except.error.inj h2))
  | Except.ok _, Except.error _ => isFalse (fun h => Except.noConfusion h)
  | Except.error _, Except.ok _ => isFalse (fun h => Except.noConfusion h)

/-! ## get_property -/

/-- The queries of get_property (enum cpufreq_cooling_property). -/
inductive cpufreq_cooling_property where
  | GET_LEVEL
  | GET_FREQ
  | GET_MAXL
  deriving DecidableEq, Repr

open cpufreq_cooling_property

/-- The entries the loops of get_property visit: the array up to, and without, the first
CPUFREQ_TABLE_END entry. -/
def table_entries (table : List Nat) : List Nat :=
  table.takeWhile (fun f => decide (f ≠ CPUFREQ_TABLE_END))

/-- Local variables of get_property that the first loop updates: freq (unsigned int),
descend (int, initially -1) and max_level (unsigned long). -/
structure scan_state where
  freq : Nat
  descend : Int
  max_level : Nat
  deriving DecidableEq, Repr

/-- One iteration of the first loop of get_property (lines 193-208) on the entry e. -/
def first_loop_step (s : scan_state) (e : Nat) : scan_state :=
  if e = CPUFREQ_ENTRY_INVALID then s
  else if s.freq = e then s
  else
    { freq := e
      descend :=
        if s.freq ≠ CPUFREQ_ENTRY_INVALID ∧ s.descend = -1 then
          (if s.freq > e then 1 else 0)
        else s.descend
      max_level := s.max_level + 1 }

/-- The first loop of get_property: counts the distinct valid entries and finds the order. -/
def first_loop : List Nat → scan_state → scan_state
  | [], s => s
  | e :: rest, s => first_loop rest (first_loop_step s e)

/-- The second loop of get_property (lines 226-249), entered with the value freq was left
with by the first loop and with j; level is only meaningful for GET_FREQ. -/
def second_loop (property : cpufreq_cooling_property) (input level max_level : Nat)
    (descend : Int) : List Nat → Nat → Nat → Except Int Nat
  | [], _, _ => Except.error (-EINVAL)
  | e :: rest, freq, j =>
    if e = CPUFREQ_ENTRY_INVALID then
      second_loop property input level max_level descend rest freq j
    else if freq = e then
      second_loop property input level max_level descend rest freq j
    else if property = GET_LEVEL ∧ input % 2 ^ 32 = e then
      Except.ok ((if descend ≠ 0 then j else (max_level + 2 ^ 64 - j) % 2 ^ 64) % 2 ^ 32)
    else if property = GET_FREQ ∧ level = j then
      Except.ok e
    else
      second_loop property input level max_level descend rest e (j + 1)

/-- The function get_property over the raw table of the cpu (none when
cpufreq_frequency_get_table returns NULL); input is an unsigned long.  The output pointer
is never NULL at the call sites of the driver. -/
def get_property (table : Option (List Nat)) (input : Nat)
    (property : cpufreq_cooling_property) : Except Int Nat :=
  match table with
  | none => Except.error (-EINVAL)
  | some tbl =>
    let s := first_loop (table_entries tbl)
      { freq := CPUFREQ_ENTRY_INVALID, descend := -1, max_level := 0 }
    if s.max_level = 0 then Except.error (-EINVAL)
    else
      let max_level := s.max_level - 1
      if property = GET_MAXL then Except.ok (max_level % 2 ^ 32)
      else
        let level :=
          if property = GET_FREQ then
            (if s.descend ≠ 0 then input else (max_level + 2 ^ 64 - input) % 2 ^ 64)
          else 0
        second_loop property input level max_level s.descend (table_entries tbl) s.freq 0

/-- The exported cpufreq_cooling_get_level: the level of freq, or THERMAL_CSTATE_INVALID. -/
def cpufreq_cooling_get_level (table : Option (List Nat)) (freq : Nat) : Nat :=
  match get_property table freq GET_LEVEL with
  | Except.error _ => THERMAL_CSTATE_INVALID
  | Except.ok val => val

/-- The function get_cpu_frequency: the frequency of a level, 0 on error. -/
def get_cpu_frequency (table : Option (List Nat)) (level : Nat) : Nat :=
  match get_property table level GET_FREQ with
  | Except.error _ => 0
  | Except.ok freq => freq

/-! ## The kernel services the driver consumes and the device data -/

/-- A struct cpumask: the set of CPU numbers whose bit is set. -/
abbrev cpumask := Nat → Bool

/-- The kernel services the driver calls: the number of possible CPUs, the online mask, the
raw cpufreq table of a cpu (none for NULL), cpufreq_get_policy (0 when the cpu has a
policy), the current frequency, the cluster of a cpu, and the exact operating point lookup
composed with the read of its voltage in microvolts (none for an ERR_PTR). -/
structure kernel_env where
  nr_cpu_ids : Nat
  cpu_online_mask : cpumask
  cpufreq_frequency_get_table : Nat → Option (List Nat)
  cpufreq_get_policy : Nat → Int
  cpufreq_quick_get : Nat → Nat
  topology_physical_package_id : Nat → Nat
  opp_find_freq_exact : Nat → Nat → Option Nat

/-- The CPUs for_each_cpu visits, in visiting order: the set bits below nr_cpu_ids. -/
def for_each_cpu (env : kernel_env) (mask : cpumask) : List Nat :=
  (List.range env.nr_cpu_ids).filter mask

/-- The kernel cpumask_any: the first CPU of the mask, nr_cpu_ids when it is empty. -/
def cpumask_any (env : kernel_env) (mask : cpumask) : Nat :=
  (for_each_cpu env mask).head?.getD env.nr_cpu_ids

/-- The kernel cpumask_any_and: the first CPU in both masks, nr_cpu_ids when there is none. -/
def cpumask_any_and (env : kernel_env) (m1 m2 : cpumask) : Nat :=
  cpumask_any env (fun c => m1 c && m2 c)

/-- The function is_cpufreq_valid: whether cpufreq_get_policy succeeds for the cpu. -/
def is_cpufreq_valid (env : kernel_env) (cpu : Nat) : Bool :=
  decide (env.cpufreq_get_policy cpu = 0)

/-- An entry of the dynamic power table (struct power_table): frequency in kHz and power in
mW, both u32. -/
structure power_table where
  frequency : Nat
  power : Nat
  deriving DecidableEq, Repr, Inhabited

/-- The part of struct thermal_zone_device the driver reads. -/
structure thermal_zone_device where
  passive_delay : Nat

/-- The platform callback get_static_t: from the cpumask, the interval and the voltage to
the returned status and the power it stores. -/
abbrev get_static_t := cpumask → Nat → Nat → Int × Nat

/-- The struct cpufreq_cooling_device.  The dyn_power_table array and its
dyn_power_table_entries are one list; cpu_dev and plat_get_static_power are none for NULL. -/
structure cpufreq_cooling_device where
  id : Nat
  cpufreq_state : Nat
  cpufreq_val : Nat
  allowed_cpus : cpumask
  last_load : Nat
  time_in_idle : List Nat
  time_in_idle_timestamp : List Nat
  dyn_power_table : List power_table
  cpu_dev : Option Nat
  plat_get_static_power : Option get_static_t

/-! ## The dynamic power table lookups -/

/-- The loop shared by cpu_freq_to_power and cpu_power_to_freq,
for (i = 1; i < entries; i++) if (stop pt[i]) break;
run over the entries from index i on; the result is the value of i after the loop. -/
def table_scan (stop : power_table → Bool) : List power_table → Nat → Nat
  | [], i => i
  | e :: rest, i => if stop e then i else table_scan stop rest (i + 1)

/-- The function cpu_freq_to_power: the power of pt[i - 1] after the scan by frequency, on a
table with at least one entry.  On a device without a table (dyn_power_table NULL with 0
entries, as registration without capacitance leaves it) the C code reads pt[0] through the
NULL pointer and has no result; the value 0 this definition has there is not one of the
code, and the callbacks as transformers of the driver state below give none there. -/
def cpu_freq_to_power (cpufreq_device : cpufreq_cooling_device) (freq : Nat) : Nat :=
  let pt := cpufreq_device.dyn_power_table
  let i := table_scan (fun e => decide (freq < e.frequency)) (pt.drop 1) 1
  (pt.getD (i - 1) default).power

/-- The function cpu_power_to_freq: the frequency of pt[i - 1] after the scan by power, on a
table with at least one entry.  On a device without a table the C code reads pt[0] through
the NULL pointer and has no result, as for cpu_freq_to_power; the value 0 this definition has
there is not one of the code. -/
def cpu_power_to_freq (cpufreq_device : cpufreq_cooling_device) (power : Nat) : Nat :=
  let pt := cpufreq_device.dyn_power_table
  let i := table_scan (fun e => decide (power < e.power)) (pt.drop 1) 1
  (pt.getD (i - 1) default).frequency

/-- The kernel opp_get_voltage: the voltage of the operating point, 0 for an ERR_PTR. -/
def opp_get_voltage (opp : Option Nat) : Nat := opp.getD 0

/-- The function get_static_power: 0 without a callback or a cpu device, -EINVAL when the
voltage of the exact operating point is 0, else what the platform callback reports. -/
def get_static_power (env : kernel_env) (cpufreq_device : cpufreq_cooling_device)
    (tz : thermal_zone_device) (freq : Nat) : Except Int Nat :=
  let freq_hz := (freq * 1000) % 2 ^ 64
  match cpufreq_device.plat_get_static_power, cpufreq_device.cpu_dev with
  | some plat, some cpu_dev =>
    let voltage := opp_get_voltage (env.opp_find_freq_exact cpu_dev freq_hz)
    if voltage = 0 then Except.error (-EINVAL)
    else
      let r := plat cpufreq_device.allowed_cpus tz.passive_delay voltage
      if r.1 = 0 then Except.ok r.2 else Except.error r.1
  | _, _ => Except.ok 0

/-- The function get_dynamic_power: (raw_cpu_power * last_load) / 100 in u32 arithmetic. -/
def get_dynamic_power (cpufreq_device : cpufreq_cooling_device) (freq : Nat) : Nat :=
  let raw_cpu_power := cpu_freq_to_power cpufreq_device (freq % 2 ^ 32)
  ((raw_cpu_power * cpufreq_device.last_load) % 2 ^ 32) / 100

/-! ## cpufreq_power2state -/

/-- The value of a 32 bit pattern read as s32 (two's complement). -/
def to_s32 (x : Int) : Int :=
  if x % 2 ^ 32 < 2 ^ 31 then x % 2 ^ 32 else x % 2 ^ 32 - 2 ^ 32

/-- Lines 871-872 of cpufreq_power2state: the s32 dyn_power = power - static_power (a u32
difference read as s32), clamped below at 0. -/
def power2state_dyn_power (power static_power : Nat) : Int :=
  let dyn_power : Int := to_s32 ((power : Int) - (static_power : Int))
  if dyn_power > 0 then dyn_power else 0

/-- Lines 873-874 of cpufreq_power2state: dyn_power times 100 (an int product), divided as
u32 by last_load ?: 1. -/
def power2state_normalised_power (power static_power last_load : Nat) : Nat :=
  let dyn_power : Int := power2state_dyn_power power static_power
  let last_load : Nat := if last_load ≠ 0 then last_load else 1
  ((to_s32 (dyn_power * 100)) % 2 ^ 32).toNat / last_load

/-- The function cpufreq_power2state: the returned status and the value stored in *state
(none when nothing is stored). -/
def cpufreq_power2state (env : kernel_env) (cpufreq_device : cpufreq_cooling_device)
    (tz : thermal_zone_device) (power : Nat) : Int × Option Nat :=
  let cpu := cpumask_any_and env cpufreq_device.allowed_cpus env.cpu_online_mask
  if cpu ≥ env.nr_cpu_ids then (-ENODEV, none)
  else
    let cur_freq := env.cpufreq_quick_get cpu
    match get_static_power env cpufreq_device tz cur_freq with
    | Except.error ret => (ret, none)
    | Except.ok static_power =>
      let normalised_power :=
        power2state_normalised_power power static_power cpufreq_device.last_load
      let target_freq := cpu_power_to_freq cpufreq_device normalised_power
      let state := cpufreq_cooling_get_level (env.cpufreq_frequency_get_table cpu) target_freq
      if state = THERMAL_CSTATE_INVALID then (-EINVAL, some state)
      else (0, some state)

/-! ## cpufreq_apply_cooling -/

/-- The mutable state around one cooling device: the device, the global notify_device (the
id of the device it points to, none for NOTIFY_INVALID), the vendor array g_ipa_freq_limit
and the trace of the cpufreq_update_policy requests, each with the notify_device value it
was issued under. -/
structure driver_state where
  dev : cpufreq_cooling_device
  notify_device : Option Nat
  g_ipa_freq_limit : Nat → Nat
  policy_updates : List (Nat × Option Nat)

/-- A call of the kernel cpufreq_update_policy(cpu), recorded in the trace. -/
def cpufreq_update_policy (st : driver_state) (cpu : Nat) : driver_state :=
  { st with policy_updates := st.policy_updates ++ [(cpu, st.notify_device)] }

/-- The function cpufreq_apply_cooling: the returned status and the state it leaves. -/
def cpufreq_apply_cooling (env : kernel_env) (st : driver_state) (cooling_state : Nat) :
    Int × driver_state :=
  let mask := st.dev.allowed_cpus
  let cpu := cpumask_any env mask
  let cur_cluster := env.topology_physical_package_id cpu
  if st.dev.cpufreq_state = cooling_state then (0, st)
  else
    let clip_freq := get_cpu_frequency (env.cpufreq_frequency_get_table cpu) cooling_state
    if clip_freq = 0 then (-EINVAL, st)
    else
      let dev1 := { st.dev with cpufreq_state := cooling_state % 2 ^ 32, cpufreq_val := clip_freq }
      let st1 : driver_state :=
        { st with
          dev := dev1
          notify_device := some dev1.id
          g_ipa_freq_limit := Function.update st.g_ipa_freq_limit cur_cluster clip_freq }
      let st2 := (for_each_cpu env mask).foldl
        (fun s cpuid => if is_cpufreq_valid env cpuid then cpufreq_update_policy s cpuid else s)
        st1
      (0, { st2 with notify_device := none })

/-- The callback cpufreq_set_cur_state: applies the cooling state to the device. -/
def cpufreq_set_cur_state (env : kernel_env) (st : driver_state) (state : Nat) :
    Int × driver_state :=
  cpufreq_apply_cooling env st state

/-! ## cpufreq_thermal_notifier -/

/-- Modelled from the spec: the event CPUFREQ_ADJUST of linux/cpufreq.h (not under src/), the
policy notification in which the limits of a policy may be adjusted. -/
def CPUFREQ_ADJUST : Nat := 0

/-- Modelled from the spec: the notifier result NOTIFY_DONE of linux/notifier.h (not under
src/), "not handled". -/
def NOTIFY_DONE : Int := 0

/-- Modelled from the spec: the notifier result NOTIFY_OK of linux/notifier.h (not under
src/), "handled". -/
def NOTIFY_OK : Int := 1

/-- The struct cpufreq_real_policy of a policy: the limits the user configured. -/
structure cpufreq_real_policy where
  min : Nat
  max : Nat
  deriving DecidableEq, Repr

/-- The part of struct cpufreq_policy the notifier touches: the cpu of the policy, its
current limits and the user policy. -/
structure cpufreq_policy where
  cpu : Nat
  min : Nat
  max : Nat
  user_policy : cpufreq_real_policy
  deriving DecidableEq, Repr

/-- Modelled from the spec: the inline helper cpufreq_verify_within_limits of
linux/cpufreq.h (not under src/), which clamps the limits of the policy into [min, max]:
a limit below min is raised to min, a limit above max is lowered to max, and the minimum
never stays above the maximum. -/
def cpufreq_verify_within_limits (policy : cpufreq_policy) (min max : Nat) : cpufreq_policy :=
  let p1 := if policy.min < min then { policy with min := min } else policy
  let p2 := if p1.max < min then { p1 with max := min } else p1
  let p3 := if p2.min > max then { p2 with min := max } else p2
  let p4 := if p3.max > max then { p3 with max := max } else p3
  if p4.min > p4.max then { p4 with min := p4.max } else p4

/-- The function cpufreq_thermal_notifier: the returned notifier status and the policy it
leaves.  notify_device is the device the global pointer refers to, none for NOTIFY_INVALID;
max_freq holds one of two unsigned int values, so its unsigned long is never truncated. -/
def cpufreq_thermal_notifier (notify_device : Option cpufreq_cooling_device) (event : Nat)
    (policy : cpufreq_policy) : Int × cpufreq_policy :=
  if event = CPUFREQ_ADJUST then
    match notify_device with
    | none => (NOTIFY_DONE, policy)
    | some target =>
      if target.allowed_cpus policy.cpu then
        let max_freq := target.cpufreq_val
        let max_freq := if max_freq > policy.user_policy.max then policy.user_policy.max
          else max_freq
        if policy.max ≠ max_freq then
          (NOTIFY_OK, cpufreq_verify_within_limits policy 0 max_freq)
        else (NOTIFY_OK, policy)
      else (NOTIFY_DONE, policy)
  else (NOTIFY_DONE, policy)

/-! ## build_dyn_power_table -/

/-- Modelled from the spec: the errno ERANGE of the kernel headers (not under src/), the
error of an operating point lookup that finds nothing. -/
def ERANGE : Int := 34

/-- An available operating point of a device: its frequency in Hz and voltage in microvolts
(what opp_find_freq_ceil stores in *freq and what opp_get_voltage reads). -/
structure opp where
  rate : Nat
  u_volt : Nat
  deriving DecidableEq, Repr

/-- The kernel services build_dyn_power_table consumes besides those of kernel_env: the
device of a cpu (none for NULL) and the available operating points of a device (none when
the device has no operating point table). -/
structure opp_library where
  get_cpu_device : Nat → Option Nat
  opp_list : Nat → Option (List opp)

/-- Modelled from the spec: opp_get_opp_count of the OPP library (not under src/): the number
of available operating points of the device, a negative errno when it has no table. -/
def opp_get_opp_count (lib : opp_library) (dev : Nat) : Int :=
  match lib.opp_list dev with
  | none => -ENODEV
  | some l => (l.length : Int)

/-- Modelled from the spec: the ceiling lookup among operating points: the nearest entry
whose frequency is at least freq, none when there is none. -/
def opp_ceil_in (freq : Nat) : List opp → Option opp
  | [] => none
  | o :: rest =>
    match opp_ceil_in freq rest with
    | none => if freq ≤ o.rate then some o else none
    | some b => if freq ≤ o.rate ∧ o.rate ≤ b.rate then some o else some b

/-- Modelled from the spec: opp_find_freq_ceil of the OPP library (not under src/): the
available operating point of the device with the lowest frequency that is at least freq;
none stands for the ERR_PTR of an unsuccessful lookup. -/
def opp_find_freq_ceil (lib : opp_library) (dev : Nat) (freq : Nat) : Option opp :=
  match lib.opp_list dev with
  | none => none
  | some l => opp_ceil_in freq l

/-- The body of the loop of build_dyn_power_table (lines 448-463) for the operating point
found at freq Hz with u_volt microvolts: the entry stored in power_table[i]. -/
def dyn_power_entry (capacitance freq u_volt : Nat) : power_table :=
  let freq_mhz := (freq / 1000000) % 2 ^ 32
  let voltage_mv := (u_volt / 1000) % 2 ^ 32
  let power := (capacitance * freq_mhz * voltage_mv * voltage_mv) % 2 ^ 64
  let power := power / 1000000000
  { frequency := (freq / 1000) % 2 ^ 32, power := power % 2 ^ 32 }

/-- The loop of build_dyn_power_table (lines 442-477) from the value freq on: the entries
it stores, in order.  Every round finds an operating point above the previous one, so the
loop ends within as many rounds as there are operating points; fuel bounds the rounds. -/
def build_power_entries (lib : opp_library) (dev capacitance : Nat) : Nat → Nat → List power_table
  | 0, _ => []
  | fuel + 1, freq =>
    match opp_find_freq_ceil lib dev freq with
    | none => []
    | some o =>
      dyn_power_entry capacitance o.rate (opp_get_voltage (some o.u_volt))
        :: build_power_entries lib dev capacitance fuel (o.rate + 1)

/-- The voltage argument of the call of plat_get_static_power in the loop of
build_dyn_power_table (line 472) for an operating point of u_volt microvolts:
voltage_mv * 1000, a u32 product. -/
def build_static_power_voltage (u_volt : Nat) : Nat :=
  (((u_volt / 1000) % 2 ^ 32) * 1000) % 2 ^ 32

/-- The first loop of build_dyn_power_table (lines 417-432) over the CPUs still to visit: the
device with operating points it breaks on, or the error it leaves with (the negative count
of a device, or -EINVAL when no visited CPU has an operating point). -/
def find_opp_device (lib : opp_library) : List Nat → Except Int Nat
  | [] => Except.error (-EINVAL)
  | cpu :: rest =>
    match lib.get_cpu_device cpu with
    | none => find_opp_device lib rest
    | some dev =>
      if opp_get_opp_count lib dev > 0 then Except.ok dev
      else if opp_get_opp_count lib dev < 0 then Except.error (opp_get_opp_count lib dev)
      else find_opp_device lib rest

/-- The function build_dyn_power_table: the returned status and the device it leaves.  The
allocation is taken to succeed.  Every round of the loop calls plat_get_static_power without
testing it; none is the outcome of calling it when it is NULL. -/
def build_dyn_power_table (env : kernel_env) (lib : opp_library)
    (cpufreq_device : cpufreq_cooling_device) (capacitance : Nat) :
    Option (Int × cpufreq_cooling_device) :=
  match find_opp_device lib (for_each_cpu env cpufreq_device.allowed_cpus) with
  | Except.error ret => some (ret, cpufreq_device)
  | Except.ok dev =>
    let entries := build_power_entries lib dev capacitance
      ((lib.opp_list dev).getD []).length.succ 0
    if entries = [] then some (-ERANGE, cpufreq_device)
    else
      match cpufreq_device.plat_get_static_power with
      | none => none
      | some _ =>
        some (0, { cpufreq_device with cpu_dev := some dev, dyn_power_table := entries })

/-! ## get_load and the power callbacks -/

/-- The difference a - b of two u64 values as the C code computes it, modulo 2^64. -/
def sub_u64 (a b : Nat) : Nat :=
  (((a : Int) - (b : Int)) % 2 ^ 64).toNat

/-- Lines 534-540 of get_load: the load from the readings now_idle and now of
get_cpu_idle_time and the samples stored for the cpu. -/
def get_load_value (now_idle now time_in_idle time_in_idle_timestamp : Nat) : Nat :=
  let delta_idle := sub_u64 now_idle time_in_idle
  let delta_time := sub_u64 now time_in_idle_timestamp
  if delta_time ≤ delta_idle then 0
  else (((100 * sub_u64 delta_time delta_idle) % 2 ^ 64) / delta_time) % 2 ^ 32

/-- The function get_load: the load of the cpu and the device with the new samples stored.
get_cpu_idle_time maps a cpu to its cumulative idle time and the wall time of the reading.
The arrays are indexed by the cpu number; none is an access outside their allocation. -/
def get_load (get_cpu_idle_time : Nat → Nat × Nat) (cpufreq_device : cpufreq_cooling_device)
    (cpu : Nat) : Option (Nat × cpufreq_cooling_device) :=
  let now_idle := (get_cpu_idle_time cpu).1
  let now := (get_cpu_idle_time cpu).2
  match cpufreq_device.time_in_idle[cpu]?, cpufreq_device.time_in_idle_timestamp[cpu]? with
  | some time_in_idle, some time_in_idle_timestamp =>
    some (get_load_value now_idle now time_in_idle time_in_idle_timestamp,
      { cpufreq_device with
        time_in_idle := cpufreq_device.time_in_idle.set cpu now_idle
        time_in_idle_timestamp := cpufreq_device.time_in_idle_timestamp.set cpu now })
  | _, _ => none

/-- The loop of cpufreq_get_requested_power (lines 735-751) over the CPUs still to visit,
from the u32 total_load and the device so far. -/
def requested_power_loads (env : kernel_env) (get_cpu_idle_time : Nat → Nat × Nat) :
    List Nat → Nat → cpufreq_cooling_device → Option (Nat × cpufreq_cooling_device)
  | [], total_load, cpufreq_device => some (total_load, cpufreq_device)
  | cpu :: rest, total_load, cpufreq_device =>
    if env.cpu_online_mask cpu then
      match get_load get_cpu_idle_time cpufreq_device cpu with
      | none => none
      | some (load, dev1) =>
        requested_power_loads env get_cpu_idle_time rest ((total_load + load) % 2 ^ 32) dev1
    else
      requested_power_loads env get_cpu_idle_time rest ((total_load + 0) % 2 ^ 32)
        cpufreq_device

/-- The function cpufreq_get_requested_power: the returned status, the value stored in
*power (none when nothing is stored) and the device it leaves; none is an access of
get_load outside the sample arrays. -/
def cpufreq_get_requested_power (env : kernel_env) (get_cpu_idle_time : Nat → Nat × Nat)
    (cpufreq_device : cpufreq_cooling_device) (tz : thermal_zone_device) :
    Option (Int × Option Nat × cpufreq_cooling_device) :=
  let cpu := cpumask_any_and env cpufreq_device.allowed_cpus env.cpu_online_mask
  if cpu ≥ env.nr_cpu_ids then some (-ENODEV, some 0, cpufreq_device)
  else
    let freq := env.cpufreq_quick_get cpu
    match requested_power_loads env get_cpu_idle_time
        (for_each_cpu env cpufreq_device.allowed_cpus) 0 cpufreq_device with
    | none => none
    | some (total_load, dev1) =>
      let dev2 := { dev1 with last_load := total_load }
      let dynamic_power := get_dynamic_power dev2 freq
      match get_static_power env dev2 tz freq with
      | Except.error ret => some (ret, none, dev2)
      | Except.ok static_power =>
        some (0, some ((static_power + dynamic_power) % 2 ^ 32), dev2)

/-- The kernel cpumask_weight: the number of CPUs in the mask. -/
def cpumask_weight (env : kernel_env) (mask : cpumask) : Nat :=
  (for_each_cpu env mask).length

/-- The function cpufreq_state2power: the returned status and the value stored in *power
(none when nothing is stored). -/
def cpufreq_state2power (env : kernel_env) (cpufreq_device : cpufreq_cooling_device)
    (tz : thermal_zone_device) (state : Nat) : Int × Option Nat :=
  let cpumask : cpumask := fun c => cpufreq_device.allowed_cpus c && env.cpu_online_mask c
  let num_cpus := cpumask_weight env cpumask
  if num_cpus = 0 then (0, some 0)
  else
    let freq := get_cpu_frequency (env.cpufreq_frequency_get_table (cpumask_any env cpumask))
      state
    if freq = 0 then (-EINVAL, none)
    else
      let dynamic_power := (cpu_freq_to_power cpufreq_device freq * num_cpus) % 2 ^ 32
      match get_static_power env cpufreq_device tz freq with
      | Except.error ret => (ret, none)
      | Except.ok static_power => (0, some ((static_power + dynamic_power) % 2 ^ 32))

/-- The callback cpufreq_get_max_state: the returned status and the value stored in *state
(none when nothing is stored: count stays 0 when get_property fails, and *state is only
written if count > 0). -/
def cpufreq_get_max_state (env : kernel_env) (cpufreq_device : cpufreq_cooling_device) :
    Int × Option Nat :=
  let cpu := cpumask_any env cpufreq_device.allowed_cpus
  match get_property (env.cpufreq_frequency_get_table cpu) 0 GET_MAXL with
  | Except.error ret => (ret, none)
  | Except.ok count => (0, if count > 0 then some count else none)

/-- The callback cpufreq_get_cur_state: success and the cpufreq_state stored in *state. -/
def cpufreq_get_cur_state (cpufreq_device : cpufreq_cooling_device) : Int × Option Nat :=
  (0, some cpufreq_device.cpufreq_state)

/-! ## The query callbacks as transformers of the driver state -/

/-- The callback cpufreq_get_max_state (lines 626-643) as a transformer of the driver
state: the status with the value stored in *state, and the state after the call.  Its
statements assign the locals cpu, count and ret and *state only. -/
def stateful.cpufreq_get_max_state (env : kernel_env) (st : driver_state) :
    (Int × Option Nat) × driver_state :=
  let cpufreq_device := st.dev
  let cpu := cpumask_any env cpufreq_device.allowed_cpus
  match get_property (env.cpufreq_frequency_get_table cpu) 0 GET_MAXL with
  | Except.error ret => ((ret, none), st)
  | Except.ok count => ((0, if count > 0 then some count else none), st)

/-- The callback cpufreq_get_cur_state (lines 655-663) as a transformer of the driver
state: it stores cpufreq_state in *state and returns 0. -/
def stateful.cpufreq_get_cur_state (st : driver_state) : (Int × Option Nat) × driver_state :=
  let cpufreq_device := st.dev
  ((0, some cpufreq_device.cpufreq_state), st)

/-- The callback cpufreq_state2power (lines 794-824) as a transformer of the driver state,
statement by statement.  The result none is the read of cpu_freq_to_power in a NULL power
table. -/
def stateful.cpufreq_state2power (env : kernel_env) (tz : thermal_zone_device)
    (st : driver_state) (state : Nat) : Option ((Int × Option Nat) × driver_state) :=
  let cpufreq_device := st.dev
  let cpumask : cpumask := fun c => cpufreq_device.allowed_cpus c && env.cpu_online_mask c
  let num_cpus := cpumask_weight env cpumask
  if num_cpus = 0 then some ((0, some 0), st)
  else
    let freq := get_cpu_frequency (env.cpufreq_frequency_get_table (cpumask_any env cpumask))
      state
    if freq = 0 then some ((-EINVAL, none), st)
    else
      match cpufreq_device.dyn_power_table with
      | [] => none
      | _ :: _ =>
        let dynamic_power := (cpu_freq_to_power cpufreq_device freq * num_cpus) % 2 ^ 32
        match get_static_power env cpufreq_device tz freq with
        | Except.error ret => some ((ret, none), st)
        | Except.ok static_power =>
          some ((0, some ((static_power + dynamic_power) % 2 ^ 32)), st)

/-- The callback cpufreq_power2state (lines 846-890) as a transformer of the driver state,
statement by statement.  The result none is the read of cpu_power_to_freq in a NULL power
table. -/
def stateful.cpufreq_power2state (env : kernel_env) (tz : thermal_zone_device)
    (st : driver_state) (power : Nat) : Option ((Int × Option Nat) × driver_state) :=
  let cpufreq_device := st.dev
  let cpu := cpumask_any_and env cpufreq_device.allowed_cpus env.cpu_online_mask
  if cpu ≥ env.nr_cpu_ids then some ((-ENODEV, none), st)
  else
    let cur_freq := env.cpufreq_quick_get cpu
    match get_static_power env cpufreq_device tz cur_freq with
    | Except.error ret => some ((ret, none), st)
    | Except.ok static_power =>
      let normalised_power :=
        power2state_normalised_power power static_power cpufreq_device.last_load
      match cpufreq_device.dyn_power_table with
      | [] => none
      | _ :: _ =>
        let target_freq := cpu_power_to_freq cpufreq_device normalised_power
        let state :=
          cpufreq_cooling_get_level (env.cpufreq_frequency_get_table cpu) target_freq
        if state = THERMAL_CSTATE_INVALID then some ((-EINVAL, some state), st)
        else some ((0, some state), st)

/-! ## Registration -/

/-- What registration gets from the kernel besides kernel_env and opp_library: the cpuinfo
limits (min_freq, max_freq) the local policy variable holds after
cpufreq_get_policy(&policy, i), the outcome of get_idr (the new id or its error) and the
error of thermal_of_cooling_device_register (none when it succeeds). -/
structure register_env where
  policy_cpuinfo : Nat → Nat × Nat
  get_idr : Except Int Nat
  thermal_register_error : Option Int

/-- The first loop of __cpufreq_cooling_register (lines 934-946) over the CPUs still to
visit, from the values of min and max: false when it leaves with ERR_PTR(-EINVAL).  A cpu
for which cpufreq_get_policy returns 0 is passed over. -/
def register_limits_ok (env : kernel_env) (renv : register_env) : List Nat → Nat → Nat → Bool
  | [], _, _ => true
  | i :: rest, min, max =>
    if env.cpufreq_get_policy i = 0 then register_limits_ok env renv rest min max
    else if min = 0 ∧ max = 0 then
      register_limits_ok env renv rest (renv.policy_cpuinfo i).1 (renv.policy_cpuinfo i).2
    else if min ≠ (renv.policy_cpuinfo i).1 ∨ max ≠ (renv.policy_cpuinfo i).2 then false
    else register_limits_ok env renv rest min max

/-- The function __cpufreq_cooling_register: the registered device, or the error of the
ERR_PTR it returns.  The allocations are taken to succeed, kzalloc and kcalloc zero what
they allocate, and the device node is only handed on to the thermal framework.  The
outcome none is that of build_dyn_power_table calling a NULL plat_get_static_power. -/
def __cpufreq_cooling_register (env : kernel_env) (lib : opp_library) (renv : register_env)
    (clip_cpus : cpumask) (capacitance : Nat) (plat_static_func : Option get_static_t) :
    Option (Except Int cpufreq_cooling_device) :=
  if register_limits_ok env renv (for_each_cpu env clip_cpus) 0 0 = false then
    some (Except.error (-EINVAL))
  else
    let num_cpus := cpumask_weight env clip_cpus
    let dev0 : cpufreq_cooling_device :=
      { id := 0, cpufreq_state := 0, cpufreq_val := 0, allowed_cpus := clip_cpus,
        last_load := 0, time_in_idle := List.replicate num_cpus 0,
        time_in_idle_timestamp := List.replicate num_cpus 0, dyn_power_table := [],
        cpu_dev := none, plat_get_static_power := none }
    let built : Option (Int × cpufreq_cooling_device) :=
      if capacitance ≠ 0 then
        build_dyn_power_table env lib { dev0 with plat_get_static_power := plat_static_func }
          capacitance
      else some (0, dev0)
    match built with
    | none => none
    | some (ret, dev1) =>
      if ret ≠ 0 then some (Except.error ret)
      else
        match renv.get_idr with
        | Except.error _ => some (Except.error (-EINVAL))
        | Except.ok id =>
          match renv.thermal_register_error with
          | some err => some (Except.error err)
          | none => some (Except.ok { dev1 with id := id, cpufreq_state := 0 })

/-- The exported cpufreq_cooling_register: registration without the power extensions. -/
def cpufreq_cooling_register (env : kernel_env) (lib : opp_library) (renv : register_env)
    (clip_cpus : cpumask) : Option (Except Int cpufreq_cooling_device) :=
  __cpufreq_cooling_register env lib renv clip_cpus 0 none

/-- The exported cpufreq_power_cooling_register: registration with the power extensions;
plat_static_func is optional, none for NULL. -/
def cpufreq_power_cooling_register (env : kernel_env) (lib : opp_library)
    (renv : register_env) (clip_cpus : cpumask) (capacitance : Nat)
    (plat_static_func : Option get_static_t) : Option (Except Int cpufreq_cooling_device) :=
  __cpufreq_cooling_register env lib renv clip_cpus capacitance plat_static_func

/-! ## Concrete tables and devices used in the examples -/

/-- The power table of the examples: 1000 kHz at 50 mW, 1500 at 90, 2000 at 150. -/
def example_power_table : List power_table :=
  [⟨1000, 50⟩, ⟨1500, 90⟩, ⟨2000, 150⟩]

/-- A device over CPUs 0 to 3 with the given power table, last load and static power
callback, at cooling state 0. -/
def example_device (pt : List power_table) (last_load : Nat) (plat : Option get_static_t) :
    cpufreq_cooling_device :=
  { id := 7, cpufreq_state := 0, cpufreq_val := 0, allowed_cpus := fun c => decide (c < 4),
    last_load := last_load, time_in_idle := [0, 0, 0, 0],
    time_in_idle_timestamp := [0, 0, 0, 0], dyn_power_table := pt, cpu_dev := some 0,
    plat_get_static_power := plat }

/-- A kernel with 8 CPUs, all online and with a policy, the given raw frequency table for
every cpu, a current frequency of 1500 kHz and operating points at 1 V for every frequency. -/
def example_env (table : List Nat) : kernel_env :=
  { nr_cpu_ids := 8, cpu_online_mask := fun _ => true,
    cpufreq_frequency_get_table := fun _ => some table,
    cpufreq_get_policy := fun _ => 0, cpufreq_quick_get := fun _ => 1500,
    topology_physical_package_id := fun c => c / 4,
    opp_find_freq_exact := fun _ _ => some 1000000 }

/-- An OPP library in which every cpu is its own device with the given available operating
points. -/
def example_opp_library (opps : List opp) : opp_library :=
  { get_cpu_device := fun c => some c, opp_list := fun _ => some opps }

/-- The operating points of the examples: 1000 MHz at 900 mV, 1500 MHz at 1000 mV and
2000 MHz at 1100 mV. -/
def example_opps : List opp :=
  [⟨1000000000, 900000⟩, ⟨1500000000, 1000000⟩, ⟨2000000000, 1100000⟩]

/-- A policy of the cpu with the limits 500 to max and the user limits 500 to user_max. -/
def example_policy (cpu max user_max : Nat) : cpufreq_policy :=
  { cpu := cpu, min := 500, max := max, user_policy := { min := 500, max := user_max } }

/-- A registration in which every lookup of the kernel succeeds and the id 7 is handed out. -/
def example_register_env : register_env :=
  { policy_cpuinfo := fun _ => (1000, 2000), get_idr := Except.ok 7,
    thermal_register_error := none }

/-! ## Auxiliary definitions for the proofs -/

/-- The number of entries a loop of get_property counts when entered with freq. -/
def distinct_from (freq : Nat) : List Nat → Nat
  | [] => 0
  | e :: rest =>
    if e = CPUFREQ_ENTRY_INVALID then distinct_from freq rest
    else if freq = e then distinct_from freq rest
    else distinct_from e rest + 1

/-- The entries a loop of get_property counts when entered with freq, in table order: the
valid entries without those equal to the entry counted before them. -/
def distinct_list (freq : Nat) : List Nat → List Nat
  | [] => []
  | e :: rest =>
    if e = CPUFREQ_ENTRY_INVALID then distinct_list freq rest
    else if freq = e then distinct_list freq rest
    else e :: distinct_list e rest

/-- The entry pt[i - 1] the scan ends on, computed along the list: prev is the entry before
the ones still to visit. -/
def scan_entry (stop : power_table → Bool) : power_table → List power_table → power_table
  | prev, [] => prev
  | prev, e :: rest => if stop e then prev else scan_entry stop e rest

/-- The total load of a power query: the sum, over the CPUs of the affinity mask, of the load
get_load computes for an online CPU from the samples stored in the device, and 0 for an
offline CPU. -/
def requested_total_load (env : kernel_env) (get_cpu_idle_time : Nat → Nat × Nat)
    (cpufreq_device : cpufreq_cooling_device) : Nat :=
  ((for_each_cpu env cpufreq_device.allowed_cpus).map (fun c =>
    if env.cpu_online_mask c then
      get_load_value (get_cpu_idle_time c).1 (get_cpu_idle_time c).2
        (cpufreq_device.time_in_idle.getD c 0) (cpufreq_device.time_in_idle_timestamp.getD c 0)
    else 0)).sum

/-- The number of distinct valid frequencies of a raw table. -/
def distinct_valid_count (table : List Nat) : Nat :=
  ((table_entries table).filter (fun f => decide (f ≠ CPUFREQ_ENTRY_INVALID))).dedup.length

/-- The state of the driver after a sequence of cpufreq_set_cur_state calls, one for each
level of the list in turn. -/
def set_cur_state_calls (env : kernel_env) (st : driver_state) (levels : List Nat) :
    driver_state :=
  levels.foldl (fun s L => (cpufreq_set_cur_state env s L).2) st

/-- The state of the driver right after the registration of its device: no notify target, no
policy update requested yet. -/
def registered_state (cpufreq_device : cpufreq_cooling_device) (g_ipa_freq_limit : Nat → Nat) :
    driver_state :=
  { dev := cpufreq_device, notify_device := none, g_ipa_freq_limit := g_ipa_freq_limit,
    policy_updates := [] }

/-- Whether the first loop of build_dyn_power_table passes over the cpu: it has no device,
or its device reports zero operating points. -/
def cpu_without_opps (lib : opp_library) (cpu : Nat) : Bool :=
  match lib.get_cpu_device cpu with
  | none => true
  | some dev => decide (opp_get_opp_count lib dev = 0)

end CpuCooling

/-!
# HRPD session management context (CnasHsmCtx.c): the cache queue and the internal queue

Conventions of the embedding.
* The constants and macros of the headers (not under src/) that the functions
  use, CNAS_HSM_MAX_CACHE_MSG_QUEUE_NUM, CNAS_HSM_MSG_PRI_LVL_BUTT,
  CNAS_HSM_MAX_INT_MSG_QUEUE_NUM, VOS_PID_TIMER and CNAS_BuildEventType, are
  parameters of those functions.
* An array is the list of its elements; a pointer is an Option, none for
  VOS_NULL_PTR.  The heap is not modelled: PS_MEM_FREE leaves no trace.
* VOS_UINT8 values are Nat, reduced modulo 256 where the code may wrap.
-/

namespace CnasHsm

/-- Modelled from the spec: the VOS boolean VOS_TRUE of the platform headers (not under
src/). -/
def VOS_TRUE : Nat := 1

/-- Modelled from the spec: the VOS boolean VOS_FALSE of the platform headers (not under
src/). -/
def VOS_FALSE : Nat := 0

/-- A buffered message as the code reads it: through MSG_HEADER_STRU (ulSenderPid,
ulMsgName, ulLength) and, for a timer message, through REL_TIMER_MSG (ulName). -/
structure MSG_HEADER_STRU where
  ulSenderPid : Nat
  ulMsgName : Nat
  ulName : Nat
  ulLength : Nat
  deriving DecidableEq, Repr

/-- An element of the cache queue (CNAS_HSM_CACHE_MSG_INFO_STRU): the priority and the
pointer to the buffered message. -/
structure CNAS_HSM_CACHE_MSG_INFO_STRU where
  enMsgPri : Nat
  pucMsgBuffer : Option MSG_HEADER_STRU
  deriving DecidableEq, Repr

/-- The element NAS_MEM_SET_S leaves when it fills one with 0x0. -/
def zeroed_cache_msg : CNAS_HSM_CACHE_MSG_INFO_STRU :=
  { enMsgPri := 0, pucMsgBuffer := none }

instance : Inhabited CNAS_HSM_CACHE_MSG_INFO_STRU := ⟨zeroed_cache_msg⟩

/-- The cache queue (CNAS_HSM_CACHE_MSG_QUEUE_STRU): the number of cached messages and the
array astCacheMsg of CNAS_HSM_MAX_CACHE_MSG_QUEUE_NUM elements. -/
structure CNAS_HSM_CACHE_MSG_QUEUE_STRU where
  ucCacheMsgNum : Nat
  astCacheMsg : List CNAS_HSM_CACHE_MSG_INFO_STRU
  deriving DecidableEq, Repr

/-- Modelled from the spec: the bounded move NAS_MEM_MOVE_S(dest, destMax, src, count) of
the platform headers (not under src/), on an array with all sizes in elements.  The count
is the signed value the C expression has before its conversion to an unsigned size: a
negative one becomes a size above every destination size.  A count within destMax moves
that many elements from index src to index dest, as memmove does; any other request is
refused and leaves the array as it is. -/
def NAS_MEM_MOVE_S {α : Type} (mem : List α) (dest destMax src : Nat) (count : Int) : List α :=
  if 0 ≤ count ∧ count ≤ (destMax : Int) then
    mem.take dest ++ ((mem.drop src).take count.toNat ++ mem.drop (dest + count.toNat))
  else mem

/-- The function CNAS_HSM_ClearCacheMsgByIndex on the cache queue. -/
def CNAS_HSM_ClearCacheMsgByIndex (CNAS_HSM_MAX_CACHE_MSG_QUEUE_NUM : Nat)
    (pstMsgQueue : CNAS_HSM_CACHE_MSG_QUEUE_STRU) (ucIndex : Nat) :
    CNAS_HSM_CACHE_MSG_QUEUE_STRU :=
  if CNAS_HSM_MAX_CACHE_MSG_QUEUE_NUM ≤ ucIndex then pstMsgQueue
  else if 0 < pstMsgQueue.ucCacheMsgNum then
    let ucCacheMsgNum := pstMsgQueue.ucCacheMsgNum - 1
    let arr1 :=
      if (pstMsgQueue.astCacheMsg.getD ucIndex default).pucMsgBuffer ≠ none then
        pstMsgQueue.astCacheMsg.set ucIndex
          { pstMsgQueue.astCacheMsg.getD ucIndex default with pucMsgBuffer := none }
      else pstMsgQueue.astCacheMsg
    let arr2 :=
      if ucIndex < CNAS_HSM_MAX_CACHE_MSG_QUEUE_NUM - 1 then
        NAS_MEM_MOVE_S arr1 ucIndex (CNAS_HSM_MAX_CACHE_MSG_QUEUE_NUM - ucIndex) (ucIndex + 1)
          ((ucCacheMsgNum : Int) - (ucIndex : Int))
      else arr1
    { ucCacheMsgNum := ucCacheMsgNum, astCacheMsg := arr2.set ucCacheMsgNum zeroed_cache_msg }
  else pstMsgQueue

/-- The loop of CNAS_HSM_GetHighestPriCachedMsg over the elements still to visit, from the
values of ucLoop, enMsgPri and ucIndex: the value of ucIndex after the loop. -/
def highest_pri_loop : List CNAS_HSM_CACHE_MSG_INFO_STRU → Nat → Nat → Nat → Nat
  | [], _, _, ucIndex => ucIndex
  | e :: rest, ucLoop, enMsgPri, ucIndex =>
    if e.enMsgPri < enMsgPri then highest_pri_loop rest (ucLoop + 1) e.enMsgPri ucLoop
    else highest_pri_loop rest (ucLoop + 1) enMsgPri ucIndex

/-- The function CNAS_HSM_GetHighestPriCachedMsg: the loop over the first ucCacheMsgNum
elements of the array, entered with enMsgPri = CNAS_HSM_MSG_PRI_LVL_BUTT and ucIndex = 0. -/
def CNAS_HSM_GetHighestPriCachedMsg (CNAS_HSM_MSG_PRI_LVL_BUTT : Nat)
    (pstMsgQueue : CNAS_HSM_CACHE_MSG_QUEUE_STRU) : Nat :=
  highest_pri_loop (pstMsgQueue.astCacheMsg.take pstMsgQueue.ucCacheMsgNum) 0
    CNAS_HSM_MSG_PRI_LVL_BUTT 0

/-- The message CNAS_HSM_GetNextCachedMsg hands out (CNAS_HSM_MSG_STRU): the event type,
the copy of the buffered message and the priority. -/
structure CNAS_HSM_MSG_STRU where
  ulEventType : Nat
  aucMsgBuffer : MSG_HEADER_STRU
  enMsgPri : Nat
  deriving DecidableEq, Repr

/-- The function CNAS_HSM_GetNextCachedMsg: the returned VOS_TRUE or VOS_FALSE, what it
writes to *pstCachedMsg (none when nothing is written) and the cache queue it leaves.  The
copy of the message is taken to fit aucMsgBuffer, as CNAS_HSM_SaveCacheMsg ensures. -/
def CNAS_HSM_GetNextCachedMsg (CNAS_HSM_MAX_CACHE_MSG_QUEUE_NUM CNAS_HSM_MSG_PRI_LVL_BUTT
    VOS_PID_TIMER : Nat) (CNAS_BuildEventType : Nat → Nat → Nat)
    (pstMsgQueue : CNAS_HSM_CACHE_MSG_QUEUE_STRU) :
    Nat × Option CNAS_HSM_MSG_STRU × CNAS_HSM_CACHE_MSG_QUEUE_STRU :=
  if pstMsgQueue.ucCacheMsgNum = 0 then (VOS_FALSE, none, pstMsgQueue)
  else
    let ucIndex := CNAS_HSM_GetHighestPriCachedMsg CNAS_HSM_MSG_PRI_LVL_BUTT pstMsgQueue
    match (pstMsgQueue.astCacheMsg.getD ucIndex default).pucMsgBuffer with
    | none => (VOS_FALSE, none, pstMsgQueue)
    | some pstCacheMsgHdr =>
      let ulEventType :=
        if pstCacheMsgHdr.ulSenderPid = VOS_PID_TIMER then
          CNAS_BuildEventType pstCacheMsgHdr.ulSenderPid pstCacheMsgHdr.ulName
        else CNAS_BuildEventType pstCacheMsgHdr.ulSenderPid pstCacheMsgHdr.ulMsgName
      (VOS_TRUE,
        some { ulEventType := ulEventType, aucMsgBuffer := pstCacheMsgHdr,
               enMsgPri := (pstMsgQueue.astCacheMsg.getD ucIndex default).enMsgPri },
        CNAS_HSM_ClearCacheMsgByIndex CNAS_HSM_MAX_CACHE_MSG_QUEUE_NUM pstMsgQueue ucIndex)

/-- The internal message queue (CNAS_HSM_INT_MSG_QUEUE_STRU): the number of queued messages
and the array pastIntMsg of CNAS_HSM_MAX_INT_MSG_QUEUE_NUM message pointers. -/
structure CNAS_HSM_INT_MSG_QUEUE_STRU where
  ucIntMsgNum : Nat
  pastIntMsg : List (Option Nat)
  deriving DecidableEq, Repr

/-- The function CNAS_HSM_InitIntMsgQueue: every pointer of the array set to VOS_NULL_PTR
and the count to 0. -/
def CNAS_HSM_InitIntMsgQueue (CNAS_HSM_MAX_INT_MSG_QUEUE_NUM : Nat)
    (pstIntMsgQueue : CNAS_HSM_INT_MSG_QUEUE_STRU) : CNAS_HSM_INT_MSG_QUEUE_STRU :=
  { ucIntMsgNum := 0
    pastIntMsg := (List.range CNAS_HSM_MAX_INT_MSG_QUEUE_NUM).foldl
      (fun past i => past.set i none) pstIntMsgQueue.pastIntMsg }

/-- The function CNAS_HSM_GetIntMsgNum: the count as VOS_UINT32. -/
def CNAS_HSM_GetIntMsgNum (pstMsgQueue : CNAS_HSM_INT_MSG_QUEUE_STRU) : Nat :=
  pstMsgQueue.ucIntMsgNum

/-- The function CNAS_HSM_PutMsgInIntMsgQueue: the queue it leaves.  On a full queue the
message is freed and the queue is not touched. -/
def CNAS_HSM_PutMsgInIntMsgQueue (CNAS_HSM_MAX_INT_MSG_QUEUE_NUM : Nat)
    (pstMsgQueue : CNAS_HSM_INT_MSG_QUEUE_STRU) (pstMsg : Option Nat) :
    CNAS_HSM_INT_MSG_QUEUE_STRU :=
  if CNAS_HSM_MAX_INT_MSG_QUEUE_NUM ≤ CNAS_HSM_GetIntMsgNum pstMsgQueue then pstMsgQueue
  else
    let ucIntMsgNum := pstMsgQueue.ucIntMsgNum
    { ucIntMsgNum := (ucIntMsgNum + 1) % 256
      pastIntMsg := pstMsgQueue.pastIntMsg.set ucIntMsgNum pstMsg }

/-- The function CNAS_HSM_GetNextIntMsg: the pointer it returns and the queue it leaves.
The destination size of the move is sizeof(pastIntMsg), the whole array. -/
def CNAS_HSM_GetNextIntMsg (pstMsgQueue : CNAS_HSM_INT_MSG_QUEUE_STRU) :
    Option Nat × CNAS_HSM_INT_MSG_QUEUE_STRU :=
  if 0 < pstMsgQueue.ucIntMsgNum then
    let pstIntMsg := pstMsgQueue.pastIntMsg.getD 0 none
    let ucIntMsgNum := pstMsgQueue.ucIntMsgNum - 1
    let past :=
      if ucIntMsgNum ≠ 0 then
        NAS_MEM_MOVE_S pstMsgQueue.pastIntMsg 0 pstMsgQueue.pastIntMsg.length 1
          (ucIntMsgNum : Int)
      else pstMsgQueue.pastIntMsg
    (pstIntMsg, { ucIntMsgNum := ucIntMsgNum, pastIntMsg := past.set ucIntMsgNum none })
  else (none, pstMsgQueue)

/-! ## Auxiliary definitions for the proofs -/

/-- The cached messages of a cache queue, in index order: the first ucCacheMsgNum elements
of the array. -/
def cached_msgs (q : CNAS_HSM_CACHE_MSG_QUEUE_STRU) : List CNAS_HSM_CACHE_MSG_INFO_STRU :=
  q.astCacheMsg.take q.ucCacheMsgNum

/-- The queued messages of the internal queue, oldest first: the first ucIntMsgNum pointers
of the array. -/
def int_msgs (q : CNAS_HSM_INT_MSG_QUEUE_STRU) : List (Option Nat) :=
  q.pastIntMsg.take q.ucIntMsgNum

/-- A call on the internal message queue: a put of a message pointer or a get. -/
inductive int_msg_op where
  | put (pstMsg : Option Nat)
  | get
  deriving DecidableEq, Repr

/-- The pointers the CNAS_HSM_GetNextIntMsg calls of a sequence of calls return, in order,
and the queue the sequence leaves. -/
def int_queue_run (CNAS_HSM_MAX_INT_MSG_QUEUE_NUM : Nat) :
    List int_msg_op → CNAS_HSM_INT_MSG_QUEUE_STRU →
      List (Option Nat) × CNAS_HSM_INT_MSG_QUEUE_STRU
  | [], q => ([], q)
  | int_msg_op.put pstMsg :: rest, q =>
    int_queue_run CNAS_HSM_MAX_INT_MSG_QUEUE_NUM rest
      (CNAS_HSM_PutMsgInIntMsgQueue CNAS_HSM_MAX_INT_MSG_QUEUE_NUM q pstMsg)
  | int_msg_op.get :: rest, q =>
    ((CNAS_HSM_GetNextIntMsg q).1 ::
        (int_queue_run CNAS_HSM_MAX_INT_MSG_QUEUE_NUM rest (CNAS_HSM_GetNextIntMsg q).2).1,
      (int_queue_run CNAS_HSM_MAX_INT_MSG_QUEUE_NUM rest (CNAS_HSM_GetNextIntMsg q).2).2)

/-- The bounded first-in first-out queue the internal queue is to behave as, on the list of
queued messages: a put appends unless the list holds capacity messages already. -/
def fifo_put (capacity : Nat) (msgs : List (Option Nat)) (msg : Option Nat) :
    List (Option Nat) :=
  if capacity ≤ msgs.length then msgs else msgs ++ [msg]

/-- The bounded first-in first-out queue: a get returns the oldest message and removes it,
and returns the null pointer on the empty list. -/
def fifo_get : List (Option Nat) → Option Nat × List (Option Nat)
  | [] => (none, [])
  | msg :: rest => (msg, rest)

/-- The bounded first-in first-out queue: the messages the gets of a sequence of calls
return, in order, and the list the sequence leaves. -/
def fifo_run (capacity : Nat) :
    List int_msg_op → List (Option Nat) → List (Option Nat) × List (Option Nat)
  | [], msgs => ([], msgs)
  | int_msg_op.put msg :: rest, msgs => fifo_run capacity rest (fifo_put capacity msgs msg)
  | int_msg_op.get :: rest, msgs =>
    ((fifo_get msgs).1 :: (fifo_run capacity rest (fifo_get msgs).2).1,
      (fifo_run capacity rest (fifo_get msgs).2).2)

/-- A cache queue of the examples: the capacity 4 with the three messages 11 (priority 1),
12 (priority 0) and 13 (priority 0) cached, all sent by the process 5. -/
def example_cache_queue : CNAS_HSM_CACHE_MSG_QUEUE_STRU :=
  { ucCacheMsgNum := 3
    astCacheMsg := [⟨1, some ⟨5, 11, 0, 8⟩⟩, ⟨0, some ⟨5, 12, 0, 8⟩⟩, ⟨0, some ⟨5, 13, 0, 8⟩⟩,
      zeroed_cache_msg] }

end CnasHsm

/-!
# 1x call control instance management (CnasXccInstanceMgmt.c): CNAS_XCC_AllocConnectedId

The constant CNAS_XCC_MAX_FSM_ENTITY_NUM of the headers (not under src/) is a
parameter; the loop counter is a VOS_UINT8, reduced modulo 256 when incremented, and the
loop is run with fuel.
-/

namespace CnasXcc

/-- Modelled from the spec: the VOS boolean VOS_TRUE of the platform headers (not under
src/). -/
def VOS_TRUE : Nat := 1

/-- Modelled from the spec: the VOS boolean VOS_FALSE of the platform headers (not under
src/). -/
def VOS_FALSE : Nat := 0

/-- The fields of stCallInfoCtx that CNAS_XCC_AllocConnectedId reads and writes. -/
structure CNAS_XCC_CALL_INFO_CTX_STRU where
  ucIsEntityActive : Nat
  ucConnectId : Nat
  deriving DecidableEq, Repr

/-- A call control entity (an element of astFsmEntity). -/
structure CNAS_XCC_FSM_ENTITY_STRU where
  stCallInfoCtx : CNAS_XCC_CALL_INFO_CTX_STRU
  deriving DecidableEq, Repr

instance : Inhabited CNAS_XCC_FSM_ENTITY_STRU := ⟨⟨⟨0, 0⟩⟩⟩

/-- The part of the XCC context the function works on: the array astFsmEntity of
CNAS_XCC_MAX_FSM_ENTITY_NUM entities. -/
structure CNAS_XCC_CTX_STRU where
  astFsmEntity : List CNAS_XCC_FSM_ENTITY_STRU
  deriving DecidableEq, Repr

/-- The loop of CNAS_XCC_AllocConnectedId from the value i of its VOS_UINT8 counter, for at
most fuel rounds: the returned value, what is written to *pucIndex (none when nothing is)
and the context it leaves; none when the fuel does not suffice. -/
def alloc_loop (CNAS_XCC_MAX_FSM_ENTITY_NUM : Nat) (pstXccCtxAddr : CNAS_XCC_CTX_STRU) :
    Nat → Nat → Option (Nat × Option Nat × CNAS_XCC_CTX_STRU)
  | 0, _ => none
  | fuel + 1, i =>
    if i < CNAS_XCC_MAX_FSM_ENTITY_NUM then
      if VOS_FALSE = (pstXccCtxAddr.astFsmEntity.getD i default).stCallInfoCtx.ucIsEntityActive
      then
        some (VOS_TRUE, some i,
          { astFsmEntity := pstXccCtxAddr.astFsmEntity.set i
              { stCallInfoCtx :=
                  { (pstXccCtxAddr.astFsmEntity.getD i default).stCallInfoCtx with
                    ucConnectId := (i + 1) % 256 } } })
      else alloc_loop CNAS_XCC_MAX_FSM_ENTITY_NUM pstXccCtxAddr fuel ((i + 1) % 256)
    else some (VOS_FALSE, none, pstXccCtxAddr)

/-- The function CNAS_XCC_AllocConnectedId, run for at most fuel rounds of its loop. -/
def CNAS_XCC_AllocConnectedId (CNAS_XCC_MAX_FSM_ENTITY_NUM : Nat)
    (pstXccCtxAddr : CNAS_XCC_CTX_STRU) (fuel : Nat) :
    Option (Nat × Option Nat × CNAS_XCC_CTX_STRU) :=
  alloc_loop CNAS_XCC_MAX_FSM_ENTITY_NUM pstXccCtxAddr fuel 0

/-- A context of the examples: four entities of which the first two are active. -/
def example_ctx : CNAS_XCC_CTX_STRU :=
  { astFsmEntity := [⟨⟨1, 1⟩⟩, ⟨⟨1, 2⟩⟩, ⟨⟨0, 0⟩⟩, ⟨⟨0, 9⟩⟩] }

end CnasXcc

namespace CpuCooling

open cpufreq_cooling_property

/-! ## Facts about get_property -/

theorem first_loop_max_level (es : List Nat) (s : scan_state) :
    (first_loop es s).max_level = s.max_level + distinct_from s.freq es := by
  induction es generalizing s with
  | nil => simp [first_loop, distinct_from]
  | cons e rest ih =>
    rw [first_loop, ih]
    unfold first_loop_step
    by_cases h1 : e = CPUFREQ_ENTRY_INVALID
    · simp [distinct_from, h1]
    · by_cases h2 : s.freq = e
      · simp [distinct_from, h1, h2]
      · simp [distinct_from, h1, h2]; omega

theorem distinct_from_le_invalid (es : List Nat) (f : Nat) :
    distinct_from f es ≤ distinct_from CPUFREQ_ENTRY_INVALID es := by
  induction es generalizing f with
  | nil => simp [distinct_from]
  | cons e rest ih =>
    by_cases h1 : e = CPUFREQ_ENTRY_INVALID
    · simpa [distinct_from, h1] using ih f
    · have h3 : ¬ CPUFREQ_ENTRY_INVALID = e := fun h => h1 h.symm
      by_cases h2 : f = e
      · subst h2; simp [distinct_from, h1, h3]
      · simp [distinct_from, h1, h2, h3]

theorem distinct_from_le_length (es : List Nat) (f : Nat) :
    distinct_from f es ≤ es.length := by
  induction es generalizing f with
  | nil => simp [distinct_from]
  | cons e rest ih =>
    simp only [distinct_from, List.length_cons]
    split_ifs
    · exact Nat.le_succ_of_le (ih f)
    · exact Nat.le_succ_of_le (ih f)
    · exact Nat.succ_le_succ (ih e)

theorem second_loop_cons_level (input level ml : Nat) (d : Int) (e : Nat) (rest : List Nat)
    (freq j : Nat) :
    second_loop GET_LEVEL input level ml d (e :: rest) freq j =
      if e = CPUFREQ_ENTRY_INVALID then second_loop GET_LEVEL input level ml d rest freq j
      else if freq = e then second_loop GET_LEVEL input level ml d rest freq j
      else if input % 2 ^ 32 = e then
        Except.ok ((if d ≠ 0 then j else (ml + 2 ^ 64 - j) % 2 ^ 64) % 2 ^ 32)
      else second_loop GET_LEVEL input level ml d rest e (j + 1) := by
  rw [second_loop]
  simp only [true_and, false_and, if_false, reduceCtorEq]

theorem second_loop_cons_freq (input level ml : Nat) (d : Int) (e : Nat) (rest : List Nat)
    (freq j : Nat) :
    second_loop GET_FREQ input level ml d (e :: rest) freq j =
      if e = CPUFREQ_ENTRY_INVALID then second_loop GET_FREQ input level ml d rest freq j
      else if freq = e then second_loop GET_FREQ input level ml d rest freq j
      else if level = j then Except.ok e
      else second_loop GET_FREQ input level ml d rest e (j + 1) := by
  rw [second_loop]
  simp only [true_and, false_and, if_false, reduceCtorEq]

/-- A successful GET_FREQ scan stopped at a counter value the loop can reach. -/
theorem second_loop_get_freq_bound (input level ml : Nat) (d : Int) (es : List Nat)
    (freq j0 f : Nat)
    (h : second_loop GET_FREQ input level ml d es freq j0 = Except.ok f) :
    j0 ≤ level ∧ level < j0 + distinct_from freq es := by
  induction es generalizing freq j0 with
  | nil => simp [second_loop] at h
  | cons e rest ih =>
    rw [second_loop_cons_freq] at h
    by_cases h1 : e = CPUFREQ_ENTRY_INVALID
    · rw [if_pos h1] at h
      simpa [distinct_from, h1] using ih freq j0 h
    · rw [if_neg h1] at h
      by_cases h2 : freq = e
      · rw [if_pos h2] at h
        have := ih freq j0 h
        simpa [distinct_from, h1, h2] using this
      · rw [if_neg h2] at h
        by_cases h3 : level = j0
        · simp [distinct_from, h1, h2, h3]
        · rw [if_neg h3] at h
          have := ih e (j0 + 1) h
          simp only [distinct_from, h1, h2, if_false]
          omega

/-- A successful GET_LEVEL scan stopped at a counter value j that a GET_FREQ scan for level j
reaches at the same entry. -/
theorem second_loop_get_level_spec (input level ml : Nat) (d : Int) (es : List Nat)
    (freq j0 o : Nat)
    (h : second_loop GET_LEVEL input level ml d es freq j0 = Except.ok o) :
    ∃ j, j0 ≤ j ∧ j < j0 + distinct_from freq es ∧
      o = (if d ≠ 0 then j else (ml + 2 ^ 64 - j) % 2 ^ 64) % 2 ^ 32 ∧
      ∀ (input2 ml2 : Nat) (d2 : Int),
        second_loop GET_FREQ input2 j ml2 d2 es freq j0 = Except.ok (input % 2 ^ 32) := by
  induction es generalizing freq j0 with
  | nil => simp [second_loop] at h
  | cons e rest ih =>
    rw [second_loop_cons_level] at h
    by_cases h1 : e = CPUFREQ_ENTRY_INVALID
    · rw [if_pos h1] at h
      obtain ⟨j, hj1, hj2, hj3, hj4⟩ := ih freq j0 h
      refine ⟨j, hj1, ?_, hj3, ?_⟩
      · simpa [distinct_from, h1] using hj2
      · intro input2 ml2 d2
        rw [second_loop_cons_freq, if_pos h1]
        exact hj4 input2 ml2 d2
    · rw [if_neg h1] at h
      by_cases h2 : freq = e
      · rw [if_pos h2] at h
        obtain ⟨j, hj1, hj2, hj3, hj4⟩ := ih freq j0 h
        refine ⟨j, hj1, ?_, hj3, ?_⟩
        · simpa [distinct_from, h1, h2] using hj2
        · intro input2 ml2 d2
          rw [second_loop_cons_freq, if_neg h1, if_pos h2]
          exact hj4 input2 ml2 d2
      · rw [if_neg h2] at h
        by_cases h3 : input % 2 ^ 32 = e
        · rw [if_pos h3] at h
          refine ⟨j0, le_refl _, ?_, (Except.ok.inj h).symm, ?_⟩
          · simp [distinct_from, h1, h2]
          · intro input2 ml2 d2
            rw [second_loop_cons_freq, if_neg h1, if_neg h2, if_pos rfl, h3]
        · rw [if_neg h3] at h
          obtain ⟨j, hj1, hj2, hj3, hj4⟩ := ih e (j0 + 1) h
          have hne : ¬ j = j0 := by omega
          refine ⟨j, by omega, ?_, hj3, ?_⟩
          · simp only [distinct_from, h1, h2, if_false]; omega
          · intro input2 ml2 d2
            rw [second_loop_cons_freq, if_neg h1, if_neg h2, if_neg hne]
            exact hj4 input2 ml2 d2

theorem first_loop_count (es : List Nat) :
    (first_loop es { freq := CPUFREQ_ENTRY_INVALID, descend := -1, max_level := 0 }).max_level
      = distinct_from CPUFREQ_ENTRY_INVALID es := by
  rw [first_loop_max_level]; simp

/-- A level that GET_FREQ resolves is an index below the number of table entries. -/
theorem get_property_freq_level_lt (tbl : List Nat) (L f : Nat) (hL : L < 2 ^ 64)
    (hlen : (table_entries tbl).length < 2 ^ 64)
    (h : get_property (some tbl) L GET_FREQ = Except.ok f) :
    L < (table_entries tbl).length := by
  unfold get_property at h
  simp only [] at h
  have hc := first_loop_count (table_entries tbl)
  have hle := distinct_from_le_length (table_entries tbl) CPUFREQ_ENTRY_INVALID
  by_cases h0 : (first_loop (table_entries tbl)
      { freq := CPUFREQ_ENTRY_INVALID, descend := -1, max_level := 0 }).max_level = 0
  · rw [if_pos h0] at h; exact absurd h (by simp)
  · rw [if_neg h0, if_neg (by decide), if_pos trivial] at h
    have hb := second_loop_get_freq_bound _ _ _ _ _ _ _ _ h
    have h2 := distinct_from_le_invalid (table_entries tbl)
      (first_loop (table_entries tbl)
        { freq := CPUFREQ_ENTRY_INVALID, descend := -1, max_level := 0 }).freq
    obtain ⟨-, hb2⟩ := hb
    split_ifs at hb2 <;> omega

/-- Looking up the frequency of the level that GET_LEVEL reported gives the frequency that
was asked for: the two directions of get_property agree on every table. -/
theorem get_property_level_then_freq (tbl : List Nat) (f s : Nat)
    (hlen : (table_entries tbl).length < 2 ^ 32)
    (h : get_property (some tbl) f GET_LEVEL = Except.ok s) :
    get_property (some tbl) s GET_FREQ = Except.ok (f % 2 ^ 32) := by
  unfold get_property at h ⊢
  simp only [] at h ⊢
  have hc := first_loop_count (table_entries tbl)
  have hle := distinct_from_le_length (table_entries tbl) CPUFREQ_ENTRY_INVALID
  by_cases h0 : (first_loop (table_entries tbl)
      { freq := CPUFREQ_ENTRY_INVALID, descend := -1, max_level := 0 }).max_level = 0
  · rw [if_pos h0] at h; exact absurd h (by simp)
  · rw [if_neg h0, if_neg (by decide)] at h
    rw [if_neg h0, if_neg (by decide), if_pos trivial]
    obtain ⟨j, -, hj2, hj3, hj4⟩ := second_loop_get_level_spec _ _ _ _ _ _ _ _ h
    have h2 := distinct_from_le_invalid (table_entries tbl)
      (first_loop (table_entries tbl)
        { freq := CPUFREQ_ENTRY_INVALID, descend := -1, max_level := 0 }).freq
    have hlev : (if (first_loop (table_entries tbl)
          { freq := CPUFREQ_ENTRY_INVALID, descend := -1, max_level := 0 }).descend ≠ 0
        then s
        else ((first_loop (table_entries tbl)
          { freq := CPUFREQ_ENTRY_INVALID, descend := -1, max_level := 0 }).max_level - 1
            + 2 ^ 64 - s) % 2 ^ 64) = j := by
      rw [hj3]
      split_ifs <;> omega
    rw [hlev]
    exact hj4 _ _ _

/-! ## The levels of a table as a list -/

theorem distinct_list_length (es : List Nat) (freq : Nat) :
    (distinct_list freq es).length = distinct_from freq es := by
  induction es generalizing freq with
  | nil => simp [distinct_list, distinct_from]
  | cons e rest ih =>
    simp only [distinct_list, distinct_from]
    split_ifs
    · exact ih freq
    · exact ih freq
    · simp [ih e]

theorem distinct_list_mem (es : List Nat) (freq x : Nat)
    (h : x ∈ distinct_list freq es) : x ∈ es := by
  induction es generalizing freq with
  | nil => simp [distinct_list] at h
  | cons e rest ih =>
    simp only [distinct_list] at h
    split_ifs at h
    · exact List.mem_cons_of_mem _ (ih freq h)
    · exact List.mem_cons_of_mem _ (ih freq h)
    · rcases List.mem_cons.mp h with h | h
      · rw [h]; simp
      · exact List.mem_cons_of_mem _ (ih e h)

/-- The value freq is left with by the first loop: the last counted entry. -/
theorem first_loop_freq (es : List Nat) (s : scan_state) :
    (first_loop es s).freq = (distinct_list s.freq es).getLast?.getD s.freq := by
  induction es generalizing s with
  | nil => simp [first_loop, distinct_list]
  | cons e rest ih =>
    rw [first_loop, ih]
    unfold first_loop_step
    by_cases h1 : e = CPUFREQ_ENTRY_INVALID
    · simp [distinct_list, h1]
    · by_cases h2 : s.freq = e
      · simp [distinct_list, h1, h2]
      · simp [distinct_list, h1, h2, List.getLast?_cons]

/-- A loop entered with a value other than the first counted entry counts the same entries
as the first loop. -/
theorem distinct_list_of_head_ne (es : List Nat) (freq : Nat)
    (h : (distinct_list CPUFREQ_ENTRY_INVALID es).head? ≠ some freq) :
    distinct_list freq es = distinct_list CPUFREQ_ENTRY_INVALID es := by
  induction es with
  | nil => simp [distinct_list]
  | cons e rest ih =>
    by_cases h1 : e = CPUFREQ_ENTRY_INVALID
    · simp only [distinct_list, h1, if_true] at h ⊢
      exact ih h
    · have h3 : ¬ CPUFREQ_ENTRY_INVALID = e := fun hh => h1 hh.symm
      simp only [distinct_list, h1, h3, if_false, List.head?_cons] at h ⊢
      have h2 : ¬ freq = e := fun hh => h (by rw [hh])
      simp [h2]

/-- A GET_FREQ scan for the level j0 + k returns the entry of index k among those the loop
counts. -/
theorem second_loop_get_freq_at (input ml : Nat) (d : Int) (es : List Nat)
    (freq j0 k e : Nat) (h : (distinct_list freq es)[k]? = some e) :
    second_loop GET_FREQ input (j0 + k) ml d es freq j0 = Except.ok e := by
  induction es generalizing freq j0 k with
  | nil => simp [distinct_list] at h
  | cons e0 rest ih =>
    rw [second_loop_cons_freq]
    simp only [distinct_list] at h
    by_cases h1 : e0 = CPUFREQ_ENTRY_INVALID
    · rw [if_pos h1] at h ⊢
      exact ih freq j0 k h
    · rw [if_neg h1] at h ⊢
      by_cases h2 : freq = e0
      · rw [if_pos h2] at h ⊢
        exact ih freq j0 k h
      · rw [if_neg h2] at h ⊢
        cases k with
        | zero =>
          simp only [List.getElem?_cons_zero, Option.some.injEq] at h
          rw [if_pos (by omega), h]
        | succ k2 =>
          simp only [List.getElem?_cons_succ] at h
          rw [if_neg (by omega)]
          have := ih e0 (j0 + 1) k2 h
          rw [show j0 + (k2 + 1) = j0 + 1 + k2 by omega]
          exact this

/-- A GET_LEVEL scan for the frequency found first at index k among the entries the loop
counts reports the level of the counter value j0 + k. -/
theorem second_loop_get_level_at (input level ml : Nat) (d : Int) (es : List Nat)
    (freq j0 k : Nat) (h : (distinct_list freq es)[k]? = some (input % 2 ^ 32))
    (hfirst : ∀ k2, k2 < k → (distinct_list freq es)[k2]? ≠ some (input % 2 ^ 32)) :
    second_loop GET_LEVEL input level ml d es freq j0
      = Except.ok ((if d ≠ 0 then j0 + k else (ml + 2 ^ 64 - (j0 + k)) % 2 ^ 64) % 2 ^ 32) := by
  induction es generalizing freq j0 k with
  | nil => simp [distinct_list] at h
  | cons e0 rest ih =>
    rw [second_loop_cons_level]
    simp only [distinct_list] at h hfirst
    by_cases h1 : e0 = CPUFREQ_ENTRY_INVALID
    · rw [if_pos h1] at h hfirst ⊢
      exact ih freq j0 k h hfirst
    · rw [if_neg h1] at h hfirst ⊢
      by_cases h2 : freq = e0
      · rw [if_pos h2] at h hfirst ⊢
        exact ih freq j0 k h hfirst
      · rw [if_neg h2] at h hfirst ⊢
        cases k with
        | zero =>
          simp only [List.getElem?_cons_zero, Option.some.injEq] at h
          rw [if_pos h.symm]
          rfl
        | succ k2 =>
          have hz := hfirst 0 (by omega)
          simp only [List.getElem?_cons_zero, ne_eq, Option.some.injEq] at hz
          rw [if_neg (fun hh => hz hh.symm)]
          simp only [List.getElem?_cons_succ] at h
          have := ih e0 (j0 + 1) k2 h (fun k3 hk3 => by
            have := hfirst (k3 + 1) (by omega)
            simpa using this)
          rw [show j0 + (k2 + 1) = j0 + 1 + k2 by omega]
          exact this

/-- The round trip of get_property on every table of u32 entries, shorter than 2^32, that
has at least two levels with pairwise different frequencies (as every sorted table with two
distinct valid frequencies has): each level L up to the maximum level resolves to a
frequency, and that frequency resolves back to L. -/
theorem get_property_round_trip (tbl : List Nat) (L : Nat)
    (hu32 : ∀ e ∈ table_entries tbl, e < 2 ^ 32)
    (hlen : (table_entries tbl).length < 2 ^ 32)
    (hnodup : (distinct_list CPUFREQ_ENTRY_INVALID (table_entries tbl)).Nodup)
    (htwo : 2 ≤ (distinct_list CPUFREQ_ENTRY_INVALID (table_entries tbl)).length)
    (hL : L < (distinct_list CPUFREQ_ENTRY_INVALID (table_entries tbl)).length) :
    get_property (some tbl) 0 GET_MAXL
      = Except.ok ((distinct_list CPUFREQ_ENTRY_INVALID (table_entries tbl)).length - 1) ∧
    ∃ f, get_property (some tbl) L GET_FREQ = Except.ok f ∧
      get_property (some tbl) f GET_LEVEL = Except.ok L := by
  have hc := first_loop_count (table_entries tbl)
  have hle := distinct_from_le_length (table_entries tbl) CPUFREQ_ENTRY_INVALID
  have hdl := distinct_list_length (table_entries tbl) CPUFREQ_ENTRY_INVALID
  have hfr := first_loop_freq (table_entries tbl)
    { freq := CPUFREQ_ENTRY_INVALID, descend := -1, max_level := 0 }
  simp only [] at hfr
  -- the second loop counts the same entries as the first
  have hsame : distinct_list
      (first_loop (table_entries tbl)
        { freq := CPUFREQ_ENTRY_INVALID, descend := -1, max_level := 0 }).freq
      (table_entries tbl) = distinct_list CPUFREQ_ENTRY_INVALID (table_entries tbl) := by
    apply distinct_list_of_head_ne
    rw [hfr]
    generalize distinct_list CPUFREQ_ENTRY_INVALID (table_entries tbl) = dl at hnodup htwo
    match dl, hnodup, htwo with
    | a :: b :: t, hnd, _ =>
      simp only [List.head?_cons, ne_eq, Option.some.injEq]
      intro hab
      have hmem : (b :: t).getLast?.getD a ∈ b :: t := by
        cases hg : (b :: t).getLast? with
        | none => simp at hg
        | some x => exact List.mem_of_getLast?_eq_some hg
      rw [List.getLast?_cons_cons] at hab
      rw [List.getLast?_cons] at hmem
      have hx : (b :: t).getLast?.getD CPUFREQ_ENTRY_INVALID = (t.getLast?.getD b) := by
        rw [List.getLast?_cons]; simp
      rw [hx] at hab
      rw [← hab] at hmem
      exact (List.nodup_cons.mp hnd).1 hmem
  have h0 : ¬ (first_loop (table_entries tbl)
      { freq := CPUFREQ_ENTRY_INVALID, descend := -1, max_level := 0 }).max_level = 0 := by
    omega
  -- the counter value the level L stands for
  obtain ⟨j, hj, hlev, henc⟩ : ∃ j, j < (distinct_list CPUFREQ_ENTRY_INVALID
        (table_entries tbl)).length ∧
      (if (first_loop (table_entries tbl)
          { freq := CPUFREQ_ENTRY_INVALID, descend := -1, max_level := 0 }).descend ≠ 0
        then L
        else ((first_loop (table_entries tbl)
          { freq := CPUFREQ_ENTRY_INVALID, descend := -1, max_level := 0 }).max_level - 1
            + 2 ^ 64 - L) % 2 ^ 64) = 0 + j ∧
      ((if (first_loop (table_entries tbl)
          { freq := CPUFREQ_ENTRY_INVALID, descend := -1, max_level := 0 }).descend ≠ 0
        then 0 + j
        else ((first_loop (table_entries tbl)
          { freq := CPUFREQ_ENTRY_INVALID, descend := -1, max_level := 0 }).max_level - 1
            + 2 ^ 64 - (0 + j)) % 2 ^ 64) % 2 ^ 32) = L := by
    by_cases hd : (first_loop (table_entries tbl)
        { freq := CPUFREQ_ENTRY_INVALID, descend := -1, max_level := 0 }).descend ≠ 0
    · exact ⟨L, hL, by rw [if_pos hd]; omega, by rw [if_pos hd]; omega⟩
    · refine ⟨(first_loop (table_entries tbl)
          { freq := CPUFREQ_ENTRY_INVALID, descend := -1, max_level := 0 }).max_level - 1 - L,
        by omega, by rw [if_neg hd]; omega, by rw [if_neg hd]; omega⟩
  have hget : (distinct_list CPUFREQ_ENTRY_INVALID (table_entries tbl))[j]?
      = some ((distinct_list CPUFREQ_ENTRY_INVALID (table_entries tbl)).get ⟨j, hj⟩) := by
    simp
  have hfu32 : (distinct_list CPUFREQ_ENTRY_INVALID (table_entries tbl)).get ⟨j, hj⟩ < 2 ^ 32 :=
    hu32 _ (distinct_list_mem _ _ _ (List.get_mem _ _ _))
  refine ⟨?_, (distinct_list CPUFREQ_ENTRY_INVALID (table_entries tbl)).get ⟨j, hj⟩, ?_, ?_⟩
  · unfold get_property
    simp only []
    rw [if_neg h0, if_pos trivial, hc, ← hdl]
    congr 1
    omega
  · unfold get_property
    simp only []
    rw [if_neg h0, if_neg (by decide), if_pos trivial, hlev]
    exact second_loop_get_freq_at _ _ _ _ _ _ _ _ (by rw [hsame]; exact hget)
  · unfold get_property
    simp only []
    rw [if_neg h0, if_neg (by decide)]
    rw [second_loop_get_level_at _ _ _ _ _ _ 0 j
      (by rw [hsame, Nat.mod_eq_of_lt hfu32]; exact hget)
      (by
        intro k2 hk2 hcon
        rw [hsame, Nat.mod_eq_of_lt hfu32] at hcon
        have hk2l : k2 < (distinct_list CPUFREQ_ENTRY_INVALID (table_entries tbl)).length := by
          omega
        have h1 : (distinct_list CPUFREQ_ENTRY_INVALID (table_entries tbl)).get ⟨k2, hk2l⟩
            = (distinct_list CPUFREQ_ENTRY_INVALID (table_entries tbl)).get ⟨j, hj⟩ := by
          have : (distinct_list CPUFREQ_ENTRY_INVALID (table_entries tbl))[k2]?
              = some ((distinct_list CPUFREQ_ENTRY_INVALID (table_entries tbl)).get
                ⟨k2, hk2l⟩) := by simp
          rw [this] at hcon
          exact Option.some.inj hcon
        have := (List.Nodup.get_inj_iff hnodup).mp h1
        simp at this
        omega)]
    rw [henc]

/-! ## Facts about the power table scans -/

theorem table_scan_getD (stop : power_table → Bool) (l pre : List power_table)
    (p : power_table) :
    (pre ++ p :: l).getD (table_scan stop l (pre.length + 1) - 1) default
      = scan_entry stop p l := by
  induction l generalizing pre p with
  | nil => simp [table_scan, scan_entry]
  | cons e rest ih =>
    simp only [table_scan, scan_entry]
    by_cases hs : stop e = true
    · simp only [hs, if_true, Nat.add_sub_cancel]
      rw [List.getD_eq_getElem?_getD, List.getElem?_append_right (le_refl _)]
      simp
    · simp only [hs, Bool.false_eq_true, if_false]
      have := ih (pre ++ [p]) e
      simpa using this

theorem table_scan_entry (stop : power_table → Bool) (e0 : power_table)
    (l : List power_table) :
    (e0 :: l).getD (table_scan stop ((e0 :: l).drop 1) 1 - 1) default = scan_entry stop e0 l := by
  simpa using table_scan_getD stop l [] e0

/-- The scan splits the table around the entry it ends on: that entry is the first one or was
not stopped at, and the entry after it, if any, stopped the scan. -/
theorem scan_entry_split (stop : power_table → Bool) (prev : power_table)
    (l : List power_table) :
    ∃ l1 l2, prev :: l = l1 ++ scan_entry stop prev l :: l2 ∧
      (l1 = [] ∨ stop (scan_entry stop prev l) = false) ∧
      (∀ e, l2.head? = some e → stop e = true) := by
  induction l generalizing prev with
  | nil => exact ⟨[], [], by simp [scan_entry], Or.inl rfl, by simp⟩
  | cons e rest ih =>
    by_cases hs : stop e = true
    · refine ⟨[], e :: rest, by simp [scan_entry, hs], Or.inl rfl, ?_⟩
      intro x hx
      simp at hx
      rw [← hx]; exact hs
    · obtain ⟨l1, l2, h1, h2, h3⟩ := ih e
      have hr : scan_entry stop prev (e :: rest) = scan_entry stop e rest := by
        simp [scan_entry, hs]
      refine ⟨prev :: l1, l2, ?_, Or.inr ?_, ?_⟩
      · rw [hr, List.cons_append, ← h1]
      · rw [hr]
        rcases h2 with h2 | h2
        · subst h2
          simp at h1
          rw [← h1.1]
          simpa using hs
        · exact h2
      · exact h3

/-- With keys that never decrease along the table, a scan for x entered at an entry of key at
most x ends on an entry of key at most x, and every entry of key at most x is the entry the
scan ends on or lies before it. -/
theorem scan_entry_floor (key : power_table → Nat) (x : Nat) (prev : power_table)
    (l : List power_table)
    (hs : List.Pairwise (fun a b => key a ≤ key b) (prev :: l)) (hprev : key prev ≤ x) :
    ∃ l1 l2, prev :: l = l1 ++ scan_entry (fun e => decide (x < key e)) prev l :: l2 ∧
      key (scan_entry (fun e => decide (x < key e)) prev l) ≤ x ∧
      (∀ e ∈ l2, x < key e) := by
  obtain ⟨l1, l2, h1, h2, h3⟩ := scan_entry_split (fun e => decide (x < key e)) prev l
  refine ⟨l1, l2, h1, ?_, ?_⟩
  · rcases h2 with h2 | h2
    · subst h2
      simp at h1
      rw [← h1.1]; exact hprev
    · simpa using h2
  · intro e he
    rw [h1] at hs
    have hs2 := (List.pairwise_append.mp hs).2.1
    cases l2 with
    | nil => simp at he
    | cons a t =>
      have ha : x < key a := by simpa using h3 a (by simp)
      rcases List.mem_cons.mp he with h | h
      · rw [h]; exact ha
      · have hs3 := (List.pairwise_cons.mp hs2).2
        have := (List.pairwise_cons.mp hs3).1 e h
        omega

/-! ## Facts about the normalised power -/

theorem to_s32_emod (x : Int) : to_s32 x % 2 ^ 32 = x % 2 ^ 32 := by
  unfold to_s32
  split_ifs <;> omega

/-- The clamped s32 dyn_power of cpufreq_power2state, for a budget that is at least the static
power by less than 2^31, or below it by at most 2^31. -/
theorem dyn_power_clamped (P S : Nat) (h1 : S ≤ P → P - S < 2 ^ 31)
    (h2 : P < S → S - P ≤ 2 ^ 31) :
    power2state_dyn_power P S = ((P - S : Nat) : Int) := by
  unfold power2state_dyn_power to_s32
  simp only []
  split_ifs <;> omega

theorem normalised_power_eq (P S L : Nat) (h1 : S ≤ P → (P - S) * 100 < 2 ^ 32)
    (h2 : P < S → S - P ≤ 2 ^ 31) :
    power2state_normalised_power P S L = (P - S) * 100 / max 1 L := by
  unfold power2state_normalised_power
  simp only []
  rw [dyn_power_clamped P S (fun h => by have := h1 h; omega) h2, to_s32_emod]
  have hnum : ((((P - S : Nat) : Int) * 100) % 2 ^ 32).toNat = (P - S) * 100 := by
    by_cases h : S ≤ P
    · have := h1 h
      omega
    · have : P - S = 0 := by omega
      simp [this]
  rw [hnum]
  congr 1
  split_ifs <;> omega

/-- What cpufreq_power2state returns once a CPU is online and the static power is known, in
terms of the normalised power it computes. -/
theorem cpufreq_power2state_eq (env : kernel_env) (cpufreq_device : cpufreq_cooling_device)
    (tz : thermal_zone_device) (P S : Nat)
    (honline : cpumask_any_and env cpufreq_device.allowed_cpus env.cpu_online_mask
      < env.nr_cpu_ids)
    (hstatic : get_static_power env cpufreq_device tz
      (env.cpufreq_quick_get
        (cpumask_any_and env cpufreq_device.allowed_cpus env.cpu_online_mask)) = Except.ok S) :
    cpufreq_power2state env cpufreq_device tz P =
      (if cpufreq_cooling_get_level
            (env.cpufreq_frequency_get_table
              (cpumask_any_and env cpufreq_device.allowed_cpus env.cpu_online_mask))
            (cpu_power_to_freq cpufreq_device
              (power2state_normalised_power P S cpufreq_device.last_load))
          = THERMAL_CSTATE_INVALID
        then (-EINVAL, some THERMAL_CSTATE_INVALID)
        else (0, some (cpufreq_cooling_get_level
            (env.cpufreq_frequency_get_table
              (cpumask_any_and env cpufreq_device.allowed_cpus env.cpu_online_mask))
            (cpu_power_to_freq cpufreq_device
              (power2state_normalised_power P S cpufreq_device.last_load))))) := by
  unfold cpufreq_power2state
  simp only []
  rw [if_neg (by omega), hstatic]
  simp only []
  split_ifs with h
  · rw [h]
  · rfl

/-- The entry cpu_power_to_freq ends on, for a non-empty table. -/
theorem cpu_power_to_freq_entry (cpufreq_device : cpufreq_cooling_device) (p : Nat)
    (e0 : power_table) (l : List power_table)
    (hpt : cpufreq_device.dyn_power_table = e0 :: l) :
    cpu_power_to_freq cpufreq_device p
      = (scan_entry (fun e => decide (p < e.power)) e0 l).frequency := by
  unfold cpu_power_to_freq
  simp only [hpt]
  rw [table_scan_entry]

/-- The entry cpu_freq_to_power ends on, for a non-empty table. -/
theorem cpu_freq_to_power_entry (cpufreq_device : cpufreq_cooling_device) (f : Nat)
    (e0 : power_table) (l : List power_table)
    (hpt : cpufreq_device.dyn_power_table = e0 :: l) :
    cpu_freq_to_power cpufreq_device f
      = (scan_entry (fun e => decide (f < e.frequency)) e0 l).power := by
  unfold cpu_freq_to_power
  simp only [hpt]
  rw [table_scan_entry]

/-- On a table strictly ascending in frequency, the power looked up for the frequency of a
table entry is the power of that entry. -/
theorem cpu_freq_to_power_at_entry (cpufreq_device : cpufreq_cooling_device)
    (e0 : power_table) (l : List power_table)
    (hpt : cpufreq_device.dyn_power_table = e0 :: l)
    (hs : List.Pairwise (fun a b => a.frequency < b.frequency) (e0 :: l))
    (r : power_table) (hr : r ∈ e0 :: l) :
    cpu_freq_to_power cpufreq_device r.frequency = r.power := by
  rw [cpu_freq_to_power_entry cpufreq_device r.frequency e0 l hpt]
  have hle : List.Pairwise (fun a b => a.frequency ≤ b.frequency) (e0 :: l) :=
    hs.imp (fun h => Nat.le_of_lt h)
  have h0 : e0.frequency ≤ r.frequency := by
    rcases List.mem_cons.mp hr with h | h
    · rw [h]
    · exact Nat.le_of_lt ((List.pairwise_cons.mp hs).1 r h)
  obtain ⟨l1, l2, h1, h2, h3⟩ :=
    scan_entry_floor (fun e => e.frequency) r.frequency e0 l hle h0
  rw [h1] at hr hs
  rcases List.mem_append.mp hr with h | h
  · have := (List.pairwise_append.mp hs).2.2 r h
      (scan_entry (fun e => decide (r.frequency < e.frequency)) e0 l) (by simp)
    omega
  · rcases List.mem_cons.mp h with h | h
    · rw [← h]
    · have := h3 r h
      omega

/-- The entry cpu_power_to_freq ends on has a power of at most p when entry 0 has. -/
theorem cpu_power_to_freq_power_le (p : Nat) (e0 : power_table) (l : List power_table)
    (h0 : e0.power ≤ p) :
    scan_entry (fun e => decide (p < e.power)) e0 l ∈ e0 :: l ∧
    (scan_entry (fun e => decide (p < e.power)) e0 l).power ≤ p := by
  obtain ⟨l1, l2, h1, h2, -⟩ := scan_entry_split (fun e => decide (p < e.power)) e0 l
  constructor
  · rw [h1]; simp
  · rcases h2 with h2 | h2
    · subst h2
      simp at h1
      rw [← h1.1]; exact h0
    · simpa using h2

/-- A state that cpufreq_cooling_get_level reports for a frequency resolves back to that
frequency through get_cpu_frequency. -/
theorem get_cpu_frequency_of_level (table : Option (List Nat)) (freq : Nat)
    (hfreq : freq < 2 ^ 32)
    (hlen : ∀ tbl, table = some tbl → (table_entries tbl).length < 2 ^ 32)
    (h : cpufreq_cooling_get_level table freq ≠ THERMAL_CSTATE_INVALID) :
    get_cpu_frequency table (cpufreq_cooling_get_level table freq) = freq := by
  unfold cpufreq_cooling_get_level at h ⊢
  cases hg : get_property table freq GET_LEVEL with
  | error e => rw [hg] at h; exact absurd rfl h
  | ok val =>
    simp only []
    cases table with
    | none => simp [get_property] at hg
    | some tbl =>
      unfold get_cpu_frequency
      rw [get_property_level_then_freq tbl freq val (hlen tbl rfl) hg]
      simp only []
      exact Nat.mod_eq_of_lt hfreq

theorem budget_arith (S P L pw : Nat) (hSP : S ≤ P) (hpw : pw ≤ (P - S) * 100 / max 1 L) :
    S + pw * L / 100 ≤ P := by
  rcases Nat.eq_zero_or_pos L with h | h
  · subst h; simpa using hSP
  · have hm : max 1 L = L := by omega
    rw [hm] at hpw
    have h1 : pw * L ≤ (P - S) * 100 / L * L := Nat.mul_le_mul_right L hpw
    have h2 : (P - S) * 100 / L * L ≤ (P - S) * 100 := Nat.div_mul_le_self _ _
    have h3 : pw * L / 100 ≤ P - S := by
      apply Nat.div_le_of_le_mul
      omega
    omega

/-! ## Facts about cpufreq_apply_cooling -/

/-- The notification round of cpufreq_apply_cooling only extends the trace: one request for
each visited CPU that has a policy, issued under the notify_device of the entry state. -/
theorem update_round_eq (env : kernel_env) (cpus : List Nat) (st : driver_state) :
    cpus.foldl
        (fun s cpuid => if is_cpufreq_valid env cpuid then cpufreq_update_policy s cpuid else s)
        st
      = { st with
          policy_updates := st.policy_updates ++
            (cpus.filter (is_cpufreq_valid env)).map (fun c => (c, st.notify_device)) } := by
  induction cpus generalizing st with
  | nil => simp
  | cons c rest ih =>
    rw [List.foldl_cons, ih]
    by_cases hv : is_cpufreq_valid env c = true
    · simp [hv, cpufreq_update_policy]
    · simp [hv]

/-- What cpufreq_apply_cooling does for a new cooling state that resolves to a frequency. -/
theorem cpufreq_apply_cooling_resolved (env : kernel_env) (st : driver_state) (L : Nat)
    (hne : st.dev.cpufreq_state ≠ L)
    (hf0 : get_cpu_frequency
      (env.cpufreq_frequency_get_table (cpumask_any env st.dev.allowed_cpus)) L ≠ 0) :
    cpufreq_apply_cooling env st L =
      (0, { dev := { st.dev with
              cpufreq_state := L % 2 ^ 32
              cpufreq_val := get_cpu_frequency
                (env.cpufreq_frequency_get_table (cpumask_any env st.dev.allowed_cpus)) L }
            notify_device := none
            g_ipa_freq_limit := Function.update st.g_ipa_freq_limit
              (env.topology_physical_package_id (cpumask_any env st.dev.allowed_cpus))
              (get_cpu_frequency
                (env.cpufreq_frequency_get_table (cpumask_any env st.dev.allowed_cpus)) L)
            policy_updates := st.policy_updates ++
              ((for_each_cpu env st.dev.allowed_cpus).filter (is_cpufreq_valid env)).map
                (fun c => (c, some st.dev.id)) }) := by
  unfold cpufreq_apply_cooling
  simp only []
  rw [if_neg hne, if_neg hf0, update_round_eq]

/-- A cooling state that get_cpu_frequency resolves fits the unsigned int cpufreq_state. -/
theorem resolved_level_lt (table : Option (List Nat)) (L : Nat) (hL : L < 2 ^ 64)
    (hlen : ∀ tbl, table = some tbl → (table_entries tbl).length < 2 ^ 32)
    (hf0 : get_cpu_frequency table L ≠ 0) : L < 2 ^ 32 := by
  unfold get_cpu_frequency at hf0
  cases hg : get_property table L GET_FREQ with
  | error e => rw [hg] at hf0; exact absurd rfl hf0
  | ok f =>
    cases table with
    | none => simp [get_property] at hg
    | some tbl =>
      have h1 := hlen tbl rfl
      have h2 := get_property_freq_level_lt tbl L f hL (by omega) hg
      omega

/-! ## Claims -/

/-- C1: on the raw table holding the single valid frequency 1000, get_property reports the
maximum level 0 for GET_MAXL but fails with -EINVAL for GET_FREQ at level 0, so the round
trip from level 0 to a frequency and back does not succeed there. -/
theorem C1_single_frequency_level_zero_fails :
    get_property (some [1000]) 0 GET_MAXL = Except.ok 0 ∧
    get_property (some [1000]) 0 GET_FREQ = Except.error (-EINVAL) := by
  decide

/-- C2: on the raw table holding the single valid frequency 1000, get_cpu_frequency at level
0 (which is also the maximum level) returns the error value 0 instead of the largest valid
frequency 1000; on the ascending table 1000, 1500, 2000 level 0 gives 2000 and level 2 gives
1000. -/
theorem C2_single_frequency_get_cpu_frequency_zero :
    get_cpu_frequency (some [1000]) 0 = 0 ∧
    get_property (some [1000]) 0 GET_MAXL = Except.ok 0 ∧
    get_cpu_frequency (some [1000, 1500, 2000]) 0 = 2000 ∧
    get_cpu_frequency (some [1000, 1500, 2000]) 2 = 1000 := by
  decide

/-- C3: on a non-empty dynamic power table strictly ascending in frequency, when some entry
has a frequency at most f, cpu_freq_to_power returns the power of an entry whose frequency
is at most f and is the largest such frequency of the table; when f is below every table
frequency it returns the power of entry 0. -/
theorem C3_cpu_freq_to_power_floor (cpufreq_device : cpufreq_cooling_device) (f : Nat)
    (e0 : power_table) (l : List power_table)
    (hpt : cpufreq_device.dyn_power_table = e0 :: l)
    (hs : List.Pairwise (fun a b => a.frequency < b.frequency) (e0 :: l)) :
    ((∃ e ∈ cpufreq_device.dyn_power_table, e.frequency ≤ f) →
      ∃ e ∈ cpufreq_device.dyn_power_table,
        cpu_freq_to_power cpufreq_device f = e.power ∧ e.frequency ≤ f ∧
        ∀ e2 ∈ cpufreq_device.dyn_power_table, e2.frequency ≤ f →
          e2.frequency ≤ e.frequency) ∧
    ((∀ e ∈ cpufreq_device.dyn_power_table, f < e.frequency) →
      cpu_freq_to_power cpufreq_device f = e0.power) := by
  have hval : cpu_freq_to_power cpufreq_device f
      = (scan_entry (fun e => decide (f < e.frequency)) e0 l).power := by
    unfold cpu_freq_to_power
    simp only [hpt]
    rw [table_scan_entry]
  have hle : List.Pairwise (fun a b => a.frequency ≤ b.frequency) (e0 :: l) :=
    hs.imp (fun h => Nat.le_of_lt h)
  constructor
  · rintro ⟨e1, he1, he1f⟩
    have h0 : e0.frequency ≤ f := by
      rw [hpt] at he1
      rcases List.mem_cons.mp he1 with h | h
      · rw [← h]; exact he1f
      · have := (List.pairwise_cons.mp hs).1 e1 h
        omega
    obtain ⟨l1, l2, h1, h2, h3⟩ :=
      scan_entry_floor (fun e => e.frequency) f e0 l hle h0
    refine ⟨scan_entry (fun e => decide (f < e.frequency)) e0 l, ?_, hval, h2, ?_⟩
    · rw [hpt, h1]; simp
    · intro e2 he2 he2f
      rw [hpt, h1] at he2
      rw [h1] at hle
      rcases List.mem_append.mp he2 with h | h
      · exact (List.pairwise_append.mp hle).2.2 e2 h _ (by simp)
      · rcases List.mem_cons.mp h with h | h
        · rw [h]
        · have := h3 e2 h
          omega
  · intro hall
    rw [hval]
    cases l with
    | nil => simp [scan_entry]
    | cons a t =>
      have : f < a.frequency := hall a (by rw [hpt]; simp)
      simp [scan_entry, this]

/-- C3 on the table 1000/50, 1500/90, 2000/150: the lookup of 1800 gives 90, of 500 gives 50
and of 2500 gives 150, and the floor property holds at 1800. -/
theorem C3_cpu_freq_to_power_floor_witness :
    cpu_freq_to_power (example_device example_power_table 50 none) 1800 = 90 ∧
    cpu_freq_to_power (example_device example_power_table 50 none) 500 = 50 ∧
    cpu_freq_to_power (example_device example_power_table 50 none) 2500 = 150 ∧
    (((∃ e ∈ (example_device example_power_table 50 none).dyn_power_table,
        e.frequency ≤ 1800) →
      ∃ e ∈ (example_device example_power_table 50 none).dyn_power_table,
        cpu_freq_to_power (example_device example_power_table 50 none) 1800 = e.power ∧
        e.frequency ≤ 1800 ∧
        ∀ e2 ∈ (example_device example_power_table 50 none).dyn_power_table,
          e2.frequency ≤ 1800 → e2.frequency ≤ e.frequency) ∧
    ((∀ e ∈ (example_device example_power_table 50 none).dyn_power_table,
        1800 < e.frequency) →
      cpu_freq_to_power (example_device example_power_table 50 none) 1800
        = (⟨1000, 50⟩ : power_table).power)) :=
  ⟨by decide, by decide, by decide,
    C3_cpu_freq_to_power_floor (example_device example_power_table 50 none) 1800
      ⟨1000, 50⟩ [⟨1500, 90⟩, ⟨2000, 150⟩] rfl (by decide)⟩

/-- C5 (as stated, refuted): with budget 0 below the static power 3000000000 the u32
difference read as s32 is the positive 1294967296, so the driver works with a non-zero
dynamic budget and selects 2000 kHz, not the first entry; and with budget 10 below the
static power 30 on the table 1000/0, 1500/0, 2000/150 the dynamic budget is 0 but the
frequency selected is 1500 kHz, that of the second entry, not of the first. -/
theorem C5_counterexample_wrap_and_zero_power_entries :
    (power2state_dyn_power 0 3000000000 = 1294967296 ∧
      power2state_normalised_power 0 3000000000 100 = 6477107 ∧
      cpu_power_to_freq (example_device example_power_table 100 none) 6477107 = 2000 ∧
      cpufreq_power2state (example_env [1000, 1500, 2000])
        (example_device example_power_table 100 (some (fun _ _ _ => (0, 3000000000))))
        ⟨100⟩ 0 = (0, some 0)) ∧
    (power2state_dyn_power 10 30 = 0 ∧
      power2state_normalised_power 10 30 100 = 0 ∧
      cpu_power_to_freq
        (example_device [⟨1000, 0⟩, ⟨1500, 0⟩, ⟨2000, 150⟩] 100 none) 0 = 1500 ∧
      cpufreq_power2state (example_env [1000, 1500, 2000])
        (example_device [⟨1000, 0⟩, ⟨1500, 0⟩, ⟨2000, 150⟩] 100 (some (fun _ _ _ => (0, 30))))
        ⟨100⟩ 10 = (0, some 1)) := by
  decide

/-- C5 (amended): for every power budget P strictly below the static power S at the current
frequency with S - P at most 2^31, cpufreq_power2state works with the dynamic budget 0 and
the normalised power 0, and on a power table that has a single entry or whose second entry
has a non-zero power it selects the frequency of the first table entry and reports the
level of that frequency. -/
theorem C5_budget_below_static_power (env : kernel_env)
    (cpufreq_device : cpufreq_cooling_device) (tz : thermal_zone_device) (P S : Nat)
    (e0 : power_table) (l : List power_table)
    (honline : cpumask_any_and env cpufreq_device.allowed_cpus env.cpu_online_mask
      < env.nr_cpu_ids)
    (hstatic : get_static_power env cpufreq_device tz
      (env.cpufreq_quick_get
        (cpumask_any_and env cpufreq_device.allowed_cpus env.cpu_online_mask)) = Except.ok S)
    (hlt : P < S) (hwrap : S - P ≤ 2 ^ 31)
    (hpt : cpufreq_device.dyn_power_table = e0 :: l)
    (hsecond : ∀ e, l.head? = some e → 0 < e.power) :
    power2state_dyn_power P S = 0 ∧
    power2state_normalised_power P S cpufreq_device.last_load = 0 ∧
    cpu_power_to_freq cpufreq_device 0 = e0.frequency ∧
    cpufreq_power2state env cpufreq_device tz P =
      (if cpufreq_cooling_get_level
            (env.cpufreq_frequency_get_table
              (cpumask_any_and env cpufreq_device.allowed_cpus env.cpu_online_mask))
            e0.frequency = THERMAL_CSTATE_INVALID
        then (-EINVAL, some THERMAL_CSTATE_INVALID)
        else (0, some (cpufreq_cooling_get_level
            (env.cpufreq_frequency_get_table
              (cpumask_any_and env cpufreq_device.allowed_cpus env.cpu_online_mask))
            e0.frequency))) := by
  have hd : power2state_dyn_power P S = 0 := by
    rw [dyn_power_clamped P S (fun h => by omega) (fun _ => hwrap)]
    have : P - S = 0 := by omega
    simp [this]
  have hn : power2state_normalised_power P S cpufreq_device.last_load = 0 := by
    rw [normalised_power_eq P S _ (fun h => by omega) (fun _ => hwrap)]
    have : P - S = 0 := by omega
    simp [this]
  have hf : cpu_power_to_freq cpufreq_device 0 = e0.frequency := by
    rw [cpu_power_to_freq_entry cpufreq_device 0 e0 l hpt]
    cases l with
    | nil => simp [scan_entry]
    | cons a t =>
      have := hsecond a (by simp)
      simp [scan_entry, this]
  refine ⟨hd, hn, hf, ?_⟩
  rw [cpufreq_power2state_eq env cpufreq_device tz P S honline hstatic, hn, hf]

/-- C5 at budget 10 and static power 30 on the table 1000/50, 1500/90, 2000/150: dynamic
budget and normalised power are 0, the frequency selected is 1000 kHz and the level
reported is 2. -/
theorem C5_budget_below_static_power_witness :
    cpufreq_power2state (example_env [1000, 1500, 2000])
      (example_device example_power_table 50 (some (fun _ _ _ => (0, 30)))) ⟨100⟩ 10
      = (0, some 2) ∧
    (power2state_dyn_power 10 30 = 0 ∧
    power2state_normalised_power 10 30
      (example_device example_power_table 50 (some (fun _ _ _ => (0, 30)))).last_load = 0 ∧
    cpu_power_to_freq (example_device example_power_table 50 (some (fun _ _ _ => (0, 30)))) 0
      = (⟨1000, 50⟩ : power_table).frequency ∧
    cpufreq_power2state (example_env [1000, 1500, 2000])
      (example_device example_power_table 50 (some (fun _ _ _ => (0, 30)))) ⟨100⟩ 10 =
      (if cpufreq_cooling_get_level
            ((example_env [1000, 1500, 2000]).cpufreq_frequency_get_table
              (cpumask_any_and (example_env [1000, 1500, 2000])
                (example_device example_power_table 50 (some (fun _ _ _ => (0, 30)))).allowed_cpus
                (example_env [1000, 1500, 2000]).cpu_online_mask))
            (⟨1000, 50⟩ : power_table).frequency = THERMAL_CSTATE_INVALID
        then (-EINVAL, some THERMAL_CSTATE_INVALID)
        else (0, some (cpufreq_cooling_get_level
            ((example_env [1000, 1500, 2000]).cpufreq_frequency_get_table
              (cpumask_any_and (example_env [1000, 1500, 2000])
                (example_device example_power_table 50 (some (fun _ _ _ => (0, 30)))).allowed_cpus
                (example_env [1000, 1500, 2000]).cpu_online_mask))
            (⟨1000, 50⟩ : power_table).frequency)))) :=
  ⟨by decide,
    C5_budget_below_static_power (example_env [1000, 1500, 2000])
      (example_device example_power_table 50 (some (fun _ _ _ => (0, 30)))) ⟨100⟩ 10 30
      ⟨1000, 50⟩ [⟨1500, 90⟩, ⟨2000, 150⟩]
      (by decide) (by decide) (by decide) (by decide) rfl (by decide)⟩

/-- C6 (as stated, refuted): the table 1000/50, 1500/200, 2000/150 is strictly ascending in
frequency and the normalised power 160 is at least the power 50 of entry 0, yet
cpu_power_to_freq returns 1000 although the entry at 2000 kHz has the power 150 <= 160. -/
theorem C6_counterexample_power_not_monotone :
    List.Pairwise (fun a b => a.frequency < b.frequency)
      (example_device [⟨1000, 50⟩, ⟨1500, 200⟩, ⟨2000, 150⟩] 100 none).dyn_power_table ∧
    (50 : Nat) ≤ 160 ∧
    cpu_power_to_freq (example_device [⟨1000, 50⟩, ⟨1500, 200⟩, ⟨2000, 150⟩] 100 none) 160
      = 1000 ∧
    ¬ (∃ e ∈ (example_device [⟨1000, 50⟩, ⟨1500, 200⟩, ⟨2000, 150⟩] 100 none).dyn_power_table,
        cpu_power_to_freq (example_device [⟨1000, 50⟩, ⟨1500, 200⟩, ⟨2000, 150⟩] 100 none) 160
          = e.frequency ∧ e.power ≤ 160 ∧
        ∀ e2 ∈ (example_device [⟨1000, 50⟩, ⟨1500, 200⟩, ⟨2000, 150⟩] 100 none).dyn_power_table,
          e2.power ≤ 160 → e2.frequency ≤ e.frequency) := by
  decide

/-- C6 (amended): for every non-empty dynamic power table sorted ascending by frequency whose
power never decreases along the table, and every normalised power p that is at least the
power of entry 0, cpu_power_to_freq returns the frequency of an entry whose power is at
most p, and no entry whose power is at most p has a higher frequency. -/
theorem C6_cpu_power_to_freq_floor (cpufreq_device : cpufreq_cooling_device) (p : Nat)
    (e0 : power_table) (l : List power_table)
    (hpt : cpufreq_device.dyn_power_table = e0 :: l)
    (hfreq : List.Pairwise (fun a b => a.frequency ≤ b.frequency) (e0 :: l))
    (hpow : List.Pairwise (fun a b => a.power ≤ b.power) (e0 :: l))
    (h0 : e0.power ≤ p) :
    ∃ e ∈ cpufreq_device.dyn_power_table,
      cpu_power_to_freq cpufreq_device p = e.frequency ∧ e.power ≤ p ∧
      ∀ e2 ∈ cpufreq_device.dyn_power_table, e2.power ≤ p → e2.frequency ≤ e.frequency := by
  obtain ⟨l1, l2, h1, h2, h3⟩ := scan_entry_floor (fun e => e.power) p e0 l hpow h0
  refine ⟨scan_entry (fun e => decide (p < e.power)) e0 l, ?_,
    cpu_power_to_freq_entry cpufreq_device p e0 l hpt, h2, ?_⟩
  · rw [hpt, h1]; simp
  · intro e2 he2 he2p
    rw [hpt, h1] at he2
    rw [h1] at hfreq
    rcases List.mem_append.mp he2 with h | h
    · exact (List.pairwise_append.mp hfreq).2.2 e2 h _ (by simp)
    · rcases List.mem_cons.mp h with h | h
      · rw [h]
      · have := h3 e2 h
        omega

/-- C6 on the table 1000/50, 1500/90, 2000/150 at the normalised power 100: the frequency
returned is 1500, that of the highest entry whose power is at most 100. -/
theorem C6_cpu_power_to_freq_floor_witness :
    cpu_power_to_freq (example_device example_power_table 50 none) 100 = 1500 ∧
    (∃ e ∈ (example_device example_power_table 50 none).dyn_power_table,
      cpu_power_to_freq (example_device example_power_table 50 none) 100 = e.frequency ∧
      e.power ≤ 100 ∧
      ∀ e2 ∈ (example_device example_power_table 50 none).dyn_power_table,
        e2.power ≤ 100 → e2.frequency ≤ e.frequency) :=
  ⟨by decide,
    C6_cpu_power_to_freq_floor (example_device example_power_table 50 none) 100
      ⟨1000, 50⟩ [⟨1500, 90⟩, ⟨2000, 150⟩] rfl (by decide) (by decide) (by decide)⟩

/-- C7 (as stated, refuted): on the table 1000/50, 1500/90, 2000/150 with no static power and
last load 100, cpufreq_power2state succeeds for the budget 10 mW with state 2 (1000 kHz),
whose modelled consumption 0 + 50 * 100 / 100 = 50 mW exceeds the budget. -/
theorem C7_counterexample_budget_below_lowest_entry :
    cpufreq_power2state (example_env [1000, 1500, 2000])
      (example_device example_power_table 100 none) ⟨100⟩ 10 = (0, some 2) ∧
    get_static_power (example_env [1000, 1500, 2000])
      (example_device example_power_table 100 none) ⟨100⟩ 1500 = Except.ok 0 ∧
    get_cpu_frequency (some [1000, 1500, 2000]) 2 = 1000 ∧
    ¬ (0 + cpu_freq_to_power (example_device example_power_table 100 none)
          (get_cpu_frequency (some [1000, 1500, 2000]) 2)
        * (example_device example_power_table 100 none).last_load / 100 ≤ 10) := by
  decide

/-- C7 (amended): whenever cpufreq_power2state succeeds with state s for a power budget P
that is at least the static power S, with (P - S) * 100 below 2^32, on a power table of u32
frequencies strictly ascending in frequency whose entry 0 has a power of at most the
normalised power floor((P - S) * 100 / max(1, last_load)), the state s resolves to a
frequency of the power table and the device at state s consumes at most P by the driver's
model: S + cpu_freq_to_power(frequency of s) * last_load / 100 <= P, and so does the u32
value get_dynamic_power computes. -/
theorem C7_power2state_within_budget (env : kernel_env)
    (cpufreq_device : cpufreq_cooling_device) (tz : thermal_zone_device) (P S s : Nat)
    (e0 : power_table) (l : List power_table)
    (hstatic : get_static_power env cpufreq_device tz
      (env.cpufreq_quick_get
        (cpumask_any_and env cpufreq_device.allowed_cpus env.cpu_online_mask)) = Except.ok S)
    (hres : cpufreq_power2state env cpufreq_device tz P = (0, some s))
    (hpt : cpufreq_device.dyn_power_table = e0 :: l)
    (hs : List.Pairwise (fun a b => a.frequency < b.frequency) (e0 :: l))
    (hu32 : ∀ e ∈ e0 :: l, e.frequency < 2 ^ 32)
    (hlen : ∀ tbl, env.cpufreq_frequency_get_table
        (cpumask_any_and env cpufreq_device.allowed_cpus env.cpu_online_mask) = some tbl →
      (table_entries tbl).length < 2 ^ 32)
    (hSP : S ≤ P) (hov : (P - S) * 100 < 2 ^ 32)
    (hmin : e0.power ≤ (P - S) * 100 / max 1 cpufreq_device.last_load) :
    S + cpu_freq_to_power cpufreq_device
          (get_cpu_frequency
            (env.cpufreq_frequency_get_table
              (cpumask_any_and env cpufreq_device.allowed_cpus env.cpu_online_mask)) s)
        * cpufreq_device.last_load / 100 ≤ P ∧
    S + get_dynamic_power cpufreq_device
          (get_cpu_frequency
            (env.cpufreq_frequency_get_table
              (cpumask_any_and env cpufreq_device.allowed_cpus env.cpu_online_mask)) s) ≤ P := by
  have honline : cpumask_any_and env cpufreq_device.allowed_cpus env.cpu_online_mask
      < env.nr_cpu_ids := by
    by_contra hc
    unfold cpufreq_power2state at hres
    simp only [] at hres
    rw [if_pos (by omega)] at hres
    simp [ENODEV] at hres
  rw [cpufreq_power2state_eq env cpufreq_device tz P S honline hstatic,
    normalised_power_eq P S _ (fun _ => hov) (fun h => by omega),
    cpu_power_to_freq_entry cpufreq_device _ e0 l hpt] at hres
  obtain ⟨hmem, hpw⟩ := cpu_power_to_freq_power_le _ e0 l hmin
  by_cases hinv : cpufreq_cooling_get_level
      (env.cpufreq_frequency_get_table
        (cpumask_any_and env cpufreq_device.allowed_cpus env.cpu_online_mask))
      (scan_entry (fun e => decide ((P - S) * 100 / max 1 cpufreq_device.last_load < e.power))
        e0 l).frequency = THERMAL_CSTATE_INVALID
  · rw [if_pos hinv] at hres
    simp [EINVAL] at hres
  · rw [if_neg hinv] at hres
    have hs_eq : cpufreq_cooling_get_level
        (env.cpufreq_frequency_get_table
          (cpumask_any_and env cpufreq_device.allowed_cpus env.cpu_online_mask))
        (scan_entry
          (fun e => decide ((P - S) * 100 / max 1 cpufreq_device.last_load < e.power))
          e0 l).frequency = s := by
      simpa using hres
    have hfr := get_cpu_frequency_of_level _ _ (hu32 _ hmem) hlen hinv
    rw [hs_eq] at hfr
    have hexact := budget_arith S P cpufreq_device.last_load _ hSP hpw
    have hpower := cpu_freq_to_power_at_entry cpufreq_device e0 l hpt hs _ hmem
    rw [hfr]
    refine ⟨by rw [hpower]; exact hexact, ?_⟩
    unfold get_dynamic_power
    simp only []
    rw [Nat.mod_eq_of_lt (hu32 _ hmem), hpower]
    have hmod : (scan_entry
        (fun e => decide ((P - S) * 100 / max 1 cpufreq_device.last_load < e.power))
        e0 l).power * cpufreq_device.last_load % 2 ^ 32 / 100
        ≤ (scan_entry
          (fun e => decide ((P - S) * 100 / max 1 cpufreq_device.last_load < e.power))
          e0 l).power * cpufreq_device.last_load / 100 :=
      Nat.div_le_div_right (Nat.mod_le _ _)
    omega

/-- C7 at the budget 200 mW with static power 30 and last load 50 on the table 1000/50,
1500/90, 2000/150: the state is 0 (2000 kHz) and 30 + 150 * 50 / 100 = 105 <= 200. -/
theorem C7_power2state_within_budget_witness :
    cpufreq_power2state (example_env [1000, 1500, 2000])
      (example_device example_power_table 50 (some (fun _ _ _ => (0, 30)))) ⟨100⟩ 200
      = (0, some 0) ∧
    (30 + cpu_freq_to_power
          (example_device example_power_table 50 (some (fun _ _ _ => (0, 30))))
          (get_cpu_frequency
            ((example_env [1000, 1500, 2000]).cpufreq_frequency_get_table
              (cpumask_any_and (example_env [1000, 1500, 2000])
                (example_device example_power_table 50 (some (fun _ _ _ => (0, 30)))).allowed_cpus
                (example_env [1000, 1500, 2000]).cpu_online_mask)) 0)
        * (example_device example_power_table 50 (some (fun _ _ _ => (0, 30)))).last_load / 100
      ≤ 200 ∧
    30 + get_dynamic_power
          (example_device example_power_table 50 (some (fun _ _ _ => (0, 30))))
          (get_cpu_frequency
            ((example_env [1000, 1500, 2000]).cpufreq_frequency_get_table
              (cpumask_any_and (example_env [1000, 1500, 2000])
                (example_device example_power_table 50 (some (fun _ _ _ => (0, 30)))).allowed_cpus
                (example_env [1000, 1500, 2000]).cpu_online_mask)) 0) ≤ 200) :=
  ⟨by decide,
    C7_power2state_within_budget (example_env [1000, 1500, 2000])
      (example_device example_power_table 50 (some (fun _ _ _ => (0, 30)))) ⟨100⟩ 200 30 0
      ⟨1000, 50⟩ [⟨1500, 90⟩, ⟨2000, 150⟩]
      (by decide) (by decide) rfl (by decide) (by decide)
      (by intro tbl h; cases h; decide) (by decide) (by decide) (by decide)⟩

/-- C8: for every device state and every level L (an unsigned long, over a frequency table
of fewer than 2^32 entries), once cpufreq_set_cur_state(L) has returned 0, a second
cpufreq_set_cur_state(L), under any kernel state, returns 0 and leaves the whole driver
state as it was: cpufreq_state, cpufreq_val, the notify target and the trace of policy
update requests are unchanged. -/
theorem C8_set_cur_state_idempotent (env env2 : kernel_env) (st : driver_state) (L : Nat)
    (hL : L < 2 ^ 64)
    (hlen : ∀ tbl, env.cpufreq_frequency_get_table (cpumask_any env st.dev.allowed_cpus)
        = some tbl → (table_entries tbl).length < 2 ^ 32)
    (hfirst : (cpufreq_set_cur_state env st L).1 = 0) :
    cpufreq_set_cur_state env2 (cpufreq_set_cur_state env st L).2 L
      = (0, (cpufreq_set_cur_state env st L).2) := by
  unfold cpufreq_set_cur_state at hfirst ⊢
  by_cases hne : st.dev.cpufreq_state = L
  · have h1 : cpufreq_apply_cooling env st L = (0, st) := by
      unfold cpufreq_apply_cooling
      simp only []
      rw [if_pos hne]
    rw [h1]
    unfold cpufreq_apply_cooling
    simp only []
    rw [if_pos hne]
  · by_cases hf0 : get_cpu_frequency
        (env.cpufreq_frequency_get_table (cpumask_any env st.dev.allowed_cpus)) L = 0
    · have h1 : cpufreq_apply_cooling env st L = (-EINVAL, st) := by
        unfold cpufreq_apply_cooling
        simp only []
        rw [if_neg hne, if_pos hf0]
      rw [h1] at hfirst
      simp [EINVAL] at hfirst
    · rw [cpufreq_apply_cooling_resolved env st L hne hf0]
      have hlt := resolved_level_lt _ L hL hlen hf0
      unfold cpufreq_apply_cooling
      simp only []
      rw [if_pos (Nat.mod_eq_of_lt hlt)]

/-- C8 on a device at state 0 over the table 1000, 1500, 2000: after a successful
cpufreq_set_cur_state(1) the device is at state 1 with the clip frequency 1500 and four
requests in the trace, and the second cpufreq_set_cur_state(1) changes nothing. -/
theorem C8_set_cur_state_idempotent_witness :
    (cpufreq_set_cur_state (example_env [1000, 1500, 2000])
      ⟨example_device example_power_table 50 none, none, fun _ => 0, []⟩ 1).1 = 0 ∧
    (cpufreq_set_cur_state (example_env [1000, 1500, 2000])
      ⟨example_device example_power_table 50 none, none, fun _ => 0, []⟩ 1).2.dev.cpufreq_state
      = 1 ∧
    (cpufreq_set_cur_state (example_env [1000, 1500, 2000])
      ⟨example_device example_power_table 50 none, none, fun _ => 0, []⟩ 1).2.dev.cpufreq_val
      = 1500 ∧
    (cpufreq_set_cur_state (example_env [1000, 1500, 2000])
      ⟨example_device example_power_table 50 none, none, fun _ => 0, []⟩ 1).2.policy_updates
      = [(0, some 7), (1, some 7), (2, some 7), (3, some 7)] ∧
    cpufreq_set_cur_state (example_env [1000, 1500, 2000])
        (cpufreq_set_cur_state (example_env [1000, 1500, 2000])
          ⟨example_device example_power_table 50 none, none, fun _ => 0, []⟩ 1).2 1
      = (0, (cpufreq_set_cur_state (example_env [1000, 1500, 2000])
          ⟨example_device example_power_table 50 none, none, fun _ => 0, []⟩ 1).2) :=
  ⟨by decide, by decide, by decide, by decide,
    C8_set_cur_state_idempotent (example_env [1000, 1500, 2000])
      (example_env [1000, 1500, 2000])
      ⟨example_device example_power_table 50 none, none, fun _ => 0, []⟩ 1
      (by decide) (by intro tbl h; cases h; decide) (by decide)⟩

/-- C9: for every device state and every level L different from the current cpufreq_state
for which get_cpu_frequency returns 0, cpufreq_set_cur_state returns -EINVAL and leaves the
whole driver state as it was: cpufreq_state, cpufreq_val and the notify target are
unchanged and no policy update is requested. -/
theorem C9_set_cur_state_unresolved (env : kernel_env) (st : driver_state) (L : Nat)
    (hne : st.dev.cpufreq_state ≠ L)
    (h0 : get_cpu_frequency
      (env.cpufreq_frequency_get_table (cpumask_any env st.dev.allowed_cpus)) L = 0) :
    cpufreq_set_cur_state env st L = (-EINVAL, st) := by
  unfold cpufreq_set_cur_state cpufreq_apply_cooling
  simp only []
  rw [if_neg hne, if_pos h0]

/-- C9 on a device at state 0 over the table 1000, 1500, 2000 (maximum level 2): level 3 does
not resolve, and cpufreq_set_cur_state(3) fails with -EINVAL without any change. -/
theorem C9_set_cur_state_unresolved_witness :
    get_property (some [1000, 1500, 2000]) 0 GET_MAXL = Except.ok 2 ∧
    cpufreq_set_cur_state (example_env [1000, 1500, 2000])
        ⟨example_device example_power_table 50 none, none, fun _ => 0, []⟩ 3
      = (-EINVAL, ⟨example_device example_power_table 50 none, none, fun _ => 0, []⟩) :=
  ⟨by decide,
    C9_set_cur_state_unresolved (example_env [1000, 1500, 2000])
      ⟨example_device example_power_table 50 none, none, fun _ => 0, []⟩ 3
      (by decide) (by decide)⟩

/-- C10: for every device state and every level L (an unsigned long, over a frequency table
of fewer than 2^32 entries) different from the current cpufreq_state that get_cpu_frequency
resolves to a frequency f other than 0, cpufreq_set_cur_state(L) returns 0 with
cpufreq_state = L and cpufreq_val = f, has appended to the trace exactly one policy update
request for each CPU of the affinity mask that has a cpufreq policy (and none for any other
CPU), each issued while notify_device pointed to this device, and has set notify_device to
NOTIFY_INVALID when it returns. -/
theorem C10_set_cur_state_applies (env : kernel_env) (st : driver_state) (L f : Nat)
    (hL : L < 2 ^ 64)
    (hlen : ∀ tbl, env.cpufreq_frequency_get_table (cpumask_any env st.dev.allowed_cpus)
        = some tbl → (table_entries tbl).length < 2 ^ 32)
    (hne : st.dev.cpufreq_state ≠ L)
    (hf : get_cpu_frequency
      (env.cpufreq_frequency_get_table (cpumask_any env st.dev.allowed_cpus)) L = f)
    (hf0 : f ≠ 0) :
    (cpufreq_set_cur_state env st L).1 = 0 ∧
    (cpufreq_set_cur_state env st L).2.dev.cpufreq_state = L ∧
    (cpufreq_set_cur_state env st L).2.dev.cpufreq_val = f ∧
    (cpufreq_set_cur_state env st L).2.notify_device = none ∧
    (cpufreq_set_cur_state env st L).2.policy_updates
      = st.policy_updates ++
        ((for_each_cpu env st.dev.allowed_cpus).filter (is_cpufreq_valid env)).map
          (fun c => (c, some st.dev.id)) ∧
    ((for_each_cpu env st.dev.allowed_cpus).filter (is_cpufreq_valid env)).Nodup ∧
    (∀ c, c ∈ (for_each_cpu env st.dev.allowed_cpus).filter (is_cpufreq_valid env) ↔
      (c < env.nr_cpu_ids ∧ st.dev.allowed_cpus c = true ∧ env.cpufreq_get_policy c = 0)) := by
  have hf0b : get_cpu_frequency
      (env.cpufreq_frequency_get_table (cpumask_any env st.dev.allowed_cpus)) L ≠ 0 := by
    rw [hf]; exact hf0
  have hlt := resolved_level_lt _ L hL hlen hf0b
  unfold cpufreq_set_cur_state
  rw [cpufreq_apply_cooling_resolved env st L hne hf0b]
  refine ⟨rfl, Nat.mod_eq_of_lt hlt, hf, rfl, rfl, ?_, ?_⟩
  · unfold for_each_cpu
    exact ((List.nodup_range _).filter _).filter _
  · intro c
    simp only [for_each_cpu, is_cpufreq_valid, List.mem_filter, List.mem_range,
      decide_eq_true_eq]
    tauto

/-- C10 on a device over CPUs 0 to 3 at state 0 and the table 1000, 1500, 2000:
cpufreq_set_cur_state(2) returns 0, the state is 2, the clip frequency 1000, the trace
holds one request for each of the CPUs 0 to 3 and notify_device is cleared. -/
theorem C10_set_cur_state_applies_witness :
    (for_each_cpu (example_env [1000, 1500, 2000])
        (example_device example_power_table 50 none).allowed_cpus).filter
      (is_cpufreq_valid (example_env [1000, 1500, 2000])) = [0, 1, 2, 3] ∧
    ((cpufreq_set_cur_state (example_env [1000, 1500, 2000])
      ⟨example_device example_power_table 50 none, none, fun _ => 0, []⟩ 2).1 = 0 ∧
    (cpufreq_set_cur_state (example_env [1000, 1500, 2000])
      ⟨example_device example_power_table 50 none, none, fun _ => 0, []⟩ 2).2.dev.cpufreq_state
      = 2 ∧
    (cpufreq_set_cur_state (example_env [1000, 1500, 2000])
      ⟨example_device example_power_table 50 none, none, fun _ => 0, []⟩ 2).2.dev.cpufreq_val
      = 1000 ∧
    (cpufreq_set_cur_state (example_env [1000, 1500, 2000])
      ⟨example_device example_power_table 50 none, none, fun _ => 0, []⟩ 2).2.notify_device
      = none ∧
    (cpufreq_set_cur_state (example_env [1000, 1500, 2000])
      ⟨example_device example_power_table 50 none, none, fun _ => 0, []⟩ 2).2.policy_updates
      = (⟨example_device example_power_table 50 none, none, fun _ => 0, []⟩ :
          driver_state).policy_updates ++
        ((for_each_cpu (example_env [1000, 1500, 2000])
            (⟨example_device example_power_table 50 none, none, fun _ => 0, []⟩ :
              driver_state).dev.allowed_cpus).filter
          (is_cpufreq_valid (example_env [1000, 1500, 2000]))).map
          (fun c => (c, some (⟨example_device example_power_table 50 none, none, fun _ => 0, []⟩ :
              driver_state).dev.id)) ∧
    ((for_each_cpu (example_env [1000, 1500, 2000])
        (⟨example_device example_power_table 50 none, none, fun _ => 0, []⟩ :
          driver_state).dev.allowed_cpus).filter
      (is_cpufreq_valid (example_env [1000, 1500, 2000]))).Nodup ∧
    (∀ c, c ∈ (for_each_cpu (example_env [1000, 1500, 2000])
        (⟨example_device example_power_table 50 none, none, fun _ => 0, []⟩ :
          driver_state).dev.allowed_cpus).filter
        (is_cpufreq_valid (example_env [1000, 1500, 2000])) ↔
      (c < (example_env [1000, 1500, 2000]).nr_cpu_ids ∧
        (⟨example_device example_power_table 50 none, none, fun _ => 0, []⟩ :
          driver_state).dev.allowed_cpus c = true ∧
        (example_env [1000, 1500, 2000]).cpufreq_get_policy c = 0))) :=
  ⟨by decide,
    C10_set_cur_state_applies (example_env [1000, 1500, 2000])
      ⟨example_device example_power_table 50 none, none, fun _ => 0, []⟩ 2 1000
      (by decide) (by intro tbl h; cases h; decide) (by decide) (by decide) (by decide)⟩

/-! ## Facts about the notifier -/

/-- The helper cpufreq_verify_within_limits called with the lower bound 0 leaves the cpu and
the user policy alone and lowers the maximum to the bound when it was above it. -/
theorem cpufreq_verify_within_limits_zero (policy : cpufreq_policy) (max_freq : Nat) :
    (cpufreq_verify_within_limits policy 0 max_freq).max = min policy.max max_freq ∧
    (cpufreq_verify_within_limits policy 0 max_freq).user_policy = policy.user_policy ∧
    (cpufreq_verify_within_limits policy 0 max_freq).cpu = policy.cpu := by
  unfold cpufreq_verify_within_limits
  simp only [Nat.not_lt_zero, if_false]
  split_ifs <;> simp_all <;> omega

/-- The result of the notifier for an ADJUST event on a policy of a CPU of the target. -/
theorem cpufreq_thermal_notifier_adjust (target : cpufreq_cooling_device)
    (policy : cpufreq_policy) (hcpu : target.allowed_cpus policy.cpu = true) :
    cpufreq_thermal_notifier (some target) CPUFREQ_ADJUST policy =
      (NOTIFY_OK,
        if policy.max ≠ min target.cpufreq_val policy.user_policy.max then
          cpufreq_verify_within_limits policy 0
            (min target.cpufreq_val policy.user_policy.max)
        else policy) := by
  have hm : (if target.cpufreq_val > policy.user_policy.max then policy.user_policy.max
      else target.cpufreq_val) = min target.cpufreq_val policy.user_policy.max := by
    split_ifs <;> omega
  unfold cpufreq_thermal_notifier
  rw [if_pos rfl]
  simp only [hcpu, if_true, hm]
  split_ifs <;> rfl

/-! ## Facts about build_dyn_power_table -/

/-- The ceiling lookup returns an operating point of the list at or above freq. -/
theorem opp_ceil_in_mem (freq : Nat) (l : List opp) (o : opp)
    (h : opp_ceil_in freq l = some o) : o ∈ l ∧ freq ≤ o.rate := by
  induction l generalizing o with
  | nil => simp [opp_ceil_in] at h
  | cons a rest ih =>
    simp only [opp_ceil_in] at h
    cases hr : opp_ceil_in freq rest with
    | none =>
      rw [hr] at h
      simp only [] at h
      split_ifs at h with hc
      · cases h
        exact ⟨by simp, hc⟩
    | some b =>
      rw [hr] at h
      simp only [] at h
      have hb := ih b hr
      split_ifs at h with hc
      · cases h
        exact ⟨by simp, hc.1⟩
      · cases h
        exact ⟨List.mem_cons_of_mem _ hb.1, hb.2⟩

/-- The ceiling lookup fails only when no operating point of the list is at or above freq. -/
theorem opp_ceil_in_none (freq : Nat) (l : List opp) (h : opp_ceil_in freq l = none) :
    ∀ o ∈ l, o.rate < freq := by
  induction l with
  | nil => simp
  | cons a rest ih =>
    simp only [opp_ceil_in] at h
    cases hr : opp_ceil_in freq rest with
    | none =>
      rw [hr] at h
      simp only [] at h
      split_ifs at h with hc
      intro o ho
      rcases List.mem_cons.mp ho with h1 | h1
      · rw [h1]; omega
      · exact ih hr o h1
    | some b =>
      rw [hr] at h
      simp only [] at h
      split_ifs at h

/-- The ceiling lookup returns the lowest frequency at or above freq. -/
theorem opp_ceil_in_least (freq : Nat) (l : List opp) (o : opp)
    (h : opp_ceil_in freq l = some o) : ∀ a ∈ l, freq ≤ a.rate → o.rate ≤ a.rate := by
  induction l generalizing o with
  | nil => simp
  | cons x rest ih =>
    simp only [opp_ceil_in] at h
    intro a ha hfa
    cases hr : opp_ceil_in freq rest with
    | none =>
      rw [hr] at h
      simp only [] at h
      have hn := opp_ceil_in_none freq rest hr
      split_ifs at h with hc
      cases h
      rcases List.mem_cons.mp ha with h1 | h1
      · rw [h1]
      · have := hn a h1
        omega
    | some b =>
      rw [hr] at h
      simp only [] at h
      have hb := ih b hr
      split_ifs at h with hc
      · cases h
        rcases List.mem_cons.mp ha with h1 | h1
        · rw [h1]
        · have := hb a h1 hfa
          omega
      · cases h
        rcases List.mem_cons.mp ha with h1 | h1
        · rw [h1]
          have : ¬ (freq ≤ x.rate ∧ x.rate ≤ o.rate) := hc
          have hx : freq ≤ x.rate := by rw [← h1]; exact hfa
          omega
        · exact hb a h1 hfa

/-- Every entry the loop stores is the entry computed for an operating point of the device
at or above the frequency the loop was entered with. -/
theorem build_power_entries_mem (lib : opp_library) (dev capacitance fuel freq : Nat)
    (e : power_table) (he : e ∈ build_power_entries lib dev capacitance fuel freq) :
    ∃ l o, lib.opp_list dev = some l ∧ o ∈ l ∧ freq ≤ o.rate ∧
      e = dyn_power_entry capacitance o.rate o.u_volt := by
  induction fuel generalizing freq with
  | zero => simp [build_power_entries] at he
  | succ n ih =>
    simp only [build_power_entries] at he
    cases hc : opp_find_freq_ceil lib dev freq with
    | none => rw [hc] at he; simp at he
    | some o =>
      rw [hc] at he
      simp only [] at he
      unfold opp_find_freq_ceil at hc
      cases hl : lib.opp_list dev with
      | none => rw [hl] at hc; simp at hc
      | some l =>
        rw [hl] at hc
        simp only [] at hc
        have hm := opp_ceil_in_mem freq l o hc
        rcases List.mem_cons.mp he with h1 | h1
        · exact ⟨l, o, rfl, hm.1, hm.2, by rw [h1]; rfl⟩
        · obtain ⟨l2, o2, hl2, ho2, hf2, he2⟩ := ih (o.rate + 1) h1
          rw [hl] at hl2
          cases hl2
          exact ⟨l, o2, rfl, ho2, by omega, he2⟩

/-- The number of operating points at or above freq, which bounds the rounds of the loop. -/
theorem opp_ceil_count_lt (freq : Nat) (l : List opp) (o : opp)
    (h : opp_ceil_in freq l = some o) :
    (l.filter (fun a => decide (o.rate + 1 ≤ a.rate))).length
      < (l.filter (fun a => decide (freq ≤ a.rate))).length := by
  have hm := opp_ceil_in_mem freq l o h
  have hmem := hm.1
  have hf := hm.2
  clear hm h
  induction l with
  | nil => simp at hmem
  | cons x rest ih =>
    have hmono : (rest.filter (fun a => decide (o.rate + 1 ≤ a.rate))).length
        ≤ (rest.filter (fun a => decide (freq ≤ a.rate))).length := by
      apply List.Sublist.length_le
      apply List.monotone_filter_right
      intro a ha
      simp only [decide_eq_true_eq] at ha ⊢
      omega
    rcases List.mem_cons.mp hmem with h1 | h1
    · subst h1
      have h2 : ¬ (o.rate + 1 ≤ o.rate) := by omega
      simp only [List.filter_cons, h2, hf, decide_True, decide_False, if_true]
      simp only [Bool.false_eq_true, if_false, List.length_cons]
      omega
    · have := ih h1
      simp only [List.filter_cons]
      split_ifs with ha hb hb
      · simp only [List.length_cons]; omega
      · simp only [decide_eq_true_eq] at ha hb
        omega
      · simp only [List.length_cons]; omega
      · exact this

/-- More fuel than there are operating points at or above freq does not change what the loop
stores: the loop ends by a failed lookup, not by the fuel. -/
theorem build_power_entries_fuel (lib : opp_library) (dev capacitance : Nat) (l : List opp)
    (hl : lib.opp_list dev = some l) (fuel extra freq : Nat)
    (h : (l.filter (fun a => decide (freq ≤ a.rate))).length < fuel) :
    build_power_entries lib dev capacitance (fuel + extra) freq
      = build_power_entries lib dev capacitance fuel freq := by
  induction fuel generalizing freq with
  | zero => omega
  | succ n ih =>
    rw [show n + 1 + extra = (n + extra) + 1 by omega]
    simp only [build_power_entries]
    cases hc : opp_find_freq_ceil lib dev freq with
    | none => rfl
    | some o =>
      simp only []
      congr 1
      apply ih
      unfold opp_find_freq_ceil at hc
      rw [hl] at hc
      simp only [] at hc
      have := opp_ceil_count_lt freq l o hc
      omega

/-- The fuel build_dyn_power_table gives the loop, one more than the number of operating
points, is enough: any larger amount stores the same entries. -/
theorem build_power_entries_enough_fuel (lib : opp_library) (dev capacitance : Nat)
    (l : List opp) (hl : lib.opp_list dev = some l) (extra freq : Nat) :
    build_power_entries lib dev capacitance (l.length.succ + extra) freq
      = build_power_entries lib dev capacitance l.length.succ freq := by
  apply build_power_entries_fuel lib dev capacitance l hl
  have := List.length_filter_le (fun a => decide (freq ≤ a.rate)) l
  omega

/-- The entry stored for an operating point whose kHz frequency fits 32 bits and whose
product capacitance * MHz * mV^2 is below 2^32 * 10^9: nothing wraps and nothing is
truncated. -/
theorem dyn_power_entry_exact (capacitance freq u_volt : Nat)
    (hk : freq / 1000 < 2 ^ 32)
    (hp : capacitance * (freq / 1000000) * (u_volt / 1000) ^ 2 < 2 ^ 32 * 1000000000) :
    (dyn_power_entry capacitance freq u_volt).frequency = freq / 1000 ∧
    (dyn_power_entry capacitance freq u_volt).power
      = capacitance * (freq / 1000000) * (u_volt / 1000) ^ 2 / 1000000000 := by
  have hmhz : freq / 1000000 % 2 ^ 32 = freq / 1000000 := by
    apply Nat.mod_eq_of_lt
    omega
  unfold dyn_power_entry
  simp only []
  rw [hmhz, Nat.mod_eq_of_lt hk]
  refine ⟨rfl, ?_⟩
  rcases Nat.eq_zero_or_pos (capacitance * (freq / 1000000)) with hx | hx
  · rw [hx]; simp
  · have hsq : (u_volt / 1000) ^ 2 < 2 ^ 32 * 1000000000 := by
      calc (u_volt / 1000) ^ 2 = 1 * (u_volt / 1000) ^ 2 := by ring
        _ ≤ capacitance * (freq / 1000000) * (u_volt / 1000) ^ 2 :=
          Nat.mul_le_mul_right _ hx
        _ < 2 ^ 32 * 1000000000 := hp
    have hmv : u_volt / 1000 < 2 ^ 32 := by
      by_contra hc
      have h1 : 2 ^ 32 ≤ u_volt / 1000 := by omega
      have h2 : 2 ^ 32 * 2 ^ 32 ≤ (u_volt / 1000) ^ 2 := by
        rw [pow_two]
        exact Nat.mul_le_mul h1 h1
      omega
    rw [Nat.mod_eq_of_lt hmv]
    have heq : capacitance * (freq / 1000000) * (u_volt / 1000) * (u_volt / 1000)
        = capacitance * (freq / 1000000) * (u_volt / 1000) ^ 2 := by ring
    rw [heq]
    have h64 : capacitance * (freq / 1000000) * (u_volt / 1000) ^ 2 < 2 ^ 64 := by omega
    rw [Nat.mod_eq_of_lt h64]
    apply Nat.mod_eq_of_lt
    apply Nat.div_lt_of_lt_mul
    omega

/-- What a successful build_dyn_power_table leaves: the chosen device, with operating
points, and the entries of the loop as the table. -/
theorem build_dyn_power_table_ok (env : kernel_env) (lib : opp_library)
    (cpufreq_device dev2 : cpufreq_cooling_device) (capacitance : Nat) (ret : Int)
    (hb : build_dyn_power_table env lib cpufreq_device capacitance = some (ret, dev2))
    (hret : ret = 0) :
    ∃ d, dev2.cpu_dev = some d ∧
      dev2.dyn_power_table = build_power_entries lib d capacitance
        ((lib.opp_list d).getD []).length.succ 0 ∧
      dev2.dyn_power_table ≠ [] := by
  unfold build_dyn_power_table at hb
  cases hf : find_opp_device lib (for_each_cpu env cpufreq_device.allowed_cpus) with
  | error e =>
    rw [hf] at hb
    simp only [Option.some.injEq, Prod.mk.injEq] at hb
    have hne : e ≠ 0 := by
      clear hb
      generalize for_each_cpu env cpufreq_device.allowed_cpus = cpus at hf
      induction cpus with
      | nil =>
        simp only [find_opp_device] at hf
        cases hf
        simp [EINVAL]
      | cons c rest ih =>
        simp only [find_opp_device] at hf
        cases hd : lib.get_cpu_device c with
        | none => rw [hd] at hf; exact ih hf
        | some d =>
          rw [hd] at hf
          simp only [] at hf
          split_ifs at hf with h1 h2
          · cases hf
            omega
          · exact ih hf
    omega
  | ok d =>
    rw [hf] at hb
    simp only [] at hb
    split_ifs at hb with he
    · simp only [Option.some.injEq, Prod.mk.injEq] at hb
      simp [ERANGE] at hb
      omega
    · cases hp : cpufreq_device.plat_get_static_power with
      | none => rw [hp] at hb; simp at hb
      | some f =>
        rw [hp] at hb
        simp only [Option.some.injEq, Prod.mk.injEq] at hb
        obtain ⟨-, hb2⟩ := hb
        subst hb2
        exact ⟨d, rfl, rfl, he⟩

/-- With operating points whose kHz frequencies fit 32 bits and differ whenever the Hz
frequencies differ, the entries the loop stores are strictly ascending in frequency. -/
theorem build_power_entries_sorted (lib : opp_library) (dev capacitance : Nat) (l : List opp)
    (hl : lib.opp_list dev = some l)
    (hk : ∀ a ∈ l, a.rate / 1000 < 2 ^ 32)
    (hd : ∀ a ∈ l, ∀ b ∈ l, a.rate < b.rate → a.rate / 1000 < b.rate / 1000)
    (fuel freq : Nat) :
    List.Pairwise (fun a b => a.frequency < b.frequency)
      (build_power_entries lib dev capacitance fuel freq) := by
  induction fuel generalizing freq with
  | zero => simp [build_power_entries]
  | succ n ih =>
    simp only [build_power_entries]
    cases hc : opp_find_freq_ceil lib dev freq with
    | none => simp
    | some o =>
      simp only []
      refine List.pairwise_cons.mpr ⟨?_, ih (o.rate + 1)⟩
      intro e he
      obtain ⟨l2, o2, hl2, ho2, hf2, he2⟩ :=
        build_power_entries_mem lib dev capacitance n (o.rate + 1) e he
      rw [hl] at hl2
      cases hl2
      unfold opp_find_freq_ceil at hc
      rw [hl] at hc
      simp only [] at hc
      have hm := opp_ceil_in_mem freq l o hc
      have h1 := hk o hm.1
      have h2 := hk o2 ho2
      have h3 := hd o hm.1 o2 ho2 (by omega)
      rw [he2]
      show o.rate / 1000 % 2 ^ 32 < o2.rate / 1000 % 2 ^ 32
      rw [Nat.mod_eq_of_lt h1, Nat.mod_eq_of_lt h2]
      exact h3

/-! ## Facts about get_load -/

theorem sub_u64_lt (a b : Nat) : sub_u64 a b < 2 ^ 64 := by
  unfold sub_u64
  omega

/-- The u64 difference of two readings in order is their plain difference. -/
theorem sub_u64_of_le (a b : Nat) (h : b ≤ a) (ha : a - b < 2 ^ 64) :
    sub_u64 a b = a - b := by
  unfold sub_u64
  omega

/-- The load get_load computes is never above 100. -/
theorem get_load_value_le (now_idle now time_in_idle time_in_idle_timestamp : Nat) :
    get_load_value now_idle now time_in_idle time_in_idle_timestamp ≤ 100 := by
  unfold get_load_value
  simp only []
  split_ifs with h
  · omega
  · have h1 := sub_u64_lt now_idle time_in_idle
    have h2 := sub_u64_lt now time_in_idle_timestamp
    have hx : sub_u64 (sub_u64 now time_in_idle_timestamp) (sub_u64 now_idle time_in_idle)
        = sub_u64 now time_in_idle_timestamp - sub_u64 now_idle time_in_idle :=
      sub_u64_of_le _ _ (by omega) (by omega)
    rw [hx]
    have hq : 100 * (sub_u64 now time_in_idle_timestamp - sub_u64 now_idle time_in_idle)
        % 2 ^ 64 / sub_u64 now time_in_idle_timestamp ≤ 100 := by
      apply Nat.div_le_of_le_mul
      have := Nat.mod_le
        (100 * (sub_u64 now time_in_idle_timestamp - sub_u64 now_idle time_in_idle)) (2 ^ 64)
      have h3 : 100 * (sub_u64 now time_in_idle_timestamp - sub_u64 now_idle time_in_idle)
          ≤ sub_u64 now time_in_idle_timestamp * 100 := by omega
      omega
    exact le_trans (Nat.mod_le _ _) hq

/-- The load of a wall time delta above the idle delta, when 100 times their difference
fits 64 bits. -/
theorem get_load_value_eq (now_idle now time_in_idle time_in_idle_timestamp : Nat)
    (hi : time_in_idle ≤ now_idle) (hw : time_in_idle_timestamp ≤ now) (hw64 : now < 2 ^ 64)
    (hgt : now - time_in_idle_timestamp > now_idle - time_in_idle)
    (hov : 100 * ((now - time_in_idle_timestamp) - (now_idle - time_in_idle)) < 2 ^ 64) :
    get_load_value now_idle now time_in_idle time_in_idle_timestamp
      = 100 * ((now - time_in_idle_timestamp) - (now_idle - time_in_idle))
        / (now - time_in_idle_timestamp) := by
  have h1 : sub_u64 now_idle time_in_idle = now_idle - time_in_idle :=
    sub_u64_of_le _ _ hi (by omega)
  have h2 : sub_u64 now time_in_idle_timestamp = now - time_in_idle_timestamp :=
    sub_u64_of_le _ _ hw (by omega)
  unfold get_load_value
  simp only []
  rw [h1, h2, if_neg (by omega), sub_u64_of_le _ _ (by omega) (by omega),
    Nat.mod_eq_of_lt hov]
  apply Nat.mod_eq_of_lt
  have : 100 * ((now - time_in_idle_timestamp) - (now_idle - time_in_idle))
      / (now - time_in_idle_timestamp) ≤ 100 := by
    apply Nat.div_le_of_le_mul
    have : (now - time_in_idle_timestamp) - (now_idle - time_in_idle)
        ≤ now - time_in_idle_timestamp := Nat.sub_le _ _
    omega
  omega

/-- Inside the sample arrays get_load returns the load of the stored samples and stores the
new readings at the index of the cpu. -/
theorem get_load_in_bounds (get_cpu_idle_time : Nat → Nat × Nat)
    (cpufreq_device : cpufreq_cooling_device) (cpu ti ts : Nat)
    (h1 : cpufreq_device.time_in_idle[cpu]? = some ti)
    (h2 : cpufreq_device.time_in_idle_timestamp[cpu]? = some ts) :
    get_load get_cpu_idle_time cpufreq_device cpu =
      some (get_load_value (get_cpu_idle_time cpu).1 (get_cpu_idle_time cpu).2 ti ts,
        { cpufreq_device with
          time_in_idle := cpufreq_device.time_in_idle.set cpu (get_cpu_idle_time cpu).1
          time_in_idle_timestamp :=
            cpufreq_device.time_in_idle_timestamp.set cpu (get_cpu_idle_time cpu).2 }) := by
  unfold get_load
  simp only [h1, h2]

/-- The sum of loads the loop of cpufreq_get_requested_power adds up over a list of CPUs:
the load of each online CPU from the samples stored in the device, 0 for an offline CPU. -/
theorem requested_power_loads_eq (env : kernel_env) (get_cpu_idle_time : Nat → Nat × Nat)
    (cpus : List Nat) (hnd : cpus.Nodup) (total_load : Nat) (d : cpufreq_cooling_device)
    (ht : total_load < 2 ^ 32)
    (hin : ∀ c ∈ cpus, env.cpu_online_mask c = true →
      c < d.time_in_idle.length ∧ c < d.time_in_idle_timestamp.length) :
    ∃ ti ts, requested_power_loads env get_cpu_idle_time cpus total_load d =
      some ((total_load + (cpus.map (fun c =>
          if env.cpu_online_mask c then
            get_load_value (get_cpu_idle_time c).1 (get_cpu_idle_time c).2
              (d.time_in_idle.getD c 0) (d.time_in_idle_timestamp.getD c 0)
          else 0)).sum) % 2 ^ 32,
        { d with time_in_idle := ti, time_in_idle_timestamp := ts }) ∧
      ti.length = d.time_in_idle.length ∧
      ts.length = d.time_in_idle_timestamp.length := by
  induction cpus generalizing total_load d with
  | nil =>
    refine ⟨d.time_in_idle, d.time_in_idle_timestamp, ?_, rfl, rfl⟩
    simp only [requested_power_loads, List.map_nil, List.sum_nil, Nat.add_zero]
    rw [Nat.mod_eq_of_lt ht]
  | cons c rest ih =>
    have hnd2 := (List.nodup_cons.mp hnd).2
    have hc : c ∉ rest := (List.nodup_cons.mp hnd).1
    simp only [requested_power_loads, List.map_cons, List.sum_cons]
    by_cases hon : env.cpu_online_mask c = true
    · obtain ⟨hb1, hb2⟩ := hin c (by simp) hon
      have hg1 : d.time_in_idle[c]? = some (d.time_in_idle.getD c 0) := by
        rw [List.getD_eq_getElem?_getD, List.getElem?_eq_getElem hb1]; rfl
      have hg2 : d.time_in_idle_timestamp[c]? = some (d.time_in_idle_timestamp.getD c 0) := by
        rw [List.getD_eq_getElem?_getD, List.getElem?_eq_getElem hb2]; rfl
      rw [if_pos hon, if_pos hon, get_load_in_bounds get_cpu_idle_time d c _ _ hg1 hg2]
      simp only []
      obtain ⟨ti, ts, hr, hl1, hl2⟩ := ih hnd2
        ((total_load + get_load_value (get_cpu_idle_time c).1 (get_cpu_idle_time c).2
          (d.time_in_idle.getD c 0) (d.time_in_idle_timestamp.getD c 0)) % 2 ^ 32)
        { d with
          time_in_idle := d.time_in_idle.set c (get_cpu_idle_time c).1
          time_in_idle_timestamp := d.time_in_idle_timestamp.set c (get_cpu_idle_time c).2 }
        (Nat.mod_lt _ (by norm_num))
        (by
          intro c2 hc2 hon2
          have := hin c2 (List.mem_cons_of_mem _ hc2) hon2
          simpa using this)
      refine ⟨ti, ts, ?_, by simpa using hl1, by simpa using hl2⟩
      rw [hr]
      have hmap : (rest.map (fun c2 =>
            if env.cpu_online_mask c2 then
              get_load_value (get_cpu_idle_time c2).1 (get_cpu_idle_time c2).2
                ((d.time_in_idle.set c (get_cpu_idle_time c).1).getD c2 0)
                ((d.time_in_idle_timestamp.set c (get_cpu_idle_time c).2).getD c2 0)
            else 0))
          = (rest.map (fun c2 =>
            if env.cpu_online_mask c2 then
              get_load_value (get_cpu_idle_time c2).1 (get_cpu_idle_time c2).2
                (d.time_in_idle.getD c2 0) (d.time_in_idle_timestamp.getD c2 0)
            else 0)) := by
        apply List.map_congr_left
        intro c2 hc2
        have hne : c ≠ c2 := fun h => hc (by rw [h]; exact hc2)
        simp only [List.getD_eq_getElem?_getD, List.getElem?_set_ne hne]
      simp only [] at hmap ⊢
      rw [hmap]
      generalize (rest.map (fun c2 =>
            if env.cpu_online_mask c2 then
              get_load_value (get_cpu_idle_time c2).1 (get_cpu_idle_time c2).2
                (d.time_in_idle.getD c2 0) (d.time_in_idle_timestamp.getD c2 0)
            else 0)).sum = rsum
      have hnum : ((total_load + get_load_value (get_cpu_idle_time c).1 (get_cpu_idle_time c).2
            (d.time_in_idle.getD c 0) (d.time_in_idle_timestamp.getD c 0)) % 2 ^ 32 + rsum)
            % 2 ^ 32
          = (total_load + (get_load_value (get_cpu_idle_time c).1 (get_cpu_idle_time c).2
            (d.time_in_idle.getD c 0) (d.time_in_idle_timestamp.getD c 0) + rsum)) % 2 ^ 32 := by
        omega
      rw [hnum]
    · have hoff : env.cpu_online_mask c = false := by simpa using hon
      rw [hoff]
      simp only [Bool.false_eq_true, if_false, Nat.add_zero, Nat.zero_add]
      obtain ⟨ti, ts, hr, hl1, hl2⟩ := ih hnd2 (total_load % 2 ^ 32) d
        (Nat.mod_lt _ (by norm_num))
        (fun c2 hc2 hon2 => hin c2 (List.mem_cons_of_mem _ hc2) hon2)
      refine ⟨ti, ts, ?_, hl1, hl2⟩
      rw [hr, Nat.mod_eq_of_lt ht]

/-- What cpufreq_get_requested_power returns when a CPU of the mask is online and every online
CPU of the mask indexes inside the sample arrays: the loads are summed into last_load, the
new samples are stored, and the power is reported unless the static power fails. -/
theorem cpufreq_get_requested_power_eq (env : kernel_env) (src : Nat → Nat × Nat)
    (cpufreq_device : cpufreq_cooling_device) (tz : thermal_zone_device)
    (honline : cpumask_any_and env cpufreq_device.allowed_cpus env.cpu_online_mask
      < env.nr_cpu_ids)
    (hin : ∀ c, c < env.nr_cpu_ids → cpufreq_device.allowed_cpus c = true →
      env.cpu_online_mask c = true →
      c < cpufreq_device.time_in_idle.length ∧
      c < cpufreq_device.time_in_idle_timestamp.length) :
    ∃ ti ts, cpufreq_get_requested_power env src cpufreq_device tz =
      some (match get_static_power env cpufreq_device tz
          (env.cpufreq_quick_get
            (cpumask_any_and env cpufreq_device.allowed_cpus env.cpu_online_mask)) with
        | Except.error ret =>
          (ret, none,
            { cpufreq_device with
              time_in_idle := ti, time_in_idle_timestamp := ts
              last_load := requested_total_load env src cpufreq_device % 2 ^ 32 })
        | Except.ok static_power =>
          (0, some ((static_power +
              (cpu_freq_to_power cpufreq_device
                  (env.cpufreq_quick_get
                    (cpumask_any_and env cpufreq_device.allowed_cpus env.cpu_online_mask)
                    % 2 ^ 32)
                * (requested_total_load env src cpufreq_device % 2 ^ 32)) % 2 ^ 32 / 100)
              % 2 ^ 32),
            { cpufreq_device with
              time_in_idle := ti, time_in_idle_timestamp := ts
              last_load := requested_total_load env src cpufreq_device % 2 ^ 32 })) := by
  have hnd : (for_each_cpu env cpufreq_device.allowed_cpus).Nodup := by
    unfold for_each_cpu
    exact (List.nodup_range _).filter _
  obtain ⟨ti, ts, hr, -, -⟩ := requested_power_loads_eq env src
    (for_each_cpu env cpufreq_device.allowed_cpus) hnd 0 cpufreq_device (by norm_num)
    (by
      intro c hc hon
      unfold for_each_cpu at hc
      rw [List.mem_filter, List.mem_range] at hc
      exact hin c hc.1 hc.2 hon)
  refine ⟨ti, ts, ?_⟩
  unfold cpufreq_get_requested_power
  simp only []
  rw [if_neg (by omega), hr]
  simp only [Nat.zero_add]
  cases hs : get_static_power env cpufreq_device tz
      (env.cpufreq_quick_get
        (cpumask_any_and env cpufreq_device.allowed_cpus env.cpu_online_mask)) with
  | error e =>
    have hs2 : get_static_power env
        { cpufreq_device with
          time_in_idle := ti, time_in_idle_timestamp := ts
          last_load := requested_total_load env src cpufreq_device % 2 ^ 32 } tz
        (env.cpufreq_quick_get
          (cpumask_any_and env cpufreq_device.allowed_cpus env.cpu_online_mask))
        = Except.error e := hs
    unfold requested_total_load at hs2
    rw [hs2]
    rfl
  | ok S =>
    have hs2 : get_static_power env
        { cpufreq_device with
          time_in_idle := ti, time_in_idle_timestamp := ts
          last_load := requested_total_load env src cpufreq_device % 2 ^ 32 } tz
        (env.cpufreq_quick_get
          (cpumask_any_and env cpufreq_device.allowed_cpus env.cpu_online_mask))
        = Except.ok S := hs
    unfold requested_total_load at hs2
    rw [hs2]
    rfl

/-- The entries the first loop of get_property counts are valid entries. -/
theorem distinct_list_valid (es : List Nat) (freq x : Nat)
    (h : x ∈ distinct_list freq es) : x ≠ CPUFREQ_ENTRY_INVALID := by
  induction es generalizing freq with
  | nil => simp [distinct_list] at h
  | cons e rest ih =>
    simp only [distinct_list] at h
    split_ifs at h with h1 h2
    · exact ih freq h
    · exact ih freq h
    · rcases List.mem_cons.mp h with h3 | h3
      · rw [h3]; exact h1
      · exact ih e h3

/-- Every valid entry is counted by a loop of get_property, unless it is the value the loop
was entered with. -/
theorem mem_distinct_list (es : List Nat) (freq x : Nat) (hx : x ∈ es)
    (hv : x ≠ CPUFREQ_ENTRY_INVALID) : x ∈ distinct_list freq es ∨ x = freq := by
  induction es generalizing freq with
  | nil => simp at hx
  | cons e rest ih =>
    simp only [distinct_list]
    rcases List.mem_cons.mp hx with h | h
    · subst h
      rw [if_neg hv]
      by_cases h2 : freq = x
      · exact Or.inr h2.symm
      · rw [if_neg h2]
        exact Or.inl (by simp)
    · by_cases h1 : e = CPUFREQ_ENTRY_INVALID
      · rw [if_pos h1]
        exact ih freq h
      · rw [if_neg h1]
        by_cases h2 : freq = e
        · rw [if_pos h2]
          exact ih freq h
        · rw [if_neg h2]
          rcases ih e h with h3 | h3
          · exact Or.inl (List.mem_cons_of_mem _ h3)
          · exact Or.inl (by rw [h3]; simp)

/-- When no frequency is counted twice, the first loop of get_property counts the distinct
valid frequencies of the table. -/
theorem distinct_list_length_eq_count (tbl : List Nat)
    (hnodup : (distinct_list CPUFREQ_ENTRY_INVALID (table_entries tbl)).Nodup) :
    (distinct_list CPUFREQ_ENTRY_INVALID (table_entries tbl)).length
      = distinct_valid_count tbl := by
  unfold distinct_valid_count
  apply List.Perm.length_eq
  rw [List.perm_ext_iff_of_nodup hnodup (List.nodup_dedup _)]
  intro a
  rw [List.mem_dedup, List.mem_filter]
  constructor
  · intro h
    exact ⟨distinct_list_mem _ _ _ h, by simpa using distinct_list_valid _ _ _ h⟩
  · rintro ⟨h1, h2⟩
    have hv : a ≠ CPUFREQ_ENTRY_INVALID := by simpa using h2
    rcases mem_distinct_list _ CPUFREQ_ENTRY_INVALID a h1 hv with h | h
    · exact h
    · exact absurd h hv

/-- What get_property answers for GET_MAXL: the number of counted entries minus one, or
-EINVAL when nothing is counted. -/
theorem get_property_maxl (tbl : List Nat) (input : Nat) :
    get_property (some tbl) input GET_MAXL =
      if (distinct_list CPUFREQ_ENTRY_INVALID (table_entries tbl)).length = 0 then
        Except.error (-EINVAL)
      else Except.ok
        (((distinct_list CPUFREQ_ENTRY_INVALID (table_entries tbl)).length - 1) % 2 ^ 32) := by
  unfold get_property
  simp only []
  rw [first_loop_count, ← distinct_list_length]
  split_ifs <;> rfl

/-! ## Claims C11 to C20 -/

/-- C11: for a CPUFREQ_ADJUST event on a policy whose CPU is in the affinity mask of the
active target, cpufreq_thermal_notifier returns NOTIFY_OK and leaves the policy maximum at
the smaller of its previous value and min(clip frequency of the target, user_policy.max):
the resulting maximum is at most min(clip frequency, user_policy.max) and so never exceeds
user_policy.max, which the notifier does not change. -/
theorem C11_notifier_limits_policy_max (target : cpufreq_cooling_device)
    (policy : cpufreq_policy) (hcpu : target.allowed_cpus policy.cpu = true) :
    (cpufreq_thermal_notifier (some target) CPUFREQ_ADJUST policy).1 = NOTIFY_OK ∧
    (cpufreq_thermal_notifier (some target) CPUFREQ_ADJUST policy).2.max
      = min policy.max (min target.cpufreq_val policy.user_policy.max) ∧
    (cpufreq_thermal_notifier (some target) CPUFREQ_ADJUST policy).2.max
      ≤ min target.cpufreq_val policy.user_policy.max ∧
    (cpufreq_thermal_notifier (some target) CPUFREQ_ADJUST policy).2.user_policy
      = policy.user_policy ∧
    (cpufreq_thermal_notifier (some target) CPUFREQ_ADJUST policy).2.max
      ≤ (cpufreq_thermal_notifier (some target) CPUFREQ_ADJUST policy).2.user_policy.max := by
  have hz := cpufreq_verify_within_limits_zero policy
    (min target.cpufreq_val policy.user_policy.max)
  rw [cpufreq_thermal_notifier_adjust target policy hcpu]
  by_cases hne : policy.max ≠ min target.cpufreq_val policy.user_policy.max
  · rw [if_pos hne]
    refine ⟨rfl, hz.1, ?_, hz.2.1, ?_⟩
    · show (cpufreq_verify_within_limits policy 0
        (min target.cpufreq_val policy.user_policy.max)).max ≤ _
      rw [hz.1]; omega
    · show (cpufreq_verify_within_limits policy 0
          (min target.cpufreq_val policy.user_policy.max)).max
        ≤ (cpufreq_verify_within_limits policy 0
          (min target.cpufreq_val policy.user_policy.max)).user_policy.max
      rw [hz.1, hz.2.1]; omega
  · rw [if_neg hne]
    have hmax : policy.max = min target.cpufreq_val policy.user_policy.max := by
      simpa using hne
    refine ⟨rfl, ?_, ?_, rfl, ?_⟩
    · show policy.max = _
      omega
    · show policy.max ≤ _
      omega
    · show policy.max ≤ policy.user_policy.max
      omega

/-- C11 on a target over CPUs 0 to 3 clipping at 1500 kHz: a policy of cpu 1 with maximum
2000 and user maximum 1800 leaves with the maximum 1500, and with user maximum 1200 it
leaves with the maximum 1200. -/
theorem C11_notifier_limits_policy_max_witness :
    cpufreq_thermal_notifier
        (some { example_device example_power_table 0 none with cpufreq_val := 1500 })
        CPUFREQ_ADJUST (example_policy 1 2000 1800)
      = (NOTIFY_OK, { example_policy 1 2000 1800 with max := 1500 }) ∧
    cpufreq_thermal_notifier
        (some { example_device example_power_table 0 none with cpufreq_val := 1500 })
        CPUFREQ_ADJUST (example_policy 1 2000 1200)
      = (NOTIFY_OK, { example_policy 1 2000 1200 with max := 1200 }) ∧
    ((cpufreq_thermal_notifier
        (some { example_device example_power_table 0 none with cpufreq_val := 1500 })
        CPUFREQ_ADJUST (example_policy 1 2000 1800)).1 = NOTIFY_OK ∧
    (cpufreq_thermal_notifier
        (some { example_device example_power_table 0 none with cpufreq_val := 1500 })
        CPUFREQ_ADJUST (example_policy 1 2000 1800)).2.max
      = min (example_policy 1 2000 1800).max
        (min ({ example_device example_power_table 0 none with
            cpufreq_val := 1500 } : cpufreq_cooling_device).cpufreq_val
          (example_policy 1 2000 1800).user_policy.max) ∧
    (cpufreq_thermal_notifier
        (some { example_device example_power_table 0 none with cpufreq_val := 1500 })
        CPUFREQ_ADJUST (example_policy 1 2000 1800)).2.max
      ≤ min ({ example_device example_power_table 0 none with
            cpufreq_val := 1500 } : cpufreq_cooling_device).cpufreq_val
          (example_policy 1 2000 1800).user_policy.max ∧
    (cpufreq_thermal_notifier
        (some { example_device example_power_table 0 none with cpufreq_val := 1500 })
        CPUFREQ_ADJUST (example_policy 1 2000 1800)).2.user_policy
      = (example_policy 1 2000 1800).user_policy ∧
    (cpufreq_thermal_notifier
        (some { example_device example_power_table 0 none with cpufreq_val := 1500 })
        CPUFREQ_ADJUST (example_policy 1 2000 1800)).2.max
      ≤ (cpufreq_thermal_notifier
        (some { example_device example_power_table 0 none with cpufreq_val := 1500 })
        CPUFREQ_ADJUST (example_policy 1 2000 1800)).2.user_policy.max) :=
  ⟨by decide, by decide,
    C11_notifier_limits_policy_max
      { example_device example_power_table 0 none with cpufreq_val := 1500 }
      (example_policy 1 2000 1800) (by decide)⟩

/-- C12: cpufreq_thermal_notifier returns NOTIFY_DONE and leaves the policy as it was
whenever the event is not CPUFREQ_ADJUST, or no device is the active notify target, or the
CPU of the policy is not a member of the affinity mask of the active target. -/
theorem C12_notifier_not_handled (notify_device : Option cpufreq_cooling_device)
    (event : Nat) (policy : cpufreq_policy)
    (h : event ≠ CPUFREQ_ADJUST ∨ notify_device = none ∨
      ∃ target, notify_device = some target ∧ target.allowed_cpus policy.cpu = false) :
    cpufreq_thermal_notifier notify_device event policy = (NOTIFY_DONE, policy) := by
  unfold cpufreq_thermal_notifier
  rcases h with h | h | ⟨target, h, hc⟩
  · rw [if_neg h]
  · subst h
    split_ifs <;> rfl
  · subst h
    split_ifs
    · simp [hc]
    · rfl

/-- C12 on a target whose affinity mask holds the CPUs 0 and 2 only: a CPUFREQ_ADJUST event
for a policy of cpu 1, which lies between them, is not handled and the policy is
unchanged. -/
theorem C12_notifier_not_handled_witness :
    cpufreq_thermal_notifier
        (some { example_device example_power_table 0 none with
          cpufreq_val := 1500, allowed_cpus := fun c => decide (c = 0) || decide (c = 2) })
        CPUFREQ_ADJUST (example_policy 1 2000 1800)
      = (NOTIFY_DONE, example_policy 1 2000 1800) :=
  C12_notifier_not_handled
    (some { example_device example_power_table 0 none with
      cpufreq_val := 1500, allowed_cpus := fun c => decide (c = 0) || decide (c = 2) })
    CPUFREQ_ADJUST (example_policy 1 2000 1800)
    (Or.inr (Or.inr ⟨_, rfl, by decide⟩))

/-- C13 (as stated, refuted): with the 32 bit capacitance 4294967295 the operating point
3000 MHz at 1000 mV gives the product 12884901885000000000, which fits 64 bits, but the
power 12884901885 is truncated to the 32 bit value 4294967293; and for 4000 MHz at 1100 mV
the product 20787641707800000000 exceeds 2^64, so the stored power is 2340897634 instead
of 20787641707. -/
theorem C13_counterexample_truncation_and_overflow :
    (build_dyn_power_table (example_env [1000, 1500, 2000])
        (example_opp_library [⟨3000000000, 1000000⟩, ⟨4000000000, 1100000⟩])
        (example_device [] 0 (some (fun _ _ _ => (0, 30)))) 4294967295).map
      (fun r => (r.1, r.2.dyn_power_table))
      = some (0, [⟨3000000, 4294967293⟩, ⟨4000000, 2340897634⟩]) ∧
    4294967295 * (3000000000 / 1000000) * (1000000 / 1000) ^ 2 < 2 ^ 64 ∧
    4294967295 * (3000000000 / 1000000) * (1000000 / 1000) ^ 2 / 1000000000 = 12884901885 ∧
    (dyn_power_entry 4294967295 3000000000 1000000).power = 4294967293 ∧
    2 ^ 64 ≤ 4294967295 * (4000000000 / 1000000) * (1100000 / 1000) ^ 2 ∧
    4294967295 * (4000000000 / 1000000) * (1100000 / 1000) ^ 2 / 1000000000 = 20787641707 ∧
    (dyn_power_entry 4294967295 4000000000 1100000).power = 2340897634 := by
  decide

/-- C13 (amended): every entry of a table build_dyn_power_table has built is the entry
computed for an available operating point (frequency in Hz, voltage in microvolts) of the
chosen device, and for every capacitance and operating point with Hz / 1000 below 2^32 and
capacitance * freqMHz * voltageMV^2 below 2^32 * 10^9 that entry has frequency = Hz / 1000
and power = floor(capacitance * freqMHz * voltageMV^2 / 10^9), with freqMHz = Hz / 10^6 and
voltageMV = microvolts / 1000: the 64 bit intermediate does not overflow and the stored 32
bit power is not truncated. -/
theorem C13_build_dyn_power_table_entry (env : kernel_env) (lib : opp_library)
    (cpufreq_device dev2 : cpufreq_cooling_device) (capacitance : Nat) (e : power_table)
    (hb : build_dyn_power_table env lib cpufreq_device capacitance = some (0, dev2))
    (he : e ∈ dev2.dyn_power_table) :
    ∃ d l o, dev2.cpu_dev = some d ∧ lib.opp_list d = some l ∧ o ∈ l ∧
      e = dyn_power_entry capacitance o.rate o.u_volt ∧
      (o.rate / 1000 < 2 ^ 32 →
        capacitance * (o.rate / 1000000) * (o.u_volt / 1000) ^ 2 < 2 ^ 32 * 1000000000 →
        e.frequency = o.rate / 1000 ∧
        e.power = capacitance * (o.rate / 1000000) * (o.u_volt / 1000) ^ 2 / 1000000000) := by
  obtain ⟨d, hd, ht, -⟩ := build_dyn_power_table_ok env lib cpufreq_device dev2 capacitance 0
    hb rfl
  rw [ht] at he
  obtain ⟨l, o, hl, ho, -, heq⟩ := build_power_entries_mem lib d capacitance _ 0 e he
  refine ⟨d, l, o, hd, hl, ho, heq, ?_⟩
  intro hk hp
  rw [heq]
  exact dyn_power_entry_exact capacitance o.rate o.u_volt hk hp

/-- C13 with capacitance 100 and the operating points 1000 MHz at 900 mV, 1500 MHz at 1000 mV
and 2000 MHz at 1100 mV: the table holds 1000000 kHz at 81 mW, 1500000 kHz at 150 mW and
2000000 kHz at 242 mW. -/
theorem C13_build_dyn_power_table_entry_witness :
    (build_dyn_power_table (example_env [1000, 1500, 2000])
        (example_opp_library example_opps)
        (example_device [] 0 (some (fun _ _ _ => (0, 30)))) 100).map
      (fun r => (r.1, r.2.dyn_power_table))
      = some (0, [⟨1000000, 81⟩, ⟨1500000, 150⟩, ⟨2000000, 242⟩]) ∧
    dyn_power_entry 100 1000000000 900000 = ⟨1000000, 81⟩ ∧
    (∃ d l o,
      ({ example_device [] 0 (some (fun _ _ _ => (0, 30))) with
          cpu_dev := some 0
          dyn_power_table := [⟨1000000, 81⟩, ⟨1500000, 150⟩, ⟨2000000, 242⟩] } :
        cpufreq_cooling_device).cpu_dev = some d ∧
      (example_opp_library example_opps).opp_list d = some l ∧ o ∈ l ∧
      (⟨1000000, 81⟩ : power_table) = dyn_power_entry 100 o.rate o.u_volt ∧
      (o.rate / 1000 < 2 ^ 32 →
        100 * (o.rate / 1000000) * (o.u_volt / 1000) ^ 2 < 2 ^ 32 * 1000000000 →
        (⟨1000000, 81⟩ : power_table).frequency = o.rate / 1000 ∧
        (⟨1000000, 81⟩ : power_table).power
          = 100 * (o.rate / 1000000) * (o.u_volt / 1000) ^ 2 / 1000000000)) :=
  ⟨by decide, by decide,
    C13_build_dyn_power_table_entry (example_env [1000, 1500, 2000])
      (example_opp_library example_opps)
      (example_device [] 0 (some (fun _ _ _ => (0, 30))))
      { example_device [] 0 (some (fun _ _ _ => (0, 30))) with
        cpu_dev := some 0
        dyn_power_table := [⟨1000000, 81⟩, ⟨1500000, 150⟩, ⟨2000000, 242⟩] }
      100 ⟨1000000, 81⟩ rfl (by decide)⟩

/-- C14 (as stated, refuted): for the available operating points 1000000000 Hz and
1000000500 Hz the ceiling walk stores two entries with the same frequency 1000000 kHz, so
the table is not strictly ascending. -/
theorem C14_counterexample_same_khz :
    (build_dyn_power_table (example_env [1000, 1500, 2000])
        (example_opp_library [⟨1000000000, 900000⟩, ⟨1000000500, 900000⟩])
        (example_device [] 0 (some (fun _ _ _ => (0, 30)))) 100).map
      (fun r => (r.1, r.2.dyn_power_table))
      = some (0, [⟨1000000, 81⟩, ⟨1000000, 81⟩]) ∧
    ¬ List.Pairwise (fun a b => a.frequency < b.frequency)
      ([⟨1000000, 81⟩, ⟨1000000, 81⟩] : List power_table) := by
  decide

/-- C14 (amended): for every set of available operating points in which the kHz frequencies
(Hz / 1000) are below 2^32 and differ whenever the Hz frequencies differ, the table
build_dyn_power_table produces by its ceiling walk is not empty and strictly ascending in
the stored frequency: every entry has a lower frequency than the entries after it. -/
theorem C14_power_table_strictly_ascending (env : kernel_env) (lib : opp_library)
    (cpufreq_device dev2 : cpufreq_cooling_device) (capacitance : Nat)
    (hb : build_dyn_power_table env lib cpufreq_device capacitance = some (0, dev2))
    (hk : ∀ d l, lib.opp_list d = some l → ∀ a ∈ l, a.rate / 1000 < 2 ^ 32)
    (hd : ∀ d l, lib.opp_list d = some l →
      ∀ a ∈ l, ∀ b ∈ l, a.rate < b.rate → a.rate / 1000 < b.rate / 1000) :
    dev2.dyn_power_table ≠ [] ∧
    List.Pairwise (fun a b => a.frequency < b.frequency) dev2.dyn_power_table ∧
    List.Chain' (fun a b => a.frequency < b.frequency) dev2.dyn_power_table := by
  obtain ⟨d, hcd, ht, hne⟩ := build_dyn_power_table_ok env lib cpufreq_device dev2
    capacitance 0 hb rfl
  have hl : ∃ l, lib.opp_list d = some l := by
    rw [ht] at hne
    cases hl : lib.opp_list d with
    | none =>
      exfalso
      apply hne
      simp [build_power_entries, opp_find_freq_ceil, hl]
    | some l => exact ⟨l, rfl⟩
  obtain ⟨l, hl⟩ := hl
  have hp : List.Pairwise (fun a b => a.frequency < b.frequency) dev2.dyn_power_table := by
    rw [ht]
    exact build_power_entries_sorted lib d capacitance l hl (hk d l hl) (hd d l hl) _ _
  exact ⟨hne, hp, List.Pairwise.chain' hp⟩

/-- C14 with the operating points 1000, 1500 and 2000 MHz: the table 1000000, 1500000,
2000000 kHz is strictly ascending. -/
theorem C14_power_table_strictly_ascending_witness :
    ({ example_device [] 0 (some (fun _ _ _ => (0, 30))) with
        cpu_dev := some 0
        dyn_power_table := [⟨1000000, 81⟩, ⟨1500000, 150⟩, ⟨2000000, 242⟩] } :
      cpufreq_cooling_device).dyn_power_table ≠ [] ∧
    List.Pairwise (fun a b => a.frequency < b.frequency)
      ({ example_device [] 0 (some (fun _ _ _ => (0, 30))) with
          cpu_dev := some 0
          dyn_power_table := [⟨1000000, 81⟩, ⟨1500000, 150⟩, ⟨2000000, 242⟩] } :
        cpufreq_cooling_device).dyn_power_table ∧
    List.Chain' (fun a b => a.frequency < b.frequency)
      ({ example_device [] 0 (some (fun _ _ _ => (0, 30))) with
          cpu_dev := some 0
          dyn_power_table := [⟨1000000, 81⟩, ⟨1500000, 150⟩, ⟨2000000, 242⟩] } :
        cpufreq_cooling_device).dyn_power_table :=
  C14_power_table_strictly_ascending (example_env [1000, 1500, 2000])
    (example_opp_library example_opps)
    (example_device [] 0 (some (fun _ _ _ => (0, 30))))
    { example_device [] 0 (some (fun _ _ _ => (0, 30))) with
      cpu_dev := some 0
      dyn_power_table := [⟨1000000, 81⟩, ⟨1500000, 150⟩, ⟨2000000, 242⟩] }
    100 rfl
    (by intro d l h; cases h; decide)
    (by intro d l h; cases h; decide)

/-- C15 (as stated, refuted): after a call with the readings wall 1000 and idle 400, a call
with wall 200000000000001000 and idle 400 has dWall = 2 * 10^17 above dIdle = 0, so the
stated result is floor(100 * dWall / dWall) = 100, but 100 * dWall wraps at 64 bits and
get_load returns 7. -/
theorem C15_counterexample_product_wraps :
    (get_load (fun _ => (400, 1000)) (example_device example_power_table 0 none) 0).map
      (fun r => (r.1, r.2.time_in_idle, r.2.time_in_idle_timestamp))
      = some (60, [400, 0, 0, 0], [1000, 0, 0, 0]) ∧
    (get_load (fun _ => (400, 200000000000001000))
        { example_device example_power_table 0 none with
          time_in_idle := [400, 0, 0, 0], time_in_idle_timestamp := [1000, 0, 0, 0] } 0).map
      (fun r => r.1) = some 7 ∧
    200000000000001000 - 1000 > 400 - 400 ∧
    100 * ((200000000000001000 - 1000) - (400 - 400)) / (200000000000001000 - 1000) = 100 := by
  decide

/-- C15 (amended): for two consecutive get_load calls on the same CPU, an index inside the
sample arrays, with the cumulative readings (wall1, idle1) and then (wall2, idle2), where
wall1 <= wall2 < 2^64 and idle1 <= idle2, the first call stores (wall1, idle1) as the
samples of that CPU and the second returns floor(100 * (dWall - dIdle) / dWall) with
dWall = wall2 - wall1 and dIdle = idle2 - idle1 whenever dWall > dIdle and
100 * (dWall - dIdle) is below 2^64. -/
theorem C15_get_load_consecutive (src1 src2 : Nat → Nat × Nat)
    (cpufreq_device : cpufreq_cooling_device) (cpu wall1 idle1 wall2 idle2 : Nat)
    (hb1 : cpu < cpufreq_device.time_in_idle.length)
    (hb2 : cpu < cpufreq_device.time_in_idle_timestamp.length)
    (hs1 : src1 cpu = (idle1, wall1)) (hs2 : src2 cpu = (idle2, wall2))
    (hw : wall1 ≤ wall2) (hi : idle1 ≤ idle2) (hw64 : wall2 < 2 ^ 64)
    (hgt : wall2 - wall1 > idle2 - idle1)
    (hov : 100 * ((wall2 - wall1) - (idle2 - idle1)) < 2 ^ 64) :
    ∃ load1 dev1 dev2, get_load src1 cpufreq_device cpu = some (load1, dev1) ∧
      dev1.time_in_idle[cpu]? = some idle1 ∧
      dev1.time_in_idle_timestamp[cpu]? = some wall1 ∧
      get_load src2 dev1 cpu
        = some (100 * ((wall2 - wall1) - (idle2 - idle1)) / (wall2 - wall1), dev2) := by
  have hg1 : cpufreq_device.time_in_idle[cpu]?
      = some (cpufreq_device.time_in_idle.getD cpu 0) := by
    rw [List.getD_eq_getElem?_getD, List.getElem?_eq_getElem hb1]; rfl
  have hg2 : cpufreq_device.time_in_idle_timestamp[cpu]?
      = some (cpufreq_device.time_in_idle_timestamp.getD cpu 0) := by
    rw [List.getD_eq_getElem?_getD, List.getElem?_eq_getElem hb2]; rfl
  have h1 := get_load_in_bounds src1 cpufreq_device cpu _ _ hg1 hg2
  rw [hs1] at h1
  simp only [] at h1
  have hs1a : (cpufreq_device.time_in_idle.set cpu idle1)[cpu]? = some idle1 :=
    List.getElem?_set_self hb1
  have hs1b : (cpufreq_device.time_in_idle_timestamp.set cpu wall1)[cpu]? = some wall1 :=
    List.getElem?_set_self hb2
  have h2 := get_load_in_bounds src2
    { cpufreq_device with
      time_in_idle := cpufreq_device.time_in_idle.set cpu idle1
      time_in_idle_timestamp := cpufreq_device.time_in_idle_timestamp.set cpu wall1 }
    cpu idle1 wall1 hs1a hs1b
  rw [hs2] at h2
  simp only [] at h2
  rw [get_load_value_eq idle2 wall2 idle1 wall1 hi hw hw64 hgt hov] at h2
  exact ⟨_, _, _, h1, hs1a, hs1b, h2⟩

/-- C15 on cpu 0 of a fresh device: the call with wall 1000 and idle 400 stores these
samples, and the next call with wall 2000 and idle 700 returns 70. -/
theorem C15_get_load_consecutive_witness :
    (get_load (fun _ => (700, 2000))
        { example_device example_power_table 0 none with
          time_in_idle := [400, 0, 0, 0], time_in_idle_timestamp := [1000, 0, 0, 0] } 0).map
      (fun r => r.1) = some 70 ∧
    100 * ((2000 - 1000) - (700 - 400)) / (2000 - 1000) = 70 ∧
    (∃ load1 dev1 dev2,
      get_load (fun _ => (400, 1000)) (example_device example_power_table 0 none) 0
        = some (load1, dev1) ∧
      dev1.time_in_idle[0]? = some 400 ∧
      dev1.time_in_idle_timestamp[0]? = some 1000 ∧
      get_load (fun _ => (700, 2000)) dev1 0
        = some (100 * ((2000 - 1000) - (700 - 400)) / (2000 - 1000), dev2)) :=
  ⟨by decide, by decide,
    C15_get_load_consecutive (fun _ => (400, 1000)) (fun _ => (700, 2000))
      (example_device example_power_table 0 none) 0 1000 400 2000 700
      (by decide) (by decide) rfl rfl (by decide) (by decide) (by decide) (by decide)
      (by decide)⟩

/-- C16: for all stored samples and current readings of a CPU inside the sample arrays,
get_load returns a load between 0 and 100 inclusive, and it returns exactly 0 whenever the
idle delta is at least the wall time delta, both for the u64 differences the code computes
and for the plain differences of 64 bit readings that did not go backwards. -/
theorem C16_get_load_range (src : Nat → Nat × Nat) (cpufreq_device : cpufreq_cooling_device)
    (cpu ti ts : Nat)
    (h1 : cpufreq_device.time_in_idle[cpu]? = some ti)
    (h2 : cpufreq_device.time_in_idle_timestamp[cpu]? = some ts) :
    ∃ load dev1, get_load src cpufreq_device cpu = some (load, dev1) ∧
      0 ≤ load ∧ load ≤ 100 ∧
      (sub_u64 (src cpu).2 ts ≤ sub_u64 (src cpu).1 ti → load = 0) ∧
      (ti ≤ (src cpu).1 → ts ≤ (src cpu).2 → (src cpu).1 < 2 ^ 64 → (src cpu).2 < 2 ^ 64 →
        (src cpu).2 - ts ≤ (src cpu).1 - ti → load = 0) := by
  refine ⟨_, _, get_load_in_bounds src cpufreq_device cpu ti ts h1 h2, Nat.zero_le _,
    get_load_value_le _ _ _ _, ?_, ?_⟩
  · intro h
    unfold get_load_value
    simp only []
    rw [if_pos h]
  · intro ha hb hc hd h
    unfold get_load_value
    simp only []
    rw [sub_u64_of_le _ _ ha (by omega), sub_u64_of_le _ _ hb (by omega), if_pos h]

/-- C16 on cpu 0 with the stored samples wall 1000 and idle 400: the readings wall 2000 and
idle 700 give the load 70, and the readings wall 1500 and idle 1000, where the idle delta
600 exceeds the wall delta 500, give the load 0. -/
theorem C16_get_load_range_witness :
    (get_load (fun _ => (700, 2000))
        { example_device example_power_table 0 none with
          time_in_idle := [400, 0, 0, 0], time_in_idle_timestamp := [1000, 0, 0, 0] } 0).map
      (fun r => r.1) = some 70 ∧
    (get_load (fun _ => (1000, 1500))
        { example_device example_power_table 0 none with
          time_in_idle := [400, 0, 0, 0], time_in_idle_timestamp := [1000, 0, 0, 0] } 0).map
      (fun r => r.1) = some 0 ∧
    (∃ load dev1,
      get_load (fun _ => (1000, 1500))
        { example_device example_power_table 0 none with
          time_in_idle := [400, 0, 0, 0], time_in_idle_timestamp := [1000, 0, 0, 0] } 0
        = some (load, dev1) ∧
      0 ≤ load ∧ load ≤ 100 ∧
      (sub_u64 ((fun _ => (1000, 1500) : Nat → Nat × Nat) 0).2 1000
          ≤ sub_u64 ((fun _ => (1000, 1500) : Nat → Nat × Nat) 0).1 400 → load = 0) ∧
      (400 ≤ ((fun _ => (1000, 1500) : Nat → Nat × Nat) 0).1 →
        1000 ≤ ((fun _ => (1000, 1500) : Nat → Nat × Nat) 0).2 →
        ((fun _ => (1000, 1500) : Nat → Nat × Nat) 0).1 < 2 ^ 64 →
        ((fun _ => (1000, 1500) : Nat → Nat × Nat) 0).2 < 2 ^ 64 →
        ((fun _ => (1000, 1500) : Nat → Nat × Nat) 0).2 - 1000
          ≤ ((fun _ => (1000, 1500) : Nat → Nat × Nat) 0).1 - 400 → load = 0)) :=
  ⟨by decide, by decide,
    C16_get_load_range (fun _ => (1000, 1500))
      { example_device example_power_table 0 none with
        time_in_idle := [400, 0, 0, 0], time_in_idle_timestamp := [1000, 0, 0, 0] }
      0 400 1000 rfl rfl⟩

/-- C20 (as stated, refuted): for the table holding the single valid frequency 1000, whose
number of distinct valid frequencies minus one is 0, cpufreq_get_max_state returns 0 but
writes nothing to its output; and for the table 1000, 2000, 1000, which has 2 distinct valid
frequencies, it writes 2, not 1. -/
theorem C20_counterexample_single_and_repeated :
    cpufreq_get_max_state (example_env [1000]) (example_device example_power_table 0 none)
      = (0, none) ∧
    distinct_valid_count [1000] - 1 = 0 ∧
    cpufreq_get_max_state (example_env [1000, 2000, 1000])
      (example_device example_power_table 0 none) = (0, some 2) ∧
    distinct_valid_count [1000, 2000, 1000] - 1 = 1 := by
  decide

/-- C20 (amended): for every raw frequency table of fewer than 2^32 entries in which no
frequency comes back after a different valid frequency (as in every sorted table) and
which has at least two distinct valid frequencies, cpufreq_get_max_state succeeds and
writes maxLevel = (number of distinct valid frequencies - 1) to its output; for a table
with no valid entry it fails with -EINVAL and writes nothing. -/
theorem C20_get_max_state (env : kernel_env) (cpufreq_device : cpufreq_cooling_device)
    (tbl : List Nat)
    (htbl : env.cpufreq_frequency_get_table (cpumask_any env cpufreq_device.allowed_cpus)
      = some tbl)
    (hlen : (table_entries tbl).length < 2 ^ 32) :
    ((distinct_list CPUFREQ_ENTRY_INVALID (table_entries tbl)).Nodup →
      2 ≤ distinct_valid_count tbl →
      cpufreq_get_max_state env cpufreq_device = (0, some (distinct_valid_count tbl - 1))) ∧
    ((∀ e ∈ table_entries tbl, e = CPUFREQ_ENTRY_INVALID) →
      cpufreq_get_max_state env cpufreq_device = (-EINVAL, none)) := by
  have hle := distinct_from_le_length (table_entries tbl) CPUFREQ_ENTRY_INVALID
  rw [← distinct_list_length] at hle
  constructor
  · intro hnd htwo
    have hc := distinct_list_length_eq_count tbl hnd
    unfold cpufreq_get_max_state
    simp only []
    rw [htbl, get_property_maxl, if_neg (by omega)]
    simp only []
    rw [Nat.mod_eq_of_lt (by omega), if_pos (by omega), hc]
  · intro hall
    have h0 : (distinct_list CPUFREQ_ENTRY_INVALID (table_entries tbl)).length = 0 := by
      rw [List.length_eq_zero]
      apply List.eq_nil_iff_forall_not_mem.mpr
      intro a ha
      exact distinct_list_valid _ _ _ ha (hall a (distinct_list_mem _ _ _ ha))
    unfold cpufreq_get_max_state
    simp only []
    rw [htbl, get_property_maxl, if_pos h0]

/-- C20 on the table 1000, 1500, 1500, 2000 with an invalid entry in between: three distinct
valid frequencies, so the maximum level written is 2; on a table of invalid entries only
the callback fails with -EINVAL. -/
theorem C20_get_max_state_witness :
    distinct_valid_count [1000, 1500, 4294967295, 1500, 2000] = 3 ∧
    cpufreq_get_max_state (example_env [1000, 1500, 4294967295, 1500, 2000])
        (example_device example_power_table 0 none)
      = (0, some (distinct_valid_count [1000, 1500, 4294967295, 1500, 2000] - 1)) ∧
    cpufreq_get_max_state (example_env [4294967295, 4294967295])
      (example_device example_power_table 0 none) = (-EINVAL, none) :=
  ⟨by decide,
    (C20_get_max_state (example_env [1000, 1500, 4294967295, 1500, 2000])
      (example_device example_power_table 0 none) [1000, 1500, 4294967295, 1500, 2000]
      rfl (by decide)).1 (by decide) (by decide),
    (C20_get_max_state (example_env [4294967295, 4294967295])
      (example_device example_power_table 0 none) [4294967295, 4294967295]
      rfl (by decide)).2 (by decide)⟩

/-! ## Facts about the levels get_property finds and refuses -/

/-- The second loop of get_property fails with -EINVAL only. -/
theorem second_loop_error (property : cpufreq_cooling_property) (input level ml : Nat)
    (d : Int) (es : List Nat) (freq j : Nat) (e : Int)
    (h : second_loop property input level ml d es freq j = Except.error e) : e = -EINVAL := by
  induction es generalizing freq j with
  | nil => simp only [second_loop] at h; exact (Except.error.inj h).symm
  | cons e0 rest ih =>
    simp only [second_loop] at h
    split_ifs at h
    all_goals exact ih _ _ h

/-- The function get_property fails with -EINVAL only. -/
theorem get_property_error (table : Option (List Nat)) (input : Nat)
    (property : cpufreq_cooling_property) (e : Int)
    (h : get_property table input property = Except.error e) : e = -EINVAL := by
  cases table with
  | none => simp only [get_property] at h; exact (Except.error.inj h).symm
  | some tbl =>
    unfold get_property at h
    simp only [] at h
    split_ifs at h
    all_goals first
      | exact (Except.error.inj h).symm
      | exact second_loop_error _ _ _ _ _ _ _ _ _ h

/-- A level above the maximum level GET_MAXL reports is refused by GET_FREQ, in both orders
of the table and also when the subtraction from the maximum level wraps. -/
theorem get_property_freq_above_max (tbl : List Nat) (L ml : Nat) (hL : L < 2 ^ 64)
    (hlen : (table_entries tbl).length < 2 ^ 32)
    (hml : get_property (some tbl) 0 GET_MAXL = Except.ok ml) (hgt : ml < L) :
    get_property (some tbl) L GET_FREQ = Except.error (-EINVAL) := by
  cases hg : get_property (some tbl) L GET_FREQ with
  | error e => rw [get_property_error _ _ _ _ hg]
  | ok f =>
    exfalso
    have hc := first_loop_count (table_entries tbl)
    have hle := distinct_from_le_length (table_entries tbl) CPUFREQ_ENTRY_INVALID
    unfold get_property at hg hml
    simp only [] at hg hml
    by_cases h0 : (first_loop (table_entries tbl)
        { freq := CPUFREQ_ENTRY_INVALID, descend := -1, max_level := 0 }).max_level = 0
    · rw [if_pos h0] at hg; exact absurd hg (by simp)
    · rw [if_neg h0, if_neg (by decide), if_pos trivial] at hg
      rw [if_neg h0, if_pos trivial] at hml
      have hml2 := Except.ok.inj hml
      have hb := second_loop_get_freq_bound _ _ _ _ _ _ _ _ hg
      have h2 := distinct_from_le_invalid (table_entries tbl)
        (first_loop (table_entries tbl)
          { freq := CPUFREQ_ENTRY_INVALID, descend := -1, max_level := 0 }).freq
      obtain ⟨-, hb2⟩ := hb
      split_ifs at hb2 <;> omega

/-- A level GET_LEVEL reports is at most the maximum level GET_MAXL reports. -/
theorem get_property_level_le_max (tbl : List Nat) (f o : Nat)
    (hlen : (table_entries tbl).length < 2 ^ 32)
    (h : get_property (some tbl) f GET_LEVEL = Except.ok o) :
    ∃ ml, get_property (some tbl) 0 GET_MAXL = Except.ok ml ∧ o ≤ ml := by
  have hc := first_loop_count (table_entries tbl)
  have hle := distinct_from_le_length (table_entries tbl) CPUFREQ_ENTRY_INVALID
  unfold get_property at h ⊢
  simp only [] at h ⊢
  by_cases h0 : (first_loop (table_entries tbl)
      { freq := CPUFREQ_ENTRY_INVALID, descend := -1, max_level := 0 }).max_level = 0
  · rw [if_pos h0] at h; exact absurd h (by simp)
  · rw [if_neg h0, if_neg (by decide)] at h
    rw [if_neg h0, if_pos trivial]
    obtain ⟨j, -, hj2, hj3, -⟩ := second_loop_get_level_spec _ _ _ _ _ _ _ _ h
    have h2 := distinct_from_le_invalid (table_entries tbl)
      (first_loop (table_entries tbl)
        { freq := CPUFREQ_ENTRY_INVALID, descend := -1, max_level := 0 }).freq
    refine ⟨_, rfl, ?_⟩
    rw [hj3]
    split_ifs <;> omega

/-- The level cpufreq_cooling_get_level returns, when it is not THERMAL_CSTATE_INVALID, is
at most the maximum level of the table. -/
theorem cpufreq_cooling_get_level_le_max (tbl : List Nat) (f : Nat)
    (hlen : (table_entries tbl).length < 2 ^ 32)
    (h : cpufreq_cooling_get_level (some tbl) f ≠ THERMAL_CSTATE_INVALID) :
    ∃ ml, get_property (some tbl) 0 GET_MAXL = Except.ok ml ∧
      cpufreq_cooling_get_level (some tbl) f ≤ ml := by
  unfold cpufreq_cooling_get_level at h ⊢
  cases hg : get_property (some tbl) f GET_LEVEL with
  | error e => rw [hg] at h; exact absurd rfl h
  | ok o => exact get_property_level_le_max tbl f o hlen hg

/-- A GET_LEVEL scan succeeds exactly when the frequency is among the entries it counts. -/
theorem second_loop_get_level_ok_iff (input level ml : Nat) (d : Int) (es : List Nat)
    (freq j0 : Nat) :
    (∃ o, second_loop GET_LEVEL input level ml d es freq j0 = Except.ok o)
      ↔ input % 2 ^ 32 ∈ distinct_list freq es := by
  induction es generalizing freq j0 with
  | nil => simp [second_loop, distinct_list]
  | cons e0 rest ih =>
    rw [second_loop_cons_level]
    simp only [distinct_list]
    by_cases h1 : e0 = CPUFREQ_ENTRY_INVALID
    · rw [if_pos h1, if_pos h1]; exact ih freq j0
    · rw [if_neg h1, if_neg h1]
      by_cases h2 : freq = e0
      · rw [if_pos h2, if_pos h2]; exact ih freq j0
      · rw [if_neg h2, if_neg h2]
        by_cases h3 : input % 2 ^ 32 = e0
        · rw [if_pos h3]
          constructor
          · intro _; rw [h3]; exact List.mem_cons_self _ _
          · intro _; exact ⟨_, rfl⟩
        · rw [if_neg h3]
          rw [ih e0 (j0 + 1)]
          constructor
          · intro h; exact List.mem_cons_of_mem _ h
          · intro h
            rcases List.mem_cons.mp h with h4 | h4
            · exact absurd h4 h3
            · exact h4

/-- A loop entered with the first counted entry counts the entries after it. -/
theorem distinct_list_of_head_eq (es : List Nat) (freq : Nat)
    (h : (distinct_list CPUFREQ_ENTRY_INVALID es).head? = some freq) :
    distinct_list freq es = (distinct_list CPUFREQ_ENTRY_INVALID es).tail := by
  induction es with
  | nil => simp [distinct_list] at h
  | cons e rest ih =>
    by_cases h1 : e = CPUFREQ_ENTRY_INVALID
    · simp only [distinct_list, h1, if_true] at h ⊢
      exact ih h
    · have h3 : ¬ CPUFREQ_ENTRY_INVALID = e := fun hh => h1 hh.symm
      simp only [distinct_list, h1, h3, if_false, List.head?_cons, Option.some.injEq] at h ⊢
      simp [h]

/-- On a table with at least two levels, every entry the first loop counts is counted by the
second loop as well, although it is entered with the last frequency of the first. -/
theorem mem_distinct_list_second (es : List Nat) (x : Nat)
    (htwo : 2 ≤ (distinct_list CPUFREQ_ENTRY_INVALID es).length)
    (hx : x ∈ distinct_list CPUFREQ_ENTRY_INVALID es) :
    x ∈ distinct_list
      ((distinct_list CPUFREQ_ENTRY_INVALID es).getLast?.getD CPUFREQ_ENTRY_INVALID) es := by
  by_cases hh : (distinct_list CPUFREQ_ENTRY_INVALID es).head?
      = some ((distinct_list CPUFREQ_ENTRY_INVALID es).getLast?.getD CPUFREQ_ENTRY_INVALID)
  · rw [distinct_list_of_head_eq es _ hh]
    generalize distinct_list CPUFREQ_ENTRY_INVALID es = dl at htwo hx hh
    match dl, htwo, hx, hh with
    | a :: b :: t, _, hx, hh =>
      simp only [List.head?_cons, Option.some.injEq] at hh
      simp only [List.tail_cons]
      have hmem : (b :: t).getLast?.getD CPUFREQ_ENTRY_INVALID ∈ b :: t := by
        cases hg : (b :: t).getLast? with
        | none => simp at hg
        | some y => exact List.mem_of_getLast?_eq_some hg
      rw [List.getLast?_cons_cons] at hh
      rcases List.mem_cons.mp hx with h | h
      · rw [h, hh]; exact hmem
      · exact h
  · rw [distinct_list_of_head_ne es _ hh]
    exact hx

/-- On a table with at least two levels cpufreq_cooling_get_level finds a level exactly for
the frequencies of the valid entries. -/
theorem cpufreq_cooling_get_level_found_iff (tbl : List Nat) (f : Nat) (hf : f < 2 ^ 32)
    (htwo : 2 ≤ (distinct_list CPUFREQ_ENTRY_INVALID (table_entries tbl)).length) :
    cpufreq_cooling_get_level (some tbl) f ≠ THERMAL_CSTATE_INVALID
      ↔ (f ∈ table_entries tbl ∧ f ≠ CPUFREQ_ENTRY_INVALID) := by
  have hc := first_loop_count (table_entries tbl)
  have hdl := distinct_list_length (table_entries tbl) CPUFREQ_ENTRY_INVALID
  have hfr := first_loop_freq (table_entries tbl)
    { freq := CPUFREQ_ENTRY_INVALID, descend := -1, max_level := 0 }
  simp only [] at hfr
  have h0 : ¬ (first_loop (table_entries tbl)
      { freq := CPUFREQ_ENTRY_INVALID, descend := -1, max_level := 0 }).max_level = 0 := by
    omega
  have hiff := second_loop_get_level_ok_iff f 0
    ((first_loop (table_entries tbl)
      { freq := CPUFREQ_ENTRY_INVALID, descend := -1, max_level := 0 }).max_level - 1)
    (first_loop (table_entries tbl)
      { freq := CPUFREQ_ENTRY_INVALID, descend := -1, max_level := 0 }).descend
    (table_entries tbl)
    (first_loop (table_entries tbl)
      { freq := CPUFREQ_ENTRY_INVALID, descend := -1, max_level := 0 }).freq 0
  rw [Nat.mod_eq_of_lt hf] at hiff
  have hgp : get_property (some tbl) f GET_LEVEL
      = second_loop GET_LEVEL f 0
        ((first_loop (table_entries tbl)
          { freq := CPUFREQ_ENTRY_INVALID, descend := -1, max_level := 0 }).max_level - 1)
        (first_loop (table_entries tbl)
          { freq := CPUFREQ_ENTRY_INVALID, descend := -1, max_level := 0 }).descend
        (table_entries tbl)
        (first_loop (table_entries tbl)
          { freq := CPUFREQ_ENTRY_INVALID, descend := -1, max_level := 0 }).freq 0 := by
    unfold get_property
    simp only []
    rw [if_neg h0, if_neg (by decide), if_neg (by decide)]
  constructor
  · intro h
    unfold cpufreq_cooling_get_level at h
    cases hg : get_property (some tbl) f GET_LEVEL with
    | error e => rw [hg] at h; exact absurd rfl h
    | ok o =>
      rw [hgp] at hg
      have hm := hiff.mp ⟨o, hg⟩
      exact ⟨distinct_list_mem _ _ _ hm, distinct_list_valid _ _ _ hm⟩
  · intro ⟨hm, hv⟩
    have hm1 : f ∈ distinct_list CPUFREQ_ENTRY_INVALID (table_entries tbl) := by
      rcases mem_distinct_list _ CPUFREQ_ENTRY_INVALID f hm hv with h | h
      · exact h
      · exact absurd h hv
    have hm2 := mem_distinct_list_second _ _ htwo hm1
    rw [← hfr] at hm2
    obtain ⟨o, ho⟩ := hiff.mpr hm2
    unfold cpufreq_cooling_get_level
    rw [hgp, ho]
    intro hcon
    have hlt : o < 2 ^ 32 := by
      obtain ⟨j, -, -, hj3, -⟩ := second_loop_get_level_spec _ _ _ _ _ _ _ _ ho
      rw [hj3]
      exact Nat.mod_lt _ (by norm_num)
    simp only [] at hcon
    unfold THERMAL_CSTATE_INVALID at hcon
    omega

/-- GET_FREQ resolves no level on a table for which GET_MAXL fails. -/
theorem get_property_freq_of_maxl_error (tbl : List Nat) (L : Nat) (e : Int)
    (h : get_property (some tbl) 0 GET_MAXL = Except.error e) :
    get_property (some tbl) L GET_FREQ = Except.error (-EINVAL) := by
  unfold get_property at h ⊢
  simp only [] at h ⊢
  by_cases h0 : (first_loop (table_entries tbl)
      { freq := CPUFREQ_ENTRY_INVALID, descend := -1, max_level := 0 }).max_level = 0
  · rw [if_pos h0]
  · rw [if_neg h0, if_pos trivial] at h
    exact absurd h (by simp)

/-! ## Facts about the cpumask helpers -/

theorem mem_for_each_cpu (env : kernel_env) (mask : cpumask) (c : Nat) :
    c ∈ for_each_cpu env mask ↔ c < env.nr_cpu_ids ∧ mask c = true := by
  unfold for_each_cpu
  rw [List.mem_filter, List.mem_range]

/-- The kernel cpumask_any finds a cpu exactly when the mask holds one. -/
theorem cpumask_any_lt_iff (env : kernel_env) (mask : cpumask) :
    cpumask_any env mask < env.nr_cpu_ids ↔ ∃ c, c < env.nr_cpu_ids ∧ mask c = true := by
  unfold cpumask_any
  cases h : for_each_cpu env mask with
  | nil =>
    simp only [List.head?_nil, Option.getD_none, lt_self_iff_false, false_iff, not_exists]
    intro c hc
    have := (mem_for_each_cpu env mask c).mpr hc
    rw [h] at this
    exact absurd this (List.not_mem_nil _)
  | cons a t =>
    have ha : a ∈ for_each_cpu env mask := by rw [h]; exact List.mem_cons_self _ _
    have ha2 := (mem_for_each_cpu env mask a).mp ha
    simp only [List.head?_cons, Option.getD_some]
    exact ⟨fun _ => ⟨a, ha2⟩, fun _ => ha2.1⟩

/-- The kernel cpumask_any_and finds a cpu exactly when an allowed cpu is online. -/
theorem cpumask_any_and_lt_iff (env : kernel_env) (m1 m2 : cpumask) :
    cpumask_any_and env m1 m2 < env.nr_cpu_ids
      ↔ ∃ c, c < env.nr_cpu_ids ∧ m1 c = true ∧ m2 c = true := by
  unfold cpumask_any_and
  rw [cpumask_any_lt_iff]
  simp only [Bool.and_eq_true]

/-- The level cpufreq_cooling_get_level returns for the table of a cpu, when it is not
THERMAL_CSTATE_INVALID, is at most the maximum level of that table. -/
theorem cpufreq_cooling_get_level_le_max_table (table : Option (List Nat)) (f : Nat)
    (hlen : ∀ tbl, table = some tbl → (table_entries tbl).length < 2 ^ 32)
    (h : cpufreq_cooling_get_level table f ≠ THERMAL_CSTATE_INVALID) :
    ∃ ml, get_property table 0 GET_MAXL = Except.ok ml ∧
      cpufreq_cooling_get_level table f ≤ ml := by
  cases table with
  | none => exact absurd rfl h
  | some tbl => exact cpufreq_cooling_get_level_le_max tbl f (hlen tbl rfl) h

/-! ## Facts about registration and the device search of build_dyn_power_table -/

/-- The first loop of build_dyn_power_table passes over the CPUs without operating points. -/
theorem find_opp_device_skip (lib : opp_library) (pre rest : List Nat)
    (hpre : ∀ c ∈ pre, cpu_without_opps lib c = true) :
    find_opp_device lib (pre ++ rest) = find_opp_device lib rest := by
  induction pre with
  | nil => rfl
  | cons a t ih =>
    have ha := hpre a (List.mem_cons_self _ _)
    have ht := ih (fun c hc => hpre c (List.mem_cons_of_mem _ hc))
    unfold cpu_without_opps at ha
    simp only [List.cons_append, find_opp_device]
    cases hd : lib.get_cpu_device a with
    | none => simpa using ht
    | some dev =>
      rw [hd] at ha
      simp only [decide_eq_true_eq] at ha
      simp only [ha, lt_self_iff_false, if_false]
      exact ht

/-- A device with a positive count of operating points has a first operating point, so the
loop of build_dyn_power_table stores at least one entry. -/
theorem build_power_entries_ne_nil (lib : opp_library) (dev capacitance fuel : Nat)
    (h : 0 < opp_get_opp_count lib dev) :
    build_power_entries lib dev capacitance (fuel + 1) 0 ≠ [] := by
  unfold opp_get_opp_count at h
  cases hl : lib.opp_list dev with
  | none => rw [hl] at h; exact absurd h (by decide)
  | some l =>
    rw [hl] at h
    simp only [build_power_entries, opp_find_freq_ceil, hl]
    cases hc : opp_ceil_in 0 l with
    | none =>
      exfalso
      have hn := opp_ceil_in_none 0 l hc
      cases l with
      | nil => simp at h
      | cons o t => exact absurd (hn o (List.mem_cons_self _ _)) (by omega)
    | some o => simp

/-- What build_dyn_power_table does once its first loop has found the device: with a
callback it stores the entries, with a NULL callback it calls through the NULL pointer. -/
theorem build_dyn_power_table_found (env : kernel_env) (lib : opp_library)
    (cpufreq_device : cpufreq_cooling_device) (capacitance d : Nat)
    (hfind : find_opp_device lib (for_each_cpu env cpufreq_device.allowed_cpus) = Except.ok d)
    (hcount : 0 < opp_get_opp_count lib d) :
    build_dyn_power_table env lib cpufreq_device capacitance =
      match cpufreq_device.plat_get_static_power with
      | none => none
      | some _ =>
        some (0, { cpufreq_device with
          cpu_dev := some d
          dyn_power_table := build_power_entries lib d capacitance
            ((lib.opp_list d).getD []).length.succ 0 }) := by
  unfold build_dyn_power_table
  rw [hfind]
  simp only []
  rw [if_neg (build_power_entries_ne_nil lib d capacitance _ hcount)]

/-- The fields build_dyn_power_table leaves as they were. -/
theorem build_dyn_power_table_keeps (env : kernel_env) (lib : opp_library)
    (cpufreq_device dev2 : cpufreq_cooling_device) (capacitance : Nat) (ret : Int)
    (h : build_dyn_power_table env lib cpufreq_device capacitance = some (ret, dev2)) :
    dev2.cpufreq_state = cpufreq_device.cpufreq_state ∧
    dev2.cpufreq_val = cpufreq_device.cpufreq_val ∧
    dev2.allowed_cpus = cpufreq_device.allowed_cpus ∧
    dev2.time_in_idle = cpufreq_device.time_in_idle ∧
    dev2.time_in_idle_timestamp = cpufreq_device.time_in_idle_timestamp := by
  unfold build_dyn_power_table at h
  cases hf : find_opp_device lib (for_each_cpu env cpufreq_device.allowed_cpus) with
  | error e =>
    rw [hf] at h
    simp only [Option.some.injEq, Prod.mk.injEq] at h
    rw [← h.2]
    exact ⟨rfl, rfl, rfl, rfl, rfl⟩
  | ok d =>
    rw [hf] at h
    simp only [] at h
    split_ifs at h with he
    · simp only [Option.some.injEq, Prod.mk.injEq] at h
      rw [← h.2]
      exact ⟨rfl, rfl, rfl, rfl, rfl⟩
    · cases hp : cpufreq_device.plat_get_static_power with
      | none => rw [hp] at h; exact absurd h (by simp)
      | some cb =>
        rw [hp] at h
        simp only [Option.some.injEq, Prod.mk.injEq] at h
        rw [← h.2]
        exact ⟨rfl, rfl, rfl, rfl, rfl⟩

/-- The device a successful registration leaves: cooling state 0, clip frequency 0 (never
set at registration), the mask it was given, and sample arrays of cpumask_weight entries. -/
theorem registered_device_fields (env : kernel_env) (lib : opp_library) (renv : register_env)
    (clip_cpus : cpumask) (capacitance : Nat) (plat_static_func : Option get_static_t)
    (d : cpufreq_cooling_device)
    (h : __cpufreq_cooling_register env lib renv clip_cpus capacitance plat_static_func
      = some (Except.ok d)) :
    d.cpufreq_state = 0 ∧ d.cpufreq_val = 0 ∧ d.allowed_cpus = clip_cpus ∧
    d.time_in_idle.length = cpumask_weight env clip_cpus ∧
    d.time_in_idle_timestamp.length = cpumask_weight env clip_cpus := by
  unfold __cpufreq_cooling_register at h
  simp only [] at h
  by_cases h1 : register_limits_ok env renv (for_each_cpu env clip_cpus) 0 0 = false
  · rw [if_pos h1] at h
    simp at h
  · rw [if_neg h1] at h
    generalize hb : (if capacitance ≠ 0 then
        build_dyn_power_table env lib
          { id := 0, cpufreq_state := 0, cpufreq_val := 0, allowed_cpus := clip_cpus,
            last_load := 0, time_in_idle := List.replicate (cpumask_weight env clip_cpus) 0,
            time_in_idle_timestamp := List.replicate (cpumask_weight env clip_cpus) 0,
            dyn_power_table := [], cpu_dev := none, plat_get_static_power := plat_static_func }
          capacitance
      else some (0,
          { id := 0, cpufreq_state := 0, cpufreq_val := 0, allowed_cpus := clip_cpus,
            last_load := 0, time_in_idle := List.replicate (cpumask_weight env clip_cpus) 0,
            time_in_idle_timestamp := List.replicate (cpumask_weight env clip_cpus) 0,
            dyn_power_table := [], cpu_dev := none, plat_get_static_power := none })) = built
      at h
    have hk : ∀ ret dev1, built = some (ret, dev1) →
        dev1.cpufreq_val = 0 ∧ dev1.allowed_cpus = clip_cpus ∧
        dev1.time_in_idle = List.replicate (cpumask_weight env clip_cpus) 0 ∧
        dev1.time_in_idle_timestamp = List.replicate (cpumask_weight env clip_cpus) 0 := by
      intro ret dev1 hbuilt
      rw [← hb] at hbuilt
      split_ifs at hbuilt
      · exact (build_dyn_power_table_keeps _ _ _ _ _ _ hbuilt).2
      · simp only [Option.some.injEq, Prod.mk.injEq] at hbuilt
        rw [← hbuilt.2]
        exact ⟨rfl, rfl, rfl, rfl⟩
    cases built with
    | none => simp at h
    | some r =>
      obtain ⟨ret, dev1⟩ := r
      have hk1 := hk ret dev1 rfl
      simp only [] at h
      split_ifs at h with h3
      · simp at h
      cases hi : renv.get_idr with
      | error e => rw [hi] at h; simp at h
      | ok id =>
        rw [hi] at h
        simp only [] at h
        cases ht : renv.thermal_register_error with
        | some err => rw [ht] at h; simp at h
        | none =>
          rw [ht] at h
          simp only [Option.some.injEq, Except.ok.injEq] at h
          rw [← h]
          simp only []
          refine ⟨trivial, hk1.1, hk1.2.1, ?_, ?_⟩
          · rw [hk1.2.2.1, List.length_replicate]
          · rw [hk1.2.2.2, List.length_replicate]

/-- The function get_load reads outside the sample arrays for a cpu number that is not below
their length. -/
theorem get_load_outside (get_cpu_idle_time : Nat → Nat × Nat)
    (cpufreq_device : cpufreq_cooling_device) (cpu : Nat)
    (h : cpufreq_device.time_in_idle.length ≤ cpu) :
    get_load get_cpu_idle_time cpufreq_device cpu = none := by
  unfold get_load
  simp only []
  rw [List.getElem?_eq_none h]

/-! ## Facts about the order of the scans and the states of a device -/

/-- The entry a scan ends on is the entry it was entered at or one of those it visited. -/
theorem scan_entry_mem (stop : power_table → Bool) (prev : power_table)
    (l : List power_table) : scan_entry stop prev l ∈ prev :: l := by
  induction l generalizing prev with
  | nil => simp [scan_entry]
  | cons e rest ih =>
    simp only [scan_entry]
    split_ifs
    · exact List.mem_cons_self _ _
    · exact List.mem_cons_of_mem _ (ih e)

/-- Of two scans over a table whose keys never decrease, the one that stops wherever the
other stops ends on an entry of a key that is not larger. -/
theorem scan_entry_mono (stop1 stop2 : power_table → Bool)
    (himp : ∀ e, stop2 e = true → stop1 e = true) (key : power_table → Nat)
    (prev : power_table) (l : List power_table)
    (hs : List.Pairwise (fun a b => key a ≤ key b) (prev :: l)) :
    key (scan_entry stop1 prev l) ≤ key (scan_entry stop2 prev l) := by
  induction l generalizing prev with
  | nil => simp [scan_entry]
  | cons e rest ih =>
    have hs2 := List.pairwise_cons.mp hs
    simp only [scan_entry]
    by_cases h2 : stop2 e = true
    · rw [if_pos h2, if_pos (himp e h2)]
    · rw [if_neg h2]
      by_cases h1 : stop1 e = true
      · rw [if_pos h1]
        exact hs2.1 _ (scan_entry_mem stop2 e rest)
      · rw [if_neg h1]
        exact ih e hs2.2

/-- One call of cpufreq_set_cur_state keeps the mask of the device, keeps cpufreq_state at
most the maximum level, and keeps cpufreq_val the frequency of the level cpufreq_state
unless both are still 0. -/
theorem set_cur_state_keeps (env : kernel_env) (tbl : List Nat) (ml : Nat) (mask : cpumask)
    (htbl : env.cpufreq_frequency_get_table (cpumask_any env mask) = some tbl)
    (hlen : (table_entries tbl).length < 2 ^ 32)
    (hml : get_property (some tbl) 0 GET_MAXL = Except.ok ml)
    (st : driver_state) (L : Nat) (hL : L < 2 ^ 64)
    (hmask : st.dev.allowed_cpus = mask)
    (hstate : st.dev.cpufreq_state ≤ ml)
    (hval : st.dev.cpufreq_val = get_cpu_frequency (some tbl) st.dev.cpufreq_state ∨
      (st.dev.cpufreq_state = 0 ∧ st.dev.cpufreq_val = 0)) :
    (cpufreq_set_cur_state env st L).2.dev.allowed_cpus = mask ∧
    (cpufreq_set_cur_state env st L).2.dev.cpufreq_state ≤ ml ∧
    ((cpufreq_set_cur_state env st L).2.dev.cpufreq_val
        = get_cpu_frequency (some tbl) (cpufreq_set_cur_state env st L).2.dev.cpufreq_state ∨
      ((cpufreq_set_cur_state env st L).2.dev.cpufreq_state = 0 ∧
        (cpufreq_set_cur_state env st L).2.dev.cpufreq_val = 0)) := by
  unfold cpufreq_set_cur_state
  by_cases heq : st.dev.cpufreq_state = L
  · have hr : cpufreq_apply_cooling env st L = (0, st) := by
      unfold cpufreq_apply_cooling
      simp only []
      rw [if_pos heq]
    rw [hr]
    exact ⟨hmask, hstate, hval⟩
  · by_cases hf0 : get_cpu_frequency
        (env.cpufreq_frequency_get_table (cpumask_any env st.dev.allowed_cpus)) L = 0
    · have hr : cpufreq_apply_cooling env st L = (-EINVAL, st) := by
        unfold cpufreq_apply_cooling
        simp only []
        rw [if_neg heq, if_pos hf0]
      rw [hr]
      exact ⟨hmask, hstate, hval⟩
    · rw [cpufreq_apply_cooling_resolved env st L heq hf0]
      simp only []
      rw [hmask, htbl] at hf0 ⊢
      have hlt : L < 2 ^ 32 := resolved_level_lt (some tbl) L hL
        (fun t ht => by rw [← Option.some.inj ht]; exact hlen) hf0
      have hle : L ≤ ml := by
        by_contra hcon
        have hg := get_property_freq_above_max tbl L ml hL hlen hml (by omega)
        apply hf0
        unfold get_cpu_frequency
        rw [hg]
      rw [Nat.mod_eq_of_lt hlt]
      exact ⟨rfl, hle, Or.inl rfl⟩

/-- A sequence of cpufreq_set_cur_state calls keeps what one call keeps. -/
theorem set_cur_state_calls_keep (env : kernel_env) (tbl : List Nat) (ml : Nat)
    (mask : cpumask)
    (htbl : env.cpufreq_frequency_get_table (cpumask_any env mask) = some tbl)
    (hlen : (table_entries tbl).length < 2 ^ 32)
    (hml : get_property (some tbl) 0 GET_MAXL = Except.ok ml)
    (levels : List Nat) (hlevels : ∀ L ∈ levels, L < 2 ^ 64) (st : driver_state)
    (hmask : st.dev.allowed_cpus = mask)
    (hstate : st.dev.cpufreq_state ≤ ml)
    (hval : st.dev.cpufreq_val = get_cpu_frequency (some tbl) st.dev.cpufreq_state ∨
      (st.dev.cpufreq_state = 0 ∧ st.dev.cpufreq_val = 0)) :
    (set_cur_state_calls env st levels).dev.cpufreq_state ≤ ml ∧
    ((set_cur_state_calls env st levels).dev.cpufreq_val
        = get_cpu_frequency (some tbl) (set_cur_state_calls env st levels).dev.cpufreq_state ∨
      ((set_cur_state_calls env st levels).dev.cpufreq_state = 0 ∧
        (set_cur_state_calls env st levels).dev.cpufreq_val = 0)) := by
  induction levels generalizing st with
  | nil => exact ⟨hstate, hval⟩
  | cons L rest ih =>
    have h1 := set_cur_state_keeps env tbl ml mask htbl hlen hml st L
      (hlevels L (List.mem_cons_self _ _)) hmask hstate hval
    have h2 := ih (fun x hx => hlevels x (List.mem_cons_of_mem _ hx))
      (cpufreq_set_cur_state env st L).2 h1.1 h1.2.1 h1.2.2
    simpa [set_cur_state_calls] using h2

/-! ## Facts about registration without a callback and the query callbacks as transformers -/

/-- The transformer cpufreq_get_max_state hands the state on and has the result of the
value-only form. -/
theorem stateful_get_max_state_eq (env : kernel_env) (st : driver_state) :
    stateful.cpufreq_get_max_state env st = (cpufreq_get_max_state env st.dev, st) := by
  unfold stateful.cpufreq_get_max_state cpufreq_get_max_state
  simp only []
  cases get_property (env.cpufreq_frequency_get_table (cpumask_any env st.dev.allowed_cpus)) 0
    GET_MAXL <;> rfl

/-- Every result of the transformer cpufreq_state2power comes with the state it was called
in and is the result of the value-only form. -/
theorem stateful_state2power_frame (env : kernel_env) (tz : thermal_zone_device)
    (st : driver_state) (state : Nat) (r : (Int × Option Nat) × driver_state)
    (h : stateful.cpufreq_state2power env tz st state = some r) :
    r.2 = st ∧ r.1 = cpufreq_state2power env st.dev tz state := by
  unfold stateful.cpufreq_state2power at h
  unfold cpufreq_state2power
  simp only [] at h ⊢
  split_ifs at h ⊢ with h1 h2
  · cases Option.some.inj h
    exact ⟨rfl, rfl⟩
  · cases Option.some.inj h
    exact ⟨rfl, rfl⟩
  · cases hpt : st.dev.dyn_power_table with
    | nil =>
      rw [hpt] at h
      simp only [] at h
      cases h
    | cons e rest =>
      rw [hpt] at h
      simp only [] at h
      cases hs : get_static_power env st.dev tz
          (get_cpu_frequency
            (env.cpufreq_frequency_get_table
              (cpumask_any env (fun c => st.dev.allowed_cpus c && env.cpu_online_mask c)))
            state) with
      | error ret =>
        rw [hs] at h
        cases Option.some.inj h
        exact ⟨rfl, rfl⟩
      | ok S =>
        rw [hs] at h
        cases Option.some.inj h
        exact ⟨rfl, rfl⟩

/-- On a device with a power table the transformer cpufreq_state2power has a result. -/
theorem stateful_state2power_some (env : kernel_env) (tz : thermal_zone_device)
    (st : driver_state) (state : Nat) (hne : st.dev.dyn_power_table ≠ []) :
    stateful.cpufreq_state2power env tz st state
      = some (cpufreq_state2power env st.dev tz state, st) := by
  cases hr : stateful.cpufreq_state2power env tz st state with
  | some r =>
    obtain ⟨h1, h2⟩ := stateful_state2power_frame env tz st state r hr
    rw [← h2, ← h1]
  | none =>
    exfalso
    unfold stateful.cpufreq_state2power at hr
    simp only [] at hr
    split_ifs at hr with h1 h2
    cases hpt : st.dev.dyn_power_table with
    | nil => exact hne hpt
    | cons e rest =>
      rw [hpt] at hr
      simp only [] at hr
      cases hs : get_static_power env st.dev tz
          (get_cpu_frequency
            (env.cpufreq_frequency_get_table
              (cpumask_any env (fun c => st.dev.allowed_cpus c && env.cpu_online_mask c)))
            state) with
      | error ret => rw [hs] at hr; cases hr
      | ok S => rw [hs] at hr; cases hr

/-- Every result of the transformer cpufreq_power2state comes with the state it was called
in and is the result of the value-only form. -/
theorem stateful_power2state_frame (env : kernel_env) (tz : thermal_zone_device)
    (st : driver_state) (power : Nat) (r : (Int × Option Nat) × driver_state)
    (h : stateful.cpufreq_power2state env tz st power = some r) :
    r.2 = st ∧ r.1 = cpufreq_power2state env st.dev tz power := by
  unfold stateful.cpufreq_power2state at h
  unfold cpufreq_power2state
  simp only [] at h ⊢
  split_ifs at h ⊢ with h1
  · cases Option.some.inj h
    exact ⟨rfl, rfl⟩
  · cases hs : get_static_power env st.dev tz
        (env.cpufreq_quick_get
          (cpumask_any_and env st.dev.allowed_cpus env.cpu_online_mask)) with
    | error ret =>
      rw [hs] at h
      cases Option.some.inj h
      exact ⟨rfl, rfl⟩
    | ok S =>
      rw [hs] at h
      simp only [] at h ⊢
      cases hpt : st.dev.dyn_power_table with
      | nil =>
        rw [hpt] at h
        simp only [] at h
        cases h
      | cons e rest =>
        rw [hpt] at h
        simp only [] at h
        split_ifs at h ⊢ with h2
        · cases Option.some.inj h
          exact ⟨rfl, rfl⟩
        · cases Option.some.inj h
          exact ⟨rfl, rfl⟩

/-- On a device with a power table the transformer cpufreq_power2state has a result. -/
theorem stateful_power2state_some (env : kernel_env) (tz : thermal_zone_device)
    (st : driver_state) (power : Nat) (hne : st.dev.dyn_power_table ≠ []) :
    stateful.cpufreq_power2state env tz st power
      = some (cpufreq_power2state env st.dev tz power, st) := by
  cases hr : stateful.cpufreq_power2state env tz st power with
  | some r =>
    obtain ⟨h1, h2⟩ := stateful_power2state_frame env tz st power r hr
    rw [← h2, ← h1]
  | none =>
    exfalso
    unfold stateful.cpufreq_power2state at hr
    simp only [] at hr
    split_ifs at hr with h1
    cases hs : get_static_power env st.dev tz
        (env.cpufreq_quick_get
          (cpumask_any_and env st.dev.allowed_cpus env.cpu_online_mask)) with
    | error ret => rw [hs] at hr; cases hr
    | ok S =>
      rw [hs] at hr
      simp only [] at hr
      cases hpt : st.dev.dyn_power_table with
      | nil => exact hne hpt
      | cons e rest =>
        rw [hpt] at hr
        simp only [] at hr
        split_ifs at hr

/-! ## Claims C21 to C30 -/

/-- C21: on the raw table holding the single valid frequency 1000, whose maximum level is 0,
cpufreq_cooling_get_level returns THERMAL_CSTATE_INVALID for the frequency 1000 although the
valid entry of the table has that frequency; on the table 1000, 1500, 2000 the frequencies
2000, 1500 and 1000 have the levels 0, 1 and 2 and the absent 1200 has none. -/
theorem C21_single_frequency_level_not_found :
    cpufreq_cooling_get_level (some [1000]) 1000 = THERMAL_CSTATE_INVALID ∧
    (1000 ∈ table_entries [1000] ∧ 1000 ≠ CPUFREQ_ENTRY_INVALID) ∧
    get_property (some [1000]) 0 GET_MAXL = Except.ok 0 ∧
    cpufreq_cooling_get_level (some [1000, 1500, 2000]) 2000 = 0 ∧
    cpufreq_cooling_get_level (some [1000, 1500, 2000]) 1500 = 1 ∧
    cpufreq_cooling_get_level (some [1000, 1500, 2000]) 1000 = 2 ∧
    cpufreq_cooling_get_level (some [1000, 1500, 2000]) 1200 = THERMAL_CSTATE_INVALID := by
  decide

/-- C22: for every raw table of fewer than 2^32 entries, in either order, and every unsigned
long level above the maximum level GET_MAXL reports (every level when the table has no
valid entry), also where the subtraction from the maximum level wraps, get_property fails
with -EINVAL for GET_FREQ and get_cpu_frequency returns 0. -/
theorem C22_level_above_max_refused (tbl : List Nat) (L : Nat) (hL : L < 2 ^ 64)
    (hlen : (table_entries tbl).length < 2 ^ 32)
    (hgt : ∀ ml, get_property (some tbl) 0 GET_MAXL = Except.ok ml → ml < L) :
    get_property (some tbl) L GET_FREQ = Except.error (-EINVAL) ∧
    get_cpu_frequency (some tbl) L = 0 := by
  have h : get_property (some tbl) L GET_FREQ = Except.error (-EINVAL) := by
    cases hm : get_property (some tbl) 0 GET_MAXL with
    | error e => exact get_property_freq_of_maxl_error tbl L e hm
    | ok ml => exact get_property_freq_above_max tbl L ml hL hlen hm (hgt ml hm)
  refine ⟨h, ?_⟩
  unfold get_cpu_frequency
  rw [h]

/-- C22 on the ascending table 1000, 1500, 2000 (maximum level 2) at the level 3, for which
the subtraction 2 - 3 wraps to 2^64 - 1. -/
theorem C22_level_above_max_refused_witness :
    (3 < 2 ^ 64 ∧ (table_entries [1000, 1500, 2000]).length < 2 ^ 32 ∧
      get_property (some [1000, 1500, 2000]) 0 GET_MAXL = Except.ok 2) ∧
    get_property (some [1000, 1500, 2000]) 3 GET_FREQ = Except.error (-EINVAL) ∧
    get_cpu_frequency (some [1000, 1500, 2000]) 3 = 0 :=
  ⟨⟨by norm_num, by decide, by decide⟩,
    C22_level_above_max_refused [1000, 1500, 2000] 3 (by norm_num) (by decide)
      (fun ml h => by
        have h2 : get_property (some [1000, 1500, 2000]) 0 GET_MAXL = Except.ok 2 := by decide
        rw [h2] at h
        have := Except.ok.inj h
        omega)⟩

/-- C23, counterexample: with the CPUs 0 to 3 of the mask online, a static power callback
that reports -ENODEV makes cpufreq_power2state fail with -ENODEV. -/
theorem C23_counterexample_callback_error :
    cpufreq_power2state (example_env [1000, 1500, 2000])
        (example_device example_power_table 50 (some (fun _ _ _ => (-19, 0)))) ⟨100⟩ 200
      = (-ENODEV, none) ∧
    (example_device example_power_table 50 (some (fun _ _ _ => (-19, 0)))).allowed_cpus 0
      = true ∧
    (example_env [1000, 1500, 2000]).cpu_online_mask 0 = true ∧
    0 < (example_env [1000, 1500, 2000]).nr_cpu_ids := by
  decide

/-- C23, amended: cpufreq_power2state returns -ENODEV when no CPU of the affinity mask is
online; with one online, every error of get_static_power is returned unchanged, nothing
being stored; on a device with a dynamic power table, with a CPU of the mask online and the
static power S obtained, it fails with -EINVAL (storing THERMAL_CSTATE_INVALID) if
cpufreq_cooling_get_level finds no level for the frequency chosen from the power table, and
otherwise succeeds with that level, which is at most the maximum level of the frequency
table (a table of fewer than 2^32 entries); so on such a device -ENODEV is returned exactly
when no CPU of the mask is online or get_static_power fails with -ENODEV. -/
theorem C23_power2state_outcomes (env : kernel_env) (cpufreq_device : cpufreq_cooling_device)
    (tz : thermal_zone_device) (power : Nat)
    (hlen : ∀ tbl, env.cpufreq_frequency_get_table
        (cpumask_any_and env cpufreq_device.allowed_cpus env.cpu_online_mask) = some tbl →
      (table_entries tbl).length < 2 ^ 32) :
    ((∀ c, c < env.nr_cpu_ids → cpufreq_device.allowed_cpus c = true →
        env.cpu_online_mask c = false) →
      cpufreq_power2state env cpufreq_device tz power = (-ENODEV, none)) ∧
    (∀ ret : Int,
      (∃ c, c < env.nr_cpu_ids ∧ cpufreq_device.allowed_cpus c = true ∧
        env.cpu_online_mask c = true) →
      get_static_power env cpufreq_device tz
          (env.cpufreq_quick_get
            (cpumask_any_and env cpufreq_device.allowed_cpus env.cpu_online_mask))
          = Except.error ret →
      cpufreq_power2state env cpufreq_device tz power = (ret, none)) ∧
    (∀ S : Nat, cpufreq_device.dyn_power_table ≠ [] →
      (∃ c, c < env.nr_cpu_ids ∧ cpufreq_device.allowed_cpus c = true ∧
        env.cpu_online_mask c = true) →
      get_static_power env cpufreq_device tz
          (env.cpufreq_quick_get
            (cpumask_any_and env cpufreq_device.allowed_cpus env.cpu_online_mask))
          = Except.ok S →
      (cpufreq_cooling_get_level
            (env.cpufreq_frequency_get_table
              (cpumask_any_and env cpufreq_device.allowed_cpus env.cpu_online_mask))
            (cpu_power_to_freq cpufreq_device
              (power2state_normalised_power power S cpufreq_device.last_load))
          = THERMAL_CSTATE_INVALID →
        cpufreq_power2state env cpufreq_device tz power
          = (-EINVAL, some THERMAL_CSTATE_INVALID)) ∧
      (cpufreq_cooling_get_level
            (env.cpufreq_frequency_get_table
              (cpumask_any_and env cpufreq_device.allowed_cpus env.cpu_online_mask))
            (cpu_power_to_freq cpufreq_device
              (power2state_normalised_power power S cpufreq_device.last_load))
          ≠ THERMAL_CSTATE_INVALID →
        cpufreq_power2state env cpufreq_device tz power
          = (0, some (cpufreq_cooling_get_level
            (env.cpufreq_frequency_get_table
              (cpumask_any_and env cpufreq_device.allowed_cpus env.cpu_online_mask))
            (cpu_power_to_freq cpufreq_device
              (power2state_normalised_power power S cpufreq_device.last_load)))) ∧
        ∃ ml, get_property
            (env.cpufreq_frequency_get_table
              (cpumask_any_and env cpufreq_device.allowed_cpus env.cpu_online_mask))
            0 GET_MAXL = Except.ok ml ∧
          cpufreq_cooling_get_level
            (env.cpufreq_frequency_get_table
              (cpumask_any_and env cpufreq_device.allowed_cpus env.cpu_online_mask))
            (cpu_power_to_freq cpufreq_device
              (power2state_normalised_power power S cpufreq_device.last_load)) ≤ ml)) ∧
    (cpufreq_device.dyn_power_table ≠ [] →
      ((cpufreq_power2state env cpufreq_device tz power).1 = -ENODEV ↔
        ((∀ c, c < env.nr_cpu_ids → cpufreq_device.allowed_cpus c = true →
            env.cpu_online_mask c = false) ∨
          get_static_power env cpufreq_device tz
            (env.cpufreq_quick_get
              (cpumask_any_and env cpufreq_device.allowed_cpus env.cpu_online_mask))
            = Except.error (-ENODEV)))) := by
  have hon := cpumask_any_and_lt_iff env cpufreq_device.allowed_cpus env.cpu_online_mask
  have hoff : (∀ c, c < env.nr_cpu_ids → cpufreq_device.allowed_cpus c = true →
        env.cpu_online_mask c = false) →
      cpufreq_power2state env cpufreq_device tz power = (-ENODEV, none) := by
    intro hall
    have ho : ¬ cpumask_any_and env cpufreq_device.allowed_cpus env.cpu_online_mask
        < env.nr_cpu_ids := by
      intro ho
      obtain ⟨c, hc1, hc2, hc3⟩ := hon.mp ho
      rw [hall c hc1 hc2] at hc3
      exact absurd hc3 Bool.false_ne_true
    unfold cpufreq_power2state
    simp only []
    rw [if_pos (by omega)]
  have herr : ∀ ret : Int,
      (∃ c, c < env.nr_cpu_ids ∧ cpufreq_device.allowed_cpus c = true ∧
        env.cpu_online_mask c = true) →
      get_static_power env cpufreq_device tz
          (env.cpufreq_quick_get
            (cpumask_any_and env cpufreq_device.allowed_cpus env.cpu_online_mask))
          = Except.error ret →
      cpufreq_power2state env cpufreq_device tz power = (ret, none) := by
    intro ret hex hs
    have ho := hon.mpr hex
    unfold cpufreq_power2state
    simp only []
    rw [if_neg (by omega), hs]
  refine ⟨hoff, herr, ?_, ?_⟩
  · intro S _ hex hs
    have ho := hon.mpr hex
    have hr := cpufreq_power2state_eq env cpufreq_device tz power S ho hs
    refine ⟨?_, ?_⟩
    · intro hl
      rw [hr, if_pos hl]
    · intro hl
      rw [hr, if_neg hl]
      exact ⟨rfl, cpufreq_cooling_get_level_le_max_table _ _ hlen hl⟩
  · intro _
    by_cases ho : cpumask_any_and env cpufreq_device.allowed_cpus env.cpu_online_mask
        < env.nr_cpu_ids
    · have hex := hon.mp ho
      have hnot : ¬ (∀ c, c < env.nr_cpu_ids → cpufreq_device.allowed_cpus c = true →
          env.cpu_online_mask c = false) := by
        intro hall
        obtain ⟨c, hc1, hc2, hc3⟩ := hex
        rw [hall c hc1 hc2] at hc3
        exact absurd hc3 Bool.false_ne_true
      cases hs : get_static_power env cpufreq_device tz
          (env.cpufreq_quick_get
            (cpumask_any_and env cpufreq_device.allowed_cpus env.cpu_online_mask)) with
      | error e =>
        rw [herr e hex hs]
        constructor
        · intro he
          right
          simp only [] at he
          rw [he]
        · intro he
          rcases he with he | he
          · exact absurd he hnot
          · exact Except.error.inj he
      | ok S2 =>
        have hr := cpufreq_power2state_eq env cpufreq_device tz power S2 ho hs
        rw [hr]
        constructor
        · intro he
          exfalso
          split_ifs at he
          · exact absurd he (by decide)
          · have he2 : (0 : Int) = -ENODEV := he
            exact absurd he2 (by decide)
        · intro he
          rcases he with he | he
          · exact absurd he hnot
          · exact absurd he (by simp)
    · have hall : ∀ c, c < env.nr_cpu_ids → cpufreq_device.allowed_cpus c = true →
          env.cpu_online_mask c = false := by
        intro c hc1 hc2
        by_contra hc3
        exact ho (hon.mpr ⟨c, hc1, hc2, by simpa using hc3⟩)
      rw [hoff hall]
      constructor
      · intro _
        exact Or.inl hall
      · intro _; rfl

/-- C23 on the device that registering the CPUs 0 to 3 with the capacitance 100 and a
callback reporting 30 mW returns (table 81, 150 and 242 mW at 1000000, 1500000 and 2000000
kHz), all CPUs online: with the budget 32 the normalised power 200 selects 1500000 kHz, level
1 of the frequency table. -/
theorem C23_power2state_outcomes_witness :
    cpufreq_power_cooling_register (example_env [1000000, 1500000, 2000000])
        (example_opp_library example_opps) example_register_env (fun c => decide (c < 4)) 100
        (some (fun _ _ _ => (0, 30)))
      = some (Except.ok (example_device [⟨1000000, 81⟩, ⟨1500000, 150⟩, ⟨2000000, 242⟩] 0
        (some (fun _ _ _ => (0, 30))))) ∧
    (example_device [⟨1000000, 81⟩, ⟨1500000, 150⟩, ⟨2000000, 242⟩] 0
      (some (fun _ _ _ => (0, 30)))).dyn_power_table ≠ [] ∧
    (∃ c, c < (example_env [1000000, 1500000, 2000000]).nr_cpu_ids ∧
      (example_device [⟨1000000, 81⟩, ⟨1500000, 150⟩, ⟨2000000, 242⟩] 0
        (some (fun _ _ _ => (0, 30)))).allowed_cpus c = true ∧
      (example_env [1000000, 1500000, 2000000]).cpu_online_mask c = true) ∧
    get_static_power (example_env [1000000, 1500000, 2000000])
        (example_device [⟨1000000, 81⟩, ⟨1500000, 150⟩, ⟨2000000, 242⟩] 0
          (some (fun _ _ _ => (0, 30)))) ⟨100⟩
        ((example_env [1000000, 1500000, 2000000]).cpufreq_quick_get
          (cpumask_any_and (example_env [1000000, 1500000, 2000000])
            (example_device [⟨1000000, 81⟩, ⟨1500000, 150⟩, ⟨2000000, 242⟩] 0
              (some (fun _ _ _ => (0, 30)))).allowed_cpus
            (example_env [1000000, 1500000, 2000000]).cpu_online_mask)) = Except.ok 30 ∧
    cpufreq_power2state (example_env [1000000, 1500000, 2000000])
        (example_device [⟨1000000, 81⟩, ⟨1500000, 150⟩, ⟨2000000, 242⟩] 0
          (some (fun _ _ _ => (0, 30)))) ⟨100⟩ 32 = (0, some 1) ∧
    ∃ ml, get_property (some [1000000, 1500000, 2000000]) 0 GET_MAXL = Except.ok ml ∧
      1 ≤ ml :=
  ⟨rfl, by simp [example_device], ⟨0, by decide, rfl, rfl⟩, by decide,
    ((C23_power2state_outcomes (example_env [1000000, 1500000, 2000000])
      (example_device [⟨1000000, 81⟩, ⟨1500000, 150⟩, ⟨2000000, 242⟩] 0
        (some (fun _ _ _ => (0, 30)))) ⟨100⟩ 32
      (fun tbl h => by
        have h2 : tbl = [1000000, 1500000, 2000000] := (Option.some.inj h).symm
        rw [h2]
        decide)).2.2.1 30 (by simp [example_device]) ⟨0, by decide, rfl, rfl⟩
        (by decide)).2 (by decide)⟩

/-- C25: registering the CPUs 0 to 3, which have the operating points of the examples, with
the capacitance 100 and a NULL static power callback does not build the table: the loop of
build_dyn_power_table calls through the NULL pointer.  The same registration with a callback
succeeds, and its entries are the same for two different callbacks. -/
theorem C25_register_null_callback_called :
    cpufreq_power_cooling_register (example_env [1000, 1500, 2000])
        (example_opp_library example_opps) example_register_env (fun c => decide (c < 4)) 100
        none = none ∧
    build_dyn_power_table (example_env [1000, 1500, 2000]) (example_opp_library example_opps)
        (example_device [] 0 none) 100 = none ∧
    (cpufreq_power_cooling_register (example_env [1000, 1500, 2000])
        (example_opp_library example_opps) example_register_env (fun c => decide (c < 4)) 100
        (some (fun _ _ _ => (0, 30)))).map
      (fun r => r.toOption.map (fun d => d.dyn_power_table))
      = some (some [⟨1000000, 81⟩, ⟨1500000, 150⟩, ⟨2000000, 242⟩]) ∧
    (cpufreq_power_cooling_register (example_env [1000, 1500, 2000])
        (example_opp_library example_opps) example_register_env (fun c => decide (c < 4)) 100
        (some (fun _ _ voltage => (-22, voltage)))).map
      (fun r => r.toOption.map (fun d => d.dyn_power_table))
      = some (some [⟨1000000, 81⟩, ⟨1500000, 150⟩, ⟨2000000, 242⟩]) :=
  ⟨rfl, rfl, by decide, by decide⟩

/-- C26, counterexample: when the device of CPU 0 has no operating point table, so that
opp_get_opp_count is negative for it, build_dyn_power_table fails with that count, -ENODEV,
both when the CPUs 1 to 3 of the mask have operating points and when no CPU of the mask has
any. -/
theorem C26_counterexample_negative_count :
    (build_dyn_power_table (example_env [1000, 1500, 2000])
        { get_cpu_device := fun c => some c,
          opp_list := fun d => if d = 0 then none else some example_opps }
        (example_device [] 0 (some (fun _ _ _ => (0, 30)))) 100).map
      (fun r => (r.1, r.2.dyn_power_table)) = some (-ENODEV, []) ∧
    (build_dyn_power_table (example_env [1000, 1500, 2000])
        { get_cpu_device := fun c => some c, opp_list := fun _ => none }
        (example_device [] 0 (some (fun _ _ _ => (0, 30)))) 100).map
      (fun r => (r.1, r.2.dyn_power_table)) = some (-ENODEV, []) ∧
    -ENODEV ≠ -EINVAL := by
  decide

/-- C26, amended: with a static power callback configured, build_dyn_power_table visits the
CPUs of the mask in order, passing over those with no device or with a count of zero
operating points.  If it passes over all of them it fails with -EINVAL.  If the first other
CPU has a device with a negative count it fails with that count.  If the first other CPU has
a device with a positive count it succeeds, storing that device and a non-empty table built
from its operating points. -/
theorem C26_build_dyn_power_table_outcomes (env : kernel_env) (lib : opp_library)
    (cpufreq_device : cpufreq_cooling_device) (capacitance : Nat) (plat : get_static_t)
    (pre : List Nat)
    (hplat : cpufreq_device.plat_get_static_power = some plat)
    (hpre : ∀ c ∈ pre, cpu_without_opps lib c = true) :
    (for_each_cpu env cpufreq_device.allowed_cpus = pre →
      build_dyn_power_table env lib cpufreq_device capacitance
        = some (-EINVAL, cpufreq_device)) ∧
    (∀ c d post, for_each_cpu env cpufreq_device.allowed_cpus = pre ++ c :: post →
      lib.get_cpu_device c = some d →
      (opp_get_opp_count lib d < 0 →
        build_dyn_power_table env lib cpufreq_device capacitance
          = some (opp_get_opp_count lib d, cpufreq_device)) ∧
      (0 < opp_get_opp_count lib d →
        build_power_entries lib d capacitance ((lib.opp_list d).getD []).length.succ 0 ≠ [] ∧
        build_dyn_power_table env lib cpufreq_device capacitance
          = some (0, { cpufreq_device with
              cpu_dev := some d
              dyn_power_table := build_power_entries lib d capacitance
                ((lib.opp_list d).getD []).length.succ 0 }))) := by
  refine ⟨?_, ?_⟩
  · intro hcpus
    have hf : find_opp_device lib (for_each_cpu env cpufreq_device.allowed_cpus)
        = Except.error (-EINVAL) := by
      rw [hcpus]
      have := find_opp_device_skip lib pre [] hpre
      rw [List.append_nil] at this
      rw [this]
      rfl
    unfold build_dyn_power_table
    rw [hf]
  · intro c d post hcpus hd
    have hf : find_opp_device lib (for_each_cpu env cpufreq_device.allowed_cpus)
        = find_opp_device lib (c :: post) := by
      rw [hcpus]
      exact find_opp_device_skip lib pre (c :: post) hpre
    refine ⟨?_, ?_⟩
    · intro hneg
      have hf2 : find_opp_device lib (c :: post)
          = Except.error (opp_get_opp_count lib d) := by
        simp only [find_opp_device, hd]
        rw [if_neg (by omega), if_pos hneg]
      unfold build_dyn_power_table
      rw [hf, hf2]
    · intro hpos
      have hf2 : find_opp_device lib (c :: post) = Except.ok d := by
        simp only [find_opp_device, hd]
        rw [if_pos hpos]
      refine ⟨build_power_entries_ne_nil lib d capacitance _ hpos, ?_⟩
      rw [build_dyn_power_table_found env lib cpufreq_device capacitance d (by rw [hf, hf2])
        hpos, hplat]

/-- C26 on the mask of the CPUs 0 to 3 where the device of CPU 0 has zero operating points
and the others have those of the examples: the table is built from the device of CPU 1. -/
theorem C26_build_dyn_power_table_outcomes_witness :
    (∀ c ∈ [0], cpu_without_opps
      { get_cpu_device := fun c => some c,
        opp_list := fun d => if d = 0 then some [] else some example_opps } c = true) ∧
    (build_dyn_power_table (example_env [1000, 1500, 2000])
        { get_cpu_device := fun c => some c,
          opp_list := fun d => if d = 0 then some [] else some example_opps }
        (example_device [] 0 (some (fun _ _ _ => (0, 30)))) 100).map
      (fun r => (r.1, r.2.cpu_dev, r.2.dyn_power_table))
      = some (0, some 1, [⟨1000000, 81⟩, ⟨1500000, 150⟩, ⟨2000000, 242⟩]) :=
  ⟨by decide, by
    rw [(((C26_build_dyn_power_table_outcomes (example_env [1000, 1500, 2000])
      { get_cpu_device := fun c => some c,
        opp_list := fun d => if d = 0 then some [] else some example_opps }
      (example_device [] 0 (some (fun _ _ _ => (0, 30)))) 100 (fun _ _ _ => (0, 30)) [0] rfl
      (by decide)).2 1 1 [2, 3] (by decide) rfl).2 (by decide)).2]
    decide⟩

/-- C27, counterexample: a callback that reports the voltage it is passed shows that
get_static_power passes the 1000000 microvolts of the operating point undivided, not 1000
millivolts; the call in build_dyn_power_table passes microvolts as well. -/
theorem C27_counterexample_microvolts :
    get_static_power (example_env [1000, 1500, 2000])
        (example_device example_power_table 50 (some (fun _ _ voltage => (0, voltage))))
        ⟨100⟩ 1500 = Except.ok 1000000 ∧
    (example_env [1000, 1500, 2000]).opp_find_freq_exact 0 1500000 = some 1000000 ∧
    1000000 / 1000 = 1000 ∧
    build_static_power_voltage 1000000 = 1000000 := by
  decide

/-- C27, amended: when a static power callback is configured, the device has a cpu device
and the exact operating point lookup for the frequency (in Hz, as unsigned long) gives a
voltage other than 0, get_static_power calls the callback with the affinity mask of the
device, the passive delay of the thermal zone and that voltage in microvolts, undivided, and
returns the result of the callback. -/
theorem C27_get_static_power_callback (env : kernel_env)
    (cpufreq_device : cpufreq_cooling_device) (tz : thermal_zone_device) (freq : Nat)
    (plat : get_static_t) (d voltage : Nat)
    (hplat : cpufreq_device.plat_get_static_power = some plat)
    (hdev : cpufreq_device.cpu_dev = some d)
    (hopp : env.opp_find_freq_exact d ((freq * 1000) % 2 ^ 64) = some voltage)
    (hv : voltage ≠ 0) :
    get_static_power env cpufreq_device tz freq =
      if (plat cpufreq_device.allowed_cpus tz.passive_delay voltage).1 = 0 then
        Except.ok (plat cpufreq_device.allowed_cpus tz.passive_delay voltage).2
      else Except.error (plat cpufreq_device.allowed_cpus tz.passive_delay voltage).1 := by
  unfold get_static_power
  simp only []
  rw [hplat, hdev]
  simp only [hopp, opp_get_voltage, Option.getD_some]
  rw [if_neg hv]

/-- C27 on the device of the examples at 1500 kHz (1 V) with a callback that reports the
passive delay plus the voltage it is passed: 100 + 1000000. -/
theorem C27_get_static_power_callback_witness :
    (example_env [1000, 1500, 2000]).opp_find_freq_exact 0 ((1500 * 1000) % 2 ^ 64)
      = some 1000000 ∧
    get_static_power (example_env [1000, 1500, 2000])
        (example_device example_power_table 50
          (some (fun _ interval voltage => (0, interval + voltage))))
        ⟨100⟩ 1500 = Except.ok 1000100 :=
  ⟨rfl,
    C27_get_static_power_callback (example_env [1000, 1500, 2000])
      (example_device example_power_table 50
        (some (fun _ interval voltage => (0, interval + voltage))))
      ⟨100⟩ 1500 (fun _ interval voltage => (0, interval + voltage)) 0 1000000 rfl rfl rfl
      (by decide)⟩

/-- C28: registering the mask of the CPUs 4 to 7 succeeds with sample arrays of
cpumask_weight = 4 entries, so that for CPU 4 of the mask get_load indexes outside both
arrays, and so does the first round of the loop of cpufreq_get_requested_power. -/
theorem C28_get_load_index_outside_arrays :
    ∃ d, cpufreq_power_cooling_register (example_env [1000, 1500, 2000])
        (example_opp_library example_opps) example_register_env
        (fun c => decide (4 ≤ c ∧ c < 8)) 100 (some (fun _ _ _ => (0, 30)))
        = some (Except.ok d) ∧
      d.allowed_cpus 4 = true ∧
      cpumask_weight (example_env [1000, 1500, 2000]) d.allowed_cpus = 4 ∧
      d.time_in_idle.length = 4 ∧ d.time_in_idle_timestamp.length = 4 ∧
      (get_load (fun _ => (400, 1000)) d 4).isNone = true ∧
      (cpufreq_get_requested_power (example_env [1000, 1500, 2000]) (fun _ => (400, 1000)) d
        ⟨100⟩).isNone = true :=
  ⟨_, rfl, by decide, by decide, by decide, by decide, by decide, by decide⟩

/-- C29: for every device whose dynamic power table is not empty and has frequencies that
never decrease along it, whatever its power column, cpu_power_to_freq is monotone: for
p1 <= p2 the frequency it returns for p1 is at most the frequency it returns for p2. -/
theorem C29_cpu_power_to_freq_monotone (cpufreq_device : cpufreq_cooling_device)
    (p1 p2 : Nat) (hne : cpufreq_device.dyn_power_table ≠ [])
    (hs : List.Pairwise (fun a b : power_table => a.frequency ≤ b.frequency)
      cpufreq_device.dyn_power_table)
    (hp : p1 ≤ p2) :
    cpu_power_to_freq cpufreq_device p1 ≤ cpu_power_to_freq cpufreq_device p2 := by
  cases hpt : cpufreq_device.dyn_power_table with
  | nil => exact absurd hpt hne
  | cons e0 l =>
    rw [cpu_power_to_freq_entry cpufreq_device p1 e0 l hpt,
      cpu_power_to_freq_entry cpufreq_device p2 e0 l hpt]
    rw [hpt] at hs
    exact scan_entry_mono (fun e => decide (p1 < e.power)) (fun e => decide (p2 < e.power))
      (fun e he => by
        simp only [decide_eq_true_eq] at he ⊢
        omega)
      (fun e => e.frequency) e0 l hs

/-- C29 on the table 1000 kHz at 50 mW, 1500 at 200, 2000 at 150, whose powers are not in
order: the power 100 selects 1000 kHz and the power 250 selects 2000 kHz. -/
theorem C29_cpu_power_to_freq_monotone_witness :
    (100 ≤ 250 ∧
      cpu_power_to_freq (example_device [⟨1000, 50⟩, ⟨1500, 200⟩, ⟨2000, 150⟩] 50 none) 100
        = 1000 ∧
      cpu_power_to_freq (example_device [⟨1000, 50⟩, ⟨1500, 200⟩, ⟨2000, 150⟩] 50 none) 250
        = 2000) ∧
    cpu_power_to_freq (example_device [⟨1000, 50⟩, ⟨1500, 200⟩, ⟨2000, 150⟩] 50 none) 100
      ≤ cpu_power_to_freq (example_device [⟨1000, 50⟩, ⟨1500, 200⟩, ⟨2000, 150⟩] 50 none) 250 :=
  ⟨by decide,
    C29_cpu_power_to_freq_monotone
      (example_device [⟨1000, 50⟩, ⟨1500, 200⟩, ⟨2000, 150⟩] 50 none) 100 250
      (List.cons_ne_nil _ _) (by decide) (by decide)⟩

/-- C30, counterexample: the device registered for the CPUs 0 to 3 over the sorted table
1000, 1500, 2000 has cpufreq_state 0 and cpufreq_val 0, although level 0 is 2000 kHz, and a
call of cpufreq_set_cur_state for the level 0 leaves it so; after calls for the levels 2 and
0 cpufreq_val is 2000. -/
theorem C30_counterexample_registration_state :
    ∃ d, cpufreq_cooling_register (example_env [1000, 1500, 2000])
        (example_opp_library example_opps) example_register_env (fun c => decide (c < 4))
        = some (Except.ok d) ∧
      (registered_state d (fun _ => 0)).dev.cpufreq_state = 0 ∧
      (registered_state d (fun _ => 0)).dev.cpufreq_val = 0 ∧
      get_cpu_frequency (some [1000, 1500, 2000]) 0 = 2000 ∧
      (set_cur_state_calls (example_env [1000, 1500, 2000])
        (registered_state d (fun _ => 0)) [0]).dev.cpufreq_state = 0 ∧
      (set_cur_state_calls (example_env [1000, 1500, 2000])
        (registered_state d (fun _ => 0)) [0]).dev.cpufreq_val = 0 ∧
      (set_cur_state_calls (example_env [1000, 1500, 2000])
        (registered_state d (fun _ => 0)) [2, 0]).dev.cpufreq_val = 2000 :=
  ⟨_, rfl, by decide, by decide, by decide, by decide, by decide, by decide⟩

/-- C30, amended: in the state a successful registration leaves cpufreq_state and
cpufreq_val are both 0, and after any sequence of cpufreq_set_cur_state calls with unsigned
long levels, over a fixed frequency table of fewer than 2^32 entries with the maximum level
maxLevel, cpufreq_state is at most maxLevel and cpufreq_val is the frequency of the level
cpufreq_state, unless both are still 0 as registration left them. -/
theorem C30_state_invariant (env : kernel_env) (lib : opp_library) (renv : register_env)
    (clip_cpus : cpumask) (capacitance : Nat) (plat_static_func : Option get_static_t)
    (d : cpufreq_cooling_device) (g_ipa_freq_limit : Nat → Nat) (tbl : List Nat) (ml : Nat)
    (levels : List Nat)
    (hreg : __cpufreq_cooling_register env lib renv clip_cpus capacitance plat_static_func
      = some (Except.ok d))
    (htbl : env.cpufreq_frequency_get_table (cpumask_any env clip_cpus) = some tbl)
    (hlen : (table_entries tbl).length < 2 ^ 32)
    (hml : get_property (some tbl) 0 GET_MAXL = Except.ok ml)
    (hlevels : ∀ L ∈ levels, L < 2 ^ 64) :
    (d.cpufreq_state = 0 ∧ d.cpufreq_val = 0) ∧
    (set_cur_state_calls env (registered_state d g_ipa_freq_limit) levels).dev.cpufreq_state
      ≤ ml ∧
    ((set_cur_state_calls env (registered_state d g_ipa_freq_limit) levels).dev.cpufreq_val
        = get_cpu_frequency (some tbl)
          (set_cur_state_calls env (registered_state d g_ipa_freq_limit)
            levels).dev.cpufreq_state ∨
      ((set_cur_state_calls env (registered_state d g_ipa_freq_limit)
          levels).dev.cpufreq_state = 0 ∧
        (set_cur_state_calls env (registered_state d g_ipa_freq_limit)
          levels).dev.cpufreq_val = 0)) := by
  have hf := registered_device_fields env lib renv clip_cpus capacitance plat_static_func d hreg
  refine ⟨⟨hf.1, hf.2.1⟩, ?_⟩
  exact set_cur_state_calls_keep env tbl ml clip_cpus htbl hlen hml levels hlevels
    (registered_state d g_ipa_freq_limit) hf.2.2.1
    (by show d.cpufreq_state ≤ ml; rw [hf.1]; exact Nat.zero_le _)
    (Or.inr ⟨hf.1, hf.2.1⟩)

/-- C30 on the device registered for the CPUs 0 to 3 over the table 1000, 1500, 2000 after
the calls for the levels 2, 5 and 1, of which 5 is refused: the state is 1 and the clip
frequency 1500. -/
theorem C30_state_invariant_witness :
    (set_cur_state_calls (example_env [1000, 1500, 2000])
        (registered_state ({ example_device [] 0 none with cpu_dev := none })
          (fun _ => 0)) [2, 5, 1]).dev.cpufreq_state = 1 ∧
    (set_cur_state_calls (example_env [1000, 1500, 2000])
        (registered_state ({ example_device [] 0 none with cpu_dev := none })
          (fun _ => 0)) [2, 5, 1]).dev.cpufreq_val = 1500 ∧
    ((({ example_device [] 0 none with cpu_dev := none } :
        cpufreq_cooling_device).cpufreq_state = 0 ∧
      ({ example_device [] 0 none with cpu_dev := none } :
        cpufreq_cooling_device).cpufreq_val = 0) ∧
    (set_cur_state_calls (example_env [1000, 1500, 2000])
        (registered_state ({ example_device [] 0 none with cpu_dev := none })
          (fun _ => 0)) [2, 5, 1]).dev.cpufreq_state ≤ 2 ∧
    ((set_cur_state_calls (example_env [1000, 1500, 2000])
        (registered_state ({ example_device [] 0 none with cpu_dev := none })
          (fun _ => 0)) [2, 5, 1]).dev.cpufreq_val
        = get_cpu_frequency (some [1000, 1500, 2000])
          (set_cur_state_calls (example_env [1000, 1500, 2000])
            (registered_state ({ example_device [] 0 none with cpu_dev := none })
              (fun _ => 0)) [2, 5, 1]).dev.cpufreq_state ∨
      ((set_cur_state_calls (example_env [1000, 1500, 2000])
          (registered_state ({ example_device [] 0 none with cpu_dev := none })
            (fun _ => 0)) [2, 5, 1]).dev.cpufreq_state = 0 ∧
        (set_cur_state_calls (example_env [1000, 1500, 2000])
          (registered_state ({ example_device [] 0 none with cpu_dev := none })
            (fun _ => 0)) [2, 5, 1]).dev.cpufreq_val = 0))) :=
  ⟨by decide, by decide,
    C30_state_invariant (example_env [1000, 1500, 2000]) (example_opp_library example_opps)
      example_register_env (fun c => decide (c < 4)) 0 none
      ({ example_device [] 0 none with cpu_dev := none }) (fun _ => 0) [1000, 1500, 2000] 2
      [2, 5, 1] rfl rfl (by decide) (by decide) (by decide)⟩

/-! ## Facts about a freshly registered device and the calls of the framework -/

/-- The device a successful registration leaves has sample arrays filled with zeros and,
if it has a static power callback, a cpu device. -/
theorem registered_device_built (env : kernel_env) (lib : opp_library) (renv : register_env)
    (clip_cpus : cpumask) (capacitance : Nat) (plat_static_func : Option get_static_t)
    (d : cpufreq_cooling_device)
    (h : __cpufreq_cooling_register env lib renv clip_cpus capacitance plat_static_func
      = some (Except.ok d)) :
    d.time_in_idle = List.replicate (cpumask_weight env clip_cpus) 0 ∧
    d.time_in_idle_timestamp = List.replicate (cpumask_weight env clip_cpus) 0 ∧
    (d.plat_get_static_power = none ∨ ∃ c, d.cpu_dev = some c) := by
  unfold __cpufreq_cooling_register at h
  simp only [] at h
  by_cases h1 : register_limits_ok env renv (for_each_cpu env clip_cpus) 0 0 = false
  · rw [if_pos h1] at h
    simp at h
  · rw [if_neg h1] at h
    generalize hb : (if capacitance ≠ 0 then
        build_dyn_power_table env lib
          { id := 0, cpufreq_state := 0, cpufreq_val := 0, allowed_cpus := clip_cpus,
            last_load := 0, time_in_idle := List.replicate (cpumask_weight env clip_cpus) 0,
            time_in_idle_timestamp := List.replicate (cpumask_weight env clip_cpus) 0,
            dyn_power_table := [], cpu_dev := none, plat_get_static_power := plat_static_func }
          capacitance
      else some (0,
          { id := 0, cpufreq_state := 0, cpufreq_val := 0, allowed_cpus := clip_cpus,
            last_load := 0, time_in_idle := List.replicate (cpumask_weight env clip_cpus) 0,
            time_in_idle_timestamp := List.replicate (cpumask_weight env clip_cpus) 0,
            dyn_power_table := [], cpu_dev := none, plat_get_static_power := none })) = built
      at h
    have hk : ∀ ret dev1, built = some (ret, dev1) → ret = 0 →
        dev1.time_in_idle = List.replicate (cpumask_weight env clip_cpus) 0 ∧
        dev1.time_in_idle_timestamp = List.replicate (cpumask_weight env clip_cpus) 0 ∧
        (dev1.plat_get_static_power = none ∨ ∃ c, dev1.cpu_dev = some c) := by
      intro ret dev1 hbuilt hret
      rw [← hb] at hbuilt
      split_ifs at hbuilt
      · have hkeep := build_dyn_power_table_keeps _ _ _ _ _ _ hbuilt
        obtain ⟨c, hc, -, -⟩ := build_dyn_power_table_ok _ _ _ _ _ _ hbuilt hret
        exact ⟨hkeep.2.2.2.1, hkeep.2.2.2.2, Or.inr ⟨c, hc⟩⟩
      · simp only [Option.some.injEq, Prod.mk.injEq] at hbuilt
        rw [← hbuilt.2]
        exact ⟨rfl, rfl, Or.inl rfl⟩
    cases built with
    | none => simp at h
    | some r =>
      obtain ⟨ret, dev1⟩ := r
      simp only [] at h
      split_ifs at h with h3
      · simp at h
      have hk1 := hk ret dev1 rfl (by simpa using h3)
      cases hi : renv.get_idr with
      | error e => rw [hi] at h; simp at h
      | ok id =>
        rw [hi] at h
        simp only [] at h
        cases ht : renv.thermal_register_error with
        | some err => rw [ht] at h; simp at h
        | none =>
          rw [ht] at h
          simp only [Option.some.injEq, Except.ok.injEq] at h
          rw [← h]
          exact hk1

/-- The load against samples that are both zero: 0 when the wall reading is not above the
idle reading, else the busy share of the wall reading. -/
theorem get_load_value_zero_samples (idle wall : Nat) (hi : idle < 2 ^ 64)
    (hw : wall < 2 ^ 64) :
    (wall ≤ idle → get_load_value idle wall 0 0 = 0) ∧
    (idle < wall → 100 * (wall - idle) < 2 ^ 64 →
      get_load_value idle wall 0 0 = 100 * (wall - idle) / wall) := by
  have h1 : sub_u64 idle 0 = idle := by
    have := sub_u64_of_le idle 0 (Nat.zero_le _) (by omega)
    simpa using this
  have h2 : sub_u64 wall 0 = wall := by
    have := sub_u64_of_le wall 0 (Nat.zero_le _) (by omega)
    simpa using this
  refine ⟨?_, ?_⟩
  · intro hle
    unfold get_load_value
    simp only []
    rw [h1, h2, if_pos hle]
  · intro hlt hov
    have := get_load_value_eq idle wall 0 0 (Nat.zero_le _) (Nat.zero_le _) hw
      (by simpa using hlt) (by simpa using hov)
    simpa using this

/-! ## Claims C31 to C33 -/

/-- C31, counterexample: on the device just registered for the CPUs 0 to 3, whose samples
are all zero, the first get_load call for CPU 0 at the readings wall 1000 and idle 400
returns 60, not 0, and stores the readings. -/
theorem C31_counterexample_first_call :
    ∃ d, cpufreq_power_cooling_register (example_env [1000, 1500, 2000])
        (example_opp_library example_opps) example_register_env (fun c => decide (c < 4)) 100
        (some (fun _ _ _ => (0, 30))) = some (Except.ok d) ∧
      d.time_in_idle = [0, 0, 0, 0] ∧ d.time_in_idle_timestamp = [0, 0, 0, 0] ∧
      (get_load (fun _ => (400, 1000)) d 0).map
        (fun r => (r.1, r.2.time_in_idle, r.2.time_in_idle_timestamp))
        = some (60, [400, 0, 0, 0], [1000, 0, 0, 0]) :=
  ⟨_, rfl, by decide, by decide, by decide⟩

/-- C31, amended: on a freshly registered device, for a CPU number below the length of the
sample arrays and u64 readings idle and wall, the first get_load call stores the readings
as the samples of the CPU and returns the load since the reading 0: 0 when wall is not
above idle, and floor(100 * (wall - idle) / wall) when it is and the product fits 64
bits. -/
theorem C31_first_get_load (env : kernel_env) (lib : opp_library) (renv : register_env)
    (clip_cpus : cpumask) (capacitance : Nat) (plat_static_func : Option get_static_t)
    (d : cpufreq_cooling_device) (src : Nat → Nat × Nat) (cpu idle wall : Nat)
    (hreg : __cpufreq_cooling_register env lib renv clip_cpus capacitance plat_static_func
      = some (Except.ok d))
    (hcpu : cpu < cpumask_weight env clip_cpus)
    (hsrc : src cpu = (idle, wall)) (hi : idle < 2 ^ 64) (hw : wall < 2 ^ 64) :
    ∃ load dev1, get_load src d cpu = some (load, dev1) ∧
      dev1.time_in_idle[cpu]? = some idle ∧
      dev1.time_in_idle_timestamp[cpu]? = some wall ∧
      (wall ≤ idle → load = 0) ∧
      (idle < wall → 100 * (wall - idle) < 2 ^ 64 → load = 100 * (wall - idle) / wall) := by
  obtain ⟨h1, h2, -⟩ := registered_device_built env lib renv clip_cpus capacitance
    plat_static_func d hreg
  have hg1 : d.time_in_idle[cpu]? = some 0 := by
    rw [h1, List.getElem?_replicate]
    simp [hcpu]
  have hg2 : d.time_in_idle_timestamp[cpu]? = some 0 := by
    rw [h2, List.getElem?_replicate]
    simp [hcpu]
  have hb1 : cpu < d.time_in_idle.length := by rw [h1, List.length_replicate]; exact hcpu
  have hb2 : cpu < d.time_in_idle_timestamp.length := by
    rw [h2, List.length_replicate]; exact hcpu
  have hl := get_load_in_bounds src d cpu 0 0 hg1 hg2
  rw [hsrc] at hl
  simp only [] at hl
  have hv := get_load_value_zero_samples idle wall hi hw
  exact ⟨_, _, hl, List.getElem?_set_self hb1, List.getElem?_set_self hb2, hv.1, hv.2⟩

/-- C31 on the device registered for the CPUs 0 to 3 at the readings wall 1000 and idle 400
of CPU 0: the first call returns 100 * 600 / 1000 = 60. -/
theorem C31_first_get_load_witness :
    ∃ load dev1, get_load (fun _ => (400, 1000))
        ({ example_device [] 0 none with cpu_dev := none }) 0 = some (load, dev1) ∧
      dev1.time_in_idle[0]? = some 400 ∧
      dev1.time_in_idle_timestamp[0]? = some 1000 ∧
      (1000 ≤ 400 → load = 0) ∧
      (400 < 1000 → 100 * (1000 - 400) < 2 ^ 64 → load = 100 * (1000 - 400) / 1000) :=
  C31_first_get_load (example_env [1000, 1500, 2000]) (example_opp_library example_opps)
    example_register_env (fun c => decide (c < 4)) 0 none
    ({ example_device [] 0 none with cpu_dev := none }) (fun _ => (400, 1000)) 0 400 1000
    rfl (by decide) rfl (by norm_num) (by norm_num)

/-- C32: on a device with a static power callback and a cpu device, when the exact operating
point lookup for a frequency resolves the voltage 0, get_static_power fails with -EINVAL
whatever the callback is; then cpufreq_power2state with a CPU of the mask online,
cpufreq_state2power for a level that resolves with a CPU of the mask online, and
cpufreq_get_requested_power with a CPU of the mask online and the CPUs indexing inside the
sample arrays, each return -EINVAL and store no state or power. -/
theorem C32_static_power_lookup_failure (env : kernel_env)
    (cpufreq_device : cpufreq_cooling_device) (tz : thermal_zone_device)
    (plat : get_static_t) (cpu_dev : Nat)
    (hplat : cpufreq_device.plat_get_static_power = some plat)
    (hdev : cpufreq_device.cpu_dev = some cpu_dev) :
    (∀ freq, opp_get_voltage (env.opp_find_freq_exact cpu_dev ((freq * 1000) % 2 ^ 64)) = 0 →
      get_static_power env cpufreq_device tz freq = Except.error (-EINVAL)) ∧
    (∀ power,
      cpumask_any_and env cpufreq_device.allowed_cpus env.cpu_online_mask < env.nr_cpu_ids →
      opp_get_voltage (env.opp_find_freq_exact cpu_dev
        ((env.cpufreq_quick_get
          (cpumask_any_and env cpufreq_device.allowed_cpus env.cpu_online_mask) * 1000)
          % 2 ^ 64)) = 0 →
      cpufreq_power2state env cpufreq_device tz power = (-EINVAL, none)) ∧
    (∀ state,
      cpumask_weight env (fun c => cpufreq_device.allowed_cpus c && env.cpu_online_mask c)
        ≠ 0 →
      get_cpu_frequency
        (env.cpufreq_frequency_get_table
          (cpumask_any env (fun c => cpufreq_device.allowed_cpus c && env.cpu_online_mask c)))
        state ≠ 0 →
      opp_get_voltage (env.opp_find_freq_exact cpu_dev
        ((get_cpu_frequency
          (env.cpufreq_frequency_get_table
            (cpumask_any env
              (fun c => cpufreq_device.allowed_cpus c && env.cpu_online_mask c)))
          state * 1000) % 2 ^ 64)) = 0 →
      cpufreq_state2power env cpufreq_device tz state = (-EINVAL, none)) ∧
    (∀ src : Nat → Nat × Nat,
      cpumask_any_and env cpufreq_device.allowed_cpus env.cpu_online_mask < env.nr_cpu_ids →
      (∀ c, c < env.nr_cpu_ids → cpufreq_device.allowed_cpus c = true →
        env.cpu_online_mask c = true →
        c < cpufreq_device.time_in_idle.length ∧
        c < cpufreq_device.time_in_idle_timestamp.length) →
      opp_get_voltage (env.opp_find_freq_exact cpu_dev
        ((env.cpufreq_quick_get
          (cpumask_any_and env cpufreq_device.allowed_cpus env.cpu_online_mask) * 1000)
          % 2 ^ 64)) = 0 →
      ∃ dev2, cpufreq_get_requested_power env src cpufreq_device tz
        = some (-EINVAL, none, dev2)) := by
  have h1 : ∀ freq,
      opp_get_voltage (env.opp_find_freq_exact cpu_dev ((freq * 1000) % 2 ^ 64)) = 0 →
      get_static_power env cpufreq_device tz freq = Except.error (-EINVAL) := by
    intro freq hv
    unfold get_static_power
    simp only []
    rw [hplat, hdev]
    simp only []
    rw [if_pos hv]
  refine ⟨h1, ?_, ?_, ?_⟩
  · intro power honline hv
    unfold cpufreq_power2state
    simp only []
    rw [if_neg (by omega), h1 _ hv]
  · intro state hn hf hv
    unfold cpufreq_state2power
    simp only []
    rw [if_neg hn, if_neg hf, h1 _ hv]
  · intro src honline hin hv
    obtain ⟨ti, ts, hr⟩ := cpufreq_get_requested_power_eq env src cpufreq_device tz honline hin
    rw [h1 _ hv] at hr
    exact ⟨_, hr⟩

/-- C32 on the device over the online CPUs 0 to 3 with a callback, in a kernel whose exact
operating point lookup finds nothing: the static power at 1500 kHz and the conversion of
the budget 200 both fail with -EINVAL. -/
theorem C32_static_power_lookup_failure_witness :
    get_static_power
        { example_env [1000, 1500, 2000] with opp_find_freq_exact := fun _ _ => none }
        (example_device example_power_table 50 (some (fun _ _ _ => (0, 30)))) ⟨100⟩ 1500
      = Except.error (-EINVAL) ∧
    cpufreq_power2state
        { example_env [1000, 1500, 2000] with opp_find_freq_exact := fun _ _ => none }
        (example_device example_power_table 50 (some (fun _ _ _ => (0, 30)))) ⟨100⟩ 200
      = (-EINVAL, none) :=
  ⟨(C32_static_power_lookup_failure
      { example_env [1000, 1500, 2000] with opp_find_freq_exact := fun _ _ => none }
      (example_device example_power_table 50 (some (fun _ _ _ => (0, 30)))) ⟨100⟩
      (fun _ _ _ => (0, 30)) 0 rfl rfl).1 1500 rfl,
    (C32_static_power_lookup_failure
      { example_env [1000, 1500, 2000] with opp_find_freq_exact := fun _ _ => none }
      (example_device example_power_table 50 (some (fun _ _ _ => (0, 30)))) ⟨100⟩
      (fun _ _ _ => (0, 30)) 0 rfl rfl).2.1 200 (by decide) rfl⟩

/-- C33: as transformers of the driver state (the device with cpufreq_state, cpufreq_val,
last_load and the idle samples, the notify target, the frequency limits and the requested
policy updates), cpufreq_power2state, cpufreq_state2power, cpufreq_get_cur_state and
cpufreq_get_max_state leave the state they were called in, for every input and whatever
status they return; on a device with a dynamic power table the two power queries return for
every input; cpufreq_get_cur_state returns 0 and stores cpufreq_state, which is 0 on the
device a successful registration returns. -/
theorem C33_queries_leave_state (env : kernel_env) (tz : thermal_zone_device)
    (st : driver_state) :
    (∀ power r, stateful.cpufreq_power2state env tz st power = some r → r.2 = st) ∧
    (∀ state r, stateful.cpufreq_state2power env tz st state = some r → r.2 = st) ∧
    (stateful.cpufreq_get_cur_state st).2 = st ∧
    (stateful.cpufreq_get_max_state env st).2 = st ∧
    (st.dev.dyn_power_table ≠ [] →
      (∀ power, ∃ res, stateful.cpufreq_power2state env tz st power = some (res, st)) ∧
      (∀ state, ∃ res, stateful.cpufreq_state2power env tz st state = some (res, st))) ∧
    (stateful.cpufreq_get_cur_state st).1 = (0, some st.dev.cpufreq_state) ∧
    (∀ (lib : opp_library) (renv : register_env) (clip_cpus : cpumask) (capacitance : Nat)
        (plat_static_func : Option get_static_t),
      __cpufreq_cooling_register env lib renv clip_cpus capacitance plat_static_func
        = some (Except.ok st.dev) →
      (stateful.cpufreq_get_cur_state st).1 = (0, some 0)) := by
  refine ⟨?_, ?_, rfl, ?_, ?_, rfl, ?_⟩
  · intro power r h
    exact (stateful_power2state_frame env tz st power r h).1
  · intro state r h
    exact (stateful_state2power_frame env tz st state r h).1
  · rw [stateful_get_max_state_eq]
  · intro hne
    exact ⟨fun power => ⟨_, stateful_power2state_some env tz st power hne⟩,
      fun state => ⟨_, stateful_state2power_some env tz st state hne⟩⟩
  · intro lib renv clip_cpus capacitance plat_static_func hreg
    have h0 := (registered_device_fields env lib renv clip_cpus capacitance plat_static_func
      st.dev hreg).1
    unfold stateful.cpufreq_get_cur_state
    simp only []
    rw [h0]

/-- C33 on the state right after registering the CPUs 0 to 3 with the capacitance 100 and a
callback reporting 30 mW, which leaves the table 81, 150 and 242 mW: cpufreq_power2state for
the budget 32 returns the level 1, cpufreq_state2power for the level 1 returns 630 mW,
cpufreq_get_max_state returns 2 and cpufreq_get_cur_state returns 0, each with the state
unchanged. -/
theorem C33_queries_leave_state_witness :
    (registered_state (example_device [⟨1000000, 81⟩, ⟨1500000, 150⟩, ⟨2000000, 242⟩] 0
      (some (fun _ _ _ => (0, 30)))) (fun _ => 0)).dev.dyn_power_table ≠ [] ∧
    __cpufreq_cooling_register (example_env [1000000, 1500000, 2000000])
        (example_opp_library example_opps) example_register_env (fun c => decide (c < 4)) 100
        (some (fun _ _ _ => (0, 30)))
      = some (Except.ok (registered_state
        (example_device [⟨1000000, 81⟩, ⟨1500000, 150⟩, ⟨2000000, 242⟩] 0
          (some (fun _ _ _ => (0, 30)))) (fun _ => 0)).dev) ∧
    (∃ res, stateful.cpufreq_power2state (example_env [1000000, 1500000, 2000000]) ⟨100⟩
        (registered_state (example_device [⟨1000000, 81⟩, ⟨1500000, 150⟩, ⟨2000000, 242⟩] 0
          (some (fun _ _ _ => (0, 30)))) (fun _ => 0)) 32
      = some (res, registered_state
        (example_device [⟨1000000, 81⟩, ⟨1500000, 150⟩, ⟨2000000, 242⟩] 0
          (some (fun _ _ _ => (0, 30)))) (fun _ => 0))) ∧
    (∃ res, stateful.cpufreq_state2power (example_env [1000000, 1500000, 2000000]) ⟨100⟩
        (registered_state (example_device [⟨1000000, 81⟩, ⟨1500000, 150⟩, ⟨2000000, 242⟩] 0
          (some (fun _ _ _ => (0, 30)))) (fun _ => 0)) 1
      = some (res, registered_state
        (example_device [⟨1000000, 81⟩, ⟨1500000, 150⟩, ⟨2000000, 242⟩] 0
          (some (fun _ _ _ => (0, 30)))) (fun _ => 0))) ∧
    (stateful.cpufreq_get_cur_state
      (registered_state (example_device [⟨1000000, 81⟩, ⟨1500000, 150⟩, ⟨2000000, 242⟩] 0
        (some (fun _ _ _ => (0, 30)))) (fun _ => 0))).1 = (0, some 0) ∧
    (stateful.cpufreq_power2state (example_env [1000000, 1500000, 2000000]) ⟨100⟩
        (registered_state (example_device [⟨1000000, 81⟩, ⟨1500000, 150⟩, ⟨2000000, 242⟩] 0
          (some (fun _ _ _ => (0, 30)))) (fun _ => 0)) 32).map (fun r => r.1)
      = some (0, some 1) ∧
    (stateful.cpufreq_state2power (example_env [1000000, 1500000, 2000000]) ⟨100⟩
        (registered_state (example_device [⟨1000000, 81⟩, ⟨1500000, 150⟩, ⟨2000000, 242⟩] 0
          (some (fun _ _ _ => (0, 30)))) (fun _ => 0)) 1).map (fun r => r.1)
      = some (0, some 630) ∧
    (stateful.cpufreq_get_max_state (example_env [1000000, 1500000, 2000000])
        (registered_state (example_device [⟨1000000, 81⟩, ⟨1500000, 150⟩, ⟨2000000, 242⟩] 0
          (some (fun _ _ _ => (0, 30)))) (fun _ => 0))).1 = (0, some 2) :=
  ⟨by simp [registered_state, example_device], rfl,
    ((C33_queries_leave_state (example_env [1000000, 1500000, 2000000]) ⟨100⟩
      (registered_state (example_device [⟨1000000, 81⟩, ⟨1500000, 150⟩, ⟨2000000, 242⟩] 0
        (some (fun _ _ _ => (0, 30)))) (fun _ => 0))).2.2.2.2.1
      (by simp [registered_state, example_device])).1 32,
    ((C33_queries_leave_state (example_env [1000000, 1500000, 2000000]) ⟨100⟩
      (registered_state (example_device [⟨1000000, 81⟩, ⟨1500000, 150⟩, ⟨2000000, 242⟩] 0
        (some (fun _ _ _ => (0, 30)))) (fun _ => 0))).2.2.2.2.1
      (by simp [registered_state, example_device])).2 1,
    (C33_queries_leave_state (example_env [1000000, 1500000, 2000000]) ⟨100⟩
      (registered_state (example_device [⟨1000000, 81⟩, ⟨1500000, 150⟩, ⟨2000000, 242⟩] 0
        (some (fun _ _ _ => (0, 30)))) (fun _ => 0))).2.2.2.2.2.2
      (example_opp_library example_opps) example_register_env (fun c => decide (c < 4)) 100
      (some (fun _ _ _ => (0, 30))) rfl,
    by decide, by decide, by decide⟩

end CpuCooling

namespace CnasHsm

/-! ## Facts about the cache queue -/

/-- The loop of CNAS_HSM_GetHighestPriCachedMsg keeps ucIndex when no element still to
visit has a priority value below enMsgPri. -/
theorem highest_pri_loop_none (l : List CNAS_HSM_CACHE_MSG_INFO_STRU) (ucLoop pri idx : Nat)
    (h : ∀ x ∈ l, pri ≤ x.enMsgPri) : highest_pri_loop l ucLoop pri idx = idx := by
  induction l generalizing ucLoop with
  | nil => rfl
  | cons e rest ih =>
    have he := h e (List.mem_cons_self _ _)
    simp only [highest_pri_loop]
    rw [if_neg (by omega)]
    exact ih (ucLoop + 1) (fun x hx => h x (List.mem_cons_of_mem _ hx))

/-- When an element still to visit has a priority value below enMsgPri, the loop ends on
the first of the elements with the smallest priority value. -/
theorem highest_pri_loop_some (l : List CNAS_HSM_CACHE_MSG_INFO_STRU) (ucLoop pri idx : Nat)
    (h : ∃ x ∈ l, x.enMsgPri < pri) :
    ∃ pre e post, l = pre ++ e :: post ∧
      highest_pri_loop l ucLoop pri idx = ucLoop + pre.length ∧ e.enMsgPri < pri ∧
      (∀ x ∈ pre, e.enMsgPri < x.enMsgPri) ∧ (∀ x ∈ post, e.enMsgPri ≤ x.enMsgPri) := by
  induction l generalizing ucLoop pri idx with
  | nil =>
    obtain ⟨x, hx, -⟩ := h
    exact absurd hx (List.not_mem_nil _)
  | cons e0 rest ih =>
    simp only [highest_pri_loop]
    by_cases h0 : e0.enMsgPri < pri
    · rw [if_pos h0]
      by_cases h1 : ∃ x ∈ rest, x.enMsgPri < e0.enMsgPri
      · obtain ⟨pre, e, post, hl, hr, he, hpre, hpost⟩ := ih (ucLoop + 1) e0.enMsgPri ucLoop h1
        refine ⟨e0 :: pre, e, post, by rw [hl]; rfl, ?_, by omega, ?_, hpost⟩
        · rw [hr, List.length_cons]; omega
        · intro x hx
          rcases List.mem_cons.mp hx with hx | hx
          · rw [hx]; exact he
          · exact hpre x hx
      · have h2 : ∀ x ∈ rest, e0.enMsgPri ≤ x.enMsgPri := by
          intro x hx
          by_contra hc
          exact h1 ⟨x, hx, by omega⟩
        refine ⟨[], e0, rest, rfl, ?_, h0, ?_, h2⟩
        · rw [highest_pri_loop_none rest _ _ _ h2]; rfl
        · intro x hx
          exact absurd hx (List.not_mem_nil _)
    · rw [if_neg h0]
      have h1 : ∃ x ∈ rest, x.enMsgPri < pri := by
        obtain ⟨x, hx, hlt⟩ := h
        rcases List.mem_cons.mp hx with hx | hx
        · rw [hx] at hlt; exact absurd hlt h0
        · exact ⟨x, hx, hlt⟩
      obtain ⟨pre, e, post, hl, hr, he, hpre, hpost⟩ := ih (ucLoop + 1) pri idx h1
      refine ⟨e0 :: pre, e, post, by rw [hl]; rfl, ?_, he, ?_, hpost⟩
      · rw [hr, List.length_cons]; omega
      · intro x hx
        rcases List.mem_cons.mp hx with hx | hx
        · rw [hx]; omega
        · exact hpre x hx

/-- A move of the elements after an index onto it, within the destination size. -/
theorem NAS_MEM_MOVE_S_shift {α : Type} (A B C : List α) (x : α) (destMax : Nat)
    (h : B.length ≤ destMax) :
    NAS_MEM_MOVE_S (A ++ x :: (B ++ C)) A.length destMax (A.length + 1) (B.length : Int)
      = A ++ (B ++ (x :: (B ++ C)).drop B.length) := by
  unfold NAS_MEM_MOVE_S
  rw [if_pos ⟨by omega, by omega⟩]
  simp only [Int.toNat_ofNat]
  rw [List.take_left, List.drop_append, List.drop_append]
  simp

/-- A request to move a negative count of elements is refused. -/
theorem NAS_MEM_MOVE_S_refused {α : Type} (mem : List α) (dest destMax src : Nat)
    (count : Int) (h : count < 0) : NAS_MEM_MOVE_S mem dest destMax src count = mem := by
  unfold NAS_MEM_MOVE_S
  rw [if_neg (by omega)]

theorem NAS_MEM_MOVE_S_length_refused {α : Type} (mem : List α) (dest destMax src : Nat)
    (count : Int) (h : count < 0) :
    (NAS_MEM_MOVE_S mem dest destMax src count).length = mem.length := by
  rw [NAS_MEM_MOVE_S_refused mem dest destMax src count h]

/-- The elements from the last moved one on, with the first of them zeroed. -/
theorem shifted_tail_zeroed {α : Type} (B C : List α) (x z : α) :
    (B ++ (x :: (B ++ C)).drop B.length).set B.length z = B ++ z :: C := by
  rw [List.set_append_right _ _ (le_refl _), Nat.sub_self]
  have hlt : B.length < (x :: (B ++ C)).length := by simp; omega
  rw [List.drop_eq_getElem_cons hlt]
  simp

/-- The function CNAS_HSM_ClearCacheMsgByIndex on a queue whose array is split around the
cleared element x: A before it, B the cached messages after it, C the unused elements. -/
theorem clear_cache_msg_split (A B C : List CNAS_HSM_CACHE_MSG_INFO_STRU)
    (x : CNAS_HSM_CACHE_MSG_INFO_STRU) :
    CNAS_HSM_ClearCacheMsgByIndex (A.length + 1 + B.length + C.length)
        { ucCacheMsgNum := A.length + 1 + B.length, astCacheMsg := A ++ x :: (B ++ C) }
        A.length
      = { ucCacheMsgNum := A.length + B.length
          astCacheMsg := A ++ (B ++ zeroed_cache_msg :: C) } := by
  unfold CNAS_HSM_ClearCacheMsgByIndex
  simp only []
  rw [if_neg (by omega), if_pos (by omega)]
  have hnum : A.length + 1 + B.length - 1 = A.length + B.length := by omega
  rw [hnum]
  have hcount : ((A.length + B.length : Nat) : Int) - (A.length : Int) = (B.length : Int) := by
    omega
  rw [hcount]
  -- the array after the buffer pointer of the element is cleared
  obtain ⟨x1, harr1⟩ : ∃ x1, (if ((A ++ x :: (B ++ C)).getD A.length default).pucMsgBuffer
        ≠ none then
        (A ++ x :: (B ++ C)).set A.length
          { (A ++ x :: (B ++ C)).getD A.length default with pucMsgBuffer := none }
      else A ++ x :: (B ++ C)) = A ++ x1 :: (B ++ C) := by
    split_ifs
    · exact ⟨_, by rw [List.set_append_right _ _ (le_refl _), Nat.sub_self]; rfl⟩
    · exact ⟨x, rfl⟩
  rw [harr1]
  congr 1
  by_cases hlast : A.length < A.length + 1 + B.length + C.length - 1
  · rw [if_pos hlast, NAS_MEM_MOVE_S_shift A B C x1 _ (by omega),
      List.set_append_right _ _ (by omega)]
    rw [show A.length + B.length - A.length = B.length by omega, shifted_tail_zeroed]
  · rw [if_neg hlast]
    have hB : B = [] := List.length_eq_zero.mp (by omega)
    have hC : C = [] := List.length_eq_zero.mp (by omega)
    subst hB hC
    simp

/-- An array splits around an index below the message count. -/
theorem cache_array_split (arr : List CNAS_HSM_CACHE_MSG_INFO_STRU) (i n : Nat) (hi : i < n)
    (hn : n ≤ arr.length) :
    ∃ A x B C, arr = A ++ x :: (B ++ C) ∧ A.length = i ∧ A.length + 1 + B.length = n ∧
      C = arr.drop n ∧ arr.take n = A ++ x :: B := by
  have hil : i < arr.length := by omega
  refine ⟨arr.take i, arr[i], (arr.drop (i + 1)).take (n - 1 - i), arr.drop n, ?_, ?_, ?_, rfl,
    ?_⟩
  · have h1 : (arr.drop (i + 1)).take (n - 1 - i) ++ arr.drop n = arr.drop (i + 1) := by
      have := List.take_append_drop (n - 1 - i) (arr.drop (i + 1))
      rw [List.drop_drop] at this
      rw [show i + 1 + (n - 1 - i) = n by omega] at this
      exact this
    rw [h1, List.getElem_cons_drop, List.take_append_drop]
  · simp; omega
  · simp; omega
  · have h2 : arr.take n = arr.take i ++ (arr.drop i).take (n - i) := by
      have := List.take_append_drop i (arr.take n)
      rw [List.take_take, List.drop_take, Nat.min_eq_left (by omega)] at this
      exact this.symm
    rw [h2, List.drop_eq_getElem_cons hil, show n - i = (n - 1 - i) + 1 by omega,
      List.take_succ_cons]

/-- The function CNAS_HSM_ClearCacheMsgByIndex called for an index that is inside the array
but not below the count of a non-empty queue: the count is decremented and the element of
the last cached message is zeroed. -/
theorem clear_cache_msg_not_cached (MAX : Nat) (q : CNAS_HSM_CACHE_MSG_QUEUE_STRU) (i : Nat)
    (hlen : q.astCacheMsg.length = MAX) (hn : 0 < q.ucCacheMsgNum)
    (hi : q.ucCacheMsgNum ≤ i) (hmax : i < MAX) :
    (CNAS_HSM_ClearCacheMsgByIndex MAX q i).ucCacheMsgNum = q.ucCacheMsgNum - 1 ∧
    (CNAS_HSM_ClearCacheMsgByIndex MAX q i).astCacheMsg[q.ucCacheMsgNum - 1]?
      = some zeroed_cache_msg := by
  unfold CNAS_HSM_ClearCacheMsgByIndex
  simp only []
  rw [if_neg (by omega), if_pos hn]
  refine ⟨rfl, ?_⟩
  simp only []
  apply List.getElem?_set_self
  have hcount : ((q.ucCacheMsgNum - 1 : Nat) : Int) - (i : Int) < 0 := by omega
  split_ifs
  all_goals
    try simp only [NAS_MEM_MOVE_S_length_refused _ _ _ _ _ hcount, List.length_set]
    omega

/-! ## Facts about the internal message queue -/

/-- Writing an element leaves the elements before it. -/
theorem take_set_self {α : Type} (l : List α) (n : Nat) (a : α) :
    (l.set n a).take n = l.take n := by
  induction l generalizing n with
  | nil => simp
  | cons x t ih =>
    cases n with
    | zero => simp
    | succ k => simp [ih]

/-- The loop of CNAS_HSM_InitIntMsgQueue over the first k pointers. -/
theorem init_loop_eq (past : List (Option Nat)) (k : Nat) (hk : k ≤ past.length) :
    (List.range k).foldl (fun p i => p.set i none) past
      = List.replicate k none ++ past.drop k := by
  induction k with
  | zero => simp
  | succ k ih =>
    rw [List.range_succ, List.foldl_append, ih (by omega)]
    simp only [List.foldl_cons, List.foldl_nil]
    rw [List.set_append_right _ _ (by simp), List.length_replicate, Nat.sub_self,
      List.drop_eq_getElem_cons (by omega : k < past.length)]
    simp only [List.set_cons_zero]
    rw [List.replicate_succ', List.append_assoc]
    rfl

/-- The queue CNAS_HSM_InitIntMsgQueue leaves: no message, every pointer null. -/
theorem init_int_msg_queue_eq (MAX : Nat) (q : CNAS_HSM_INT_MSG_QUEUE_STRU)
    (hlen : q.pastIntMsg.length = MAX) :
    CNAS_HSM_InitIntMsgQueue MAX q = { ucIntMsgNum := 0, pastIntMsg := List.replicate MAX none }
    := by
  unfold CNAS_HSM_InitIntMsgQueue
  rw [init_loop_eq q.pastIntMsg MAX (by omega)]
  rw [List.drop_of_length_le (by omega)]
  simp

/-- A put on a queue with room appends to the queued messages, and a put on a full queue
leaves them. -/
theorem put_int_msg_step (MAX : Nat) (q : CNAS_HSM_INT_MSG_QUEUE_STRU) (m : Option Nat)
    (hmax : MAX < 256) (hlen : q.pastIntMsg.length = MAX) (hn : q.ucIntMsgNum ≤ MAX) :
    (CNAS_HSM_PutMsgInIntMsgQueue MAX q m).pastIntMsg.length = MAX ∧
    (CNAS_HSM_PutMsgInIntMsgQueue MAX q m).ucIntMsgNum ≤ MAX ∧
    int_msgs (CNAS_HSM_PutMsgInIntMsgQueue MAX q m) = fifo_put MAX (int_msgs q) m := by
  have hl : (int_msgs q).length = q.ucIntMsgNum := by
    unfold int_msgs
    rw [List.length_take]
    omega
  unfold CNAS_HSM_PutMsgInIntMsgQueue fifo_put CNAS_HSM_GetIntMsgNum
  rw [hl]
  by_cases hfull : MAX ≤ q.ucIntMsgNum
  · rw [if_pos hfull, if_pos hfull]
    exact ⟨hlen, hn, rfl⟩
  · rw [if_neg hfull, if_neg hfull]
    simp only []
    have hmod : (q.ucIntMsgNum + 1) % 256 = q.ucIntMsgNum + 1 := Nat.mod_eq_of_lt (by omega)
    rw [hmod]
    refine ⟨by rw [List.length_set]; exact hlen, by omega, ?_⟩
    unfold int_msgs
    simp only []
    rw [List.take_succ, List.getElem?_set_self (by omega), take_set_self]
    rfl

/-- A get returns the oldest queued message and removes it; on an empty queue it returns the
null pointer. -/
theorem get_next_int_msg_step (MAX : Nat) (q : CNAS_HSM_INT_MSG_QUEUE_STRU)
    (hlen : q.pastIntMsg.length = MAX) (hn : q.ucIntMsgNum ≤ MAX) :
    (CNAS_HSM_GetNextIntMsg q).2.pastIntMsg.length = MAX ∧
    (CNAS_HSM_GetNextIntMsg q).2.ucIntMsgNum ≤ MAX ∧
    (CNAS_HSM_GetNextIntMsg q).1 = (fifo_get (int_msgs q)).1 ∧
    int_msgs (CNAS_HSM_GetNextIntMsg q).2 = (fifo_get (int_msgs q)).2 := by
  obtain ⟨n, past⟩ := q
  simp only [] at hlen hn
  unfold CNAS_HSM_GetNextIntMsg int_msgs
  simp only []
  cases n with
  | zero =>
    rw [if_neg (by omega)]
    exact ⟨hlen, hn, rfl, rfl⟩
  | succ k =>
    rw [if_pos (by omega)]
    cases past with
    | nil => simp at hlen; omega
    | cons x rest =>
      have hrest : rest.length + 1 = MAX := by simpa using hlen
      simp only [Nat.add_sub_cancel, List.take_succ_cons, fifo_get, List.getD_cons_zero]
      by_cases hk : k = 0
      · subst hk
        simp
        omega
      · rw [if_pos hk]
        have hmove : NAS_MEM_MOVE_S (x :: rest) 0 (x :: rest).length 1 (k : Int)
            = rest.take k ++ (x :: rest).drop k := by
          unfold NAS_MEM_MOVE_S
          rw [if_pos ⟨by omega, by simp; omega⟩]
          simp
        rw [hmove]
        have hlk : (rest.take k).length = k := by rw [List.length_take]; omega
        refine ⟨?_, by omega, trivial, ?_⟩
        · rw [List.length_set, List.length_append, hlk, List.length_drop]
          simp
          omega
        · rw [take_set_self]
          exact List.take_left' hlk

/-- A sequence of puts and gets on the internal queue returns what the bounded first-in
first-out queue returns and leaves its messages. -/
theorem int_queue_run_fifo (MAX : Nat) (hmax : MAX < 256) (ops : List int_msg_op)
    (q : CNAS_HSM_INT_MSG_QUEUE_STRU) (hlen : q.pastIntMsg.length = MAX)
    (hn : q.ucIntMsgNum ≤ MAX) :
    (int_queue_run MAX ops q).1 = (fifo_run MAX ops (int_msgs q)).1 ∧
    int_msgs (int_queue_run MAX ops q).2 = (fifo_run MAX ops (int_msgs q)).2 ∧
    (int_queue_run MAX ops q).2.ucIntMsgNum ≤ MAX ∧
    (int_queue_run MAX ops q).2.pastIntMsg.length = MAX := by
  induction ops generalizing q with
  | nil => exact ⟨rfl, rfl, hn, hlen⟩
  | cons op rest ih =>
    cases op with
    | put m =>
      obtain ⟨h1, h2, h3⟩ := put_int_msg_step MAX q m hmax hlen hn
      have := ih (CNAS_HSM_PutMsgInIntMsgQueue MAX q m) h1 h2
      rw [h3] at this
      exact this
    | get =>
      obtain ⟨h1, h2, h3, h4⟩ := get_next_int_msg_step MAX q hlen hn
      have := ih (CNAS_HSM_GetNextIntMsg q).2 h1 h2
      rw [h4] at this
      simp only [int_queue_run, fifo_run]
      rw [h3, this.1]
      exact ⟨rfl, this.2.1, this.2.2.1, this.2.2.2⟩

/-! ## Claims C34 to C36 -/

/-- C34: CNAS_HSM_GetHighestPriCachedMsg returns 0 on an empty queue and when no cached
message has a priority value below CNAS_HSM_MSG_PRI_LVL_BUTT; when some cached message has
one, it returns the index of a cached message whose priority value is below
CNAS_HSM_MSG_PRI_LVL_BUTT, strictly smaller than that of every cached message before it and
at most that of every cached message after it: the lowest index among the messages of the
smallest priority value.  CNAS_HSM_GetNextCachedMsg on a queue that is not empty hands out
the message at that index, when its buffer is not null, with its priority and clears that
index. -/
theorem C34_highest_pri_cached_msg (CNAS_HSM_MSG_PRI_LVL_BUTT : Nat)
    (q : CNAS_HSM_CACHE_MSG_QUEUE_STRU) :
    (q.ucCacheMsgNum = 0 → CNAS_HSM_GetHighestPriCachedMsg CNAS_HSM_MSG_PRI_LVL_BUTT q = 0) ∧
    ((∀ x ∈ cached_msgs q, CNAS_HSM_MSG_PRI_LVL_BUTT ≤ x.enMsgPri) →
      CNAS_HSM_GetHighestPriCachedMsg CNAS_HSM_MSG_PRI_LVL_BUTT q = 0) ∧
    ((∃ x ∈ cached_msgs q, x.enMsgPri < CNAS_HSM_MSG_PRI_LVL_BUTT) →
      ∃ pre e post, cached_msgs q = pre ++ e :: post ∧
        CNAS_HSM_GetHighestPriCachedMsg CNAS_HSM_MSG_PRI_LVL_BUTT q = pre.length ∧
        pre.length < q.ucCacheMsgNum ∧
        q.astCacheMsg[pre.length]? = some e ∧
        e.enMsgPri < CNAS_HSM_MSG_PRI_LVL_BUTT ∧
        (∀ x ∈ pre, e.enMsgPri < x.enMsgPri) ∧ (∀ x ∈ post, e.enMsgPri ≤ x.enMsgPri)) ∧
    (∀ (MAX VOS_PID_TIMER : Nat) (CNAS_BuildEventType : Nat → Nat → Nat)
      (m : MSG_HEADER_STRU), q.ucCacheMsgNum ≠ 0 →
      (q.astCacheMsg.getD (CNAS_HSM_GetHighestPriCachedMsg CNAS_HSM_MSG_PRI_LVL_BUTT q)
        default).pucMsgBuffer = some m →
      CNAS_HSM_GetNextCachedMsg MAX CNAS_HSM_MSG_PRI_LVL_BUTT VOS_PID_TIMER
          CNAS_BuildEventType q
        = (VOS_TRUE,
          some { ulEventType :=
                   if m.ulSenderPid = VOS_PID_TIMER then
                     CNAS_BuildEventType m.ulSenderPid m.ulName
                   else CNAS_BuildEventType m.ulSenderPid m.ulMsgName
                 aucMsgBuffer := m
                 enMsgPri := (q.astCacheMsg.getD
                   (CNAS_HSM_GetHighestPriCachedMsg CNAS_HSM_MSG_PRI_LVL_BUTT q)
                   default).enMsgPri },
          CNAS_HSM_ClearCacheMsgByIndex MAX q
            (CNAS_HSM_GetHighestPriCachedMsg CNAS_HSM_MSG_PRI_LVL_BUTT q))) := by
  refine ⟨?_, ?_, ?_, ?_⟩
  · intro h0
    unfold CNAS_HSM_GetHighestPriCachedMsg
    rw [h0]
    rfl
  · intro hall
    exact highest_pri_loop_none _ _ _ _ hall
  · intro hex
    obtain ⟨pre, e, post, hl, hr, he, hpre, hpost⟩ :=
      highest_pri_loop_some (cached_msgs q) 0 CNAS_HSM_MSG_PRI_LVL_BUTT 0 hex
    have hget : (cached_msgs q)[pre.length]? = some e := by
      rw [hl, List.getElem?_append_right (le_refl _), Nat.sub_self]
      simp
    unfold cached_msgs at hget
    rw [List.getElem?_take] at hget
    split_ifs at hget with hlt
    refine ⟨pre, e, post, hl, ?_, hlt, hget, he, hpre, hpost⟩
    unfold CNAS_HSM_GetHighestPriCachedMsg
    unfold cached_msgs at hr
    rw [hr]
    omega
  · intro MAX VOS_PID_TIMER CNAS_BuildEventType m hn hm
    unfold CNAS_HSM_GetNextCachedMsg
    simp only []
    rw [if_neg hn, hm]

/-- C34 on the queue of the examples, whose cached messages have the priority values 1, 0
and 0, with CNAS_HSM_MSG_PRI_LVL_BUTT = 8: the index returned is 1, the earlier of the two
messages of priority 0, and CNAS_HSM_GetNextCachedMsg hands out the message 12. -/
theorem C34_highest_pri_cached_msg_witness :
    CNAS_HSM_GetHighestPriCachedMsg 8 example_cache_queue = 1 ∧
    (∃ pre e post, cached_msgs example_cache_queue = pre ++ e :: post ∧
      CNAS_HSM_GetHighestPriCachedMsg 8 example_cache_queue = pre.length ∧
      pre.length < example_cache_queue.ucCacheMsgNum ∧
      example_cache_queue.astCacheMsg[pre.length]? = some e ∧
      e.enMsgPri < 8 ∧
      (∀ x ∈ pre, e.enMsgPri < x.enMsgPri) ∧ (∀ x ∈ post, e.enMsgPri ≤ x.enMsgPri)) ∧
    CNAS_HSM_GetNextCachedMsg 4 8 99 (fun pid name => pid * 65536 + name) example_cache_queue
      = (VOS_TRUE, some ⟨5 * 65536 + 12, ⟨5, 12, 0, 8⟩, 0⟩,
        ⟨2, [⟨1, some ⟨5, 11, 0, 8⟩⟩, ⟨0, some ⟨5, 13, 0, 8⟩⟩, zeroed_cache_msg,
          zeroed_cache_msg]⟩) :=
  ⟨by decide,
    (C34_highest_pri_cached_msg 8 example_cache_queue).2.2.1
      ⟨⟨0, some ⟨5, 12, 0, 8⟩⟩, by decide, by decide⟩,
    by decide⟩

/-- C35: for every cache queue whose array has CNAS_HSM_MAX_CACHE_MSG_QUEUE_NUM elements
and that holds n messages, and every index i below n, CNAS_HSM_ClearCacheMsgByIndex leaves
a queue of n - 1 messages, namely the previous cached messages, in order and with their
priorities, without the one at index i; the element at index n - 1 is zeroed and the
elements from index n on are as they were. -/
theorem C35_clear_cache_msg_by_index (MAX : Nat) (q : CNAS_HSM_CACHE_MSG_QUEUE_STRU) (i : Nat)
    (hlen : q.astCacheMsg.length = MAX) (hn : q.ucCacheMsgNum ≤ MAX)
    (hi : i < q.ucCacheMsgNum) :
    (CNAS_HSM_ClearCacheMsgByIndex MAX q i).ucCacheMsgNum = q.ucCacheMsgNum - 1 ∧
    cached_msgs (CNAS_HSM_ClearCacheMsgByIndex MAX q i) = (cached_msgs q).eraseIdx i ∧
    (CNAS_HSM_ClearCacheMsgByIndex MAX q i).astCacheMsg[q.ucCacheMsgNum - 1]?
      = some zeroed_cache_msg ∧
    (CNAS_HSM_ClearCacheMsgByIndex MAX q i).astCacheMsg.drop q.ucCacheMsgNum
      = q.astCacheMsg.drop q.ucCacheMsgNum ∧
    (CNAS_HSM_ClearCacheMsgByIndex MAX q i).astCacheMsg.length = MAX := by
  obtain ⟨A, x, B, C, harr, hA, hAB, hC, htake⟩ :=
    cache_array_split q.astCacheMsg i q.ucCacheMsgNum hi (by omega)
  have hq : q = { ucCacheMsgNum := A.length + 1 + B.length
                  astCacheMsg := A ++ x :: (B ++ C) } := by
    cases q
    simp only [] at harr hAB
    rw [← harr, hAB]
  have hMAX : MAX = A.length + 1 + B.length + C.length := by
    rw [← hlen, harr]
    simp
    omega
  have hcl := clear_cache_msg_split A B C x
  have hcached : cached_msgs q = A ++ x :: B := htake
  have e1 : List.take (A.length + B.length) (A ++ (B ++ zeroed_cache_msg :: C)) = A ++ B := by
    rw [← List.append_assoc]
    exact List.take_left' (by simp)
  have e2 : (A ++ x :: B).eraseIdx A.length = A ++ B := by
    rw [List.eraseIdx_append_of_length_le (le_refl _), Nat.sub_self]
    rfl
  have e3 : (A ++ (B ++ zeroed_cache_msg :: C))[A.length + 1 + B.length - 1]?
      = some zeroed_cache_msg := by
    rw [← List.append_assoc, List.getElem?_append_right (by simp)]
    simp
  have e4 : List.drop (A.length + 1 + B.length) (A ++ (B ++ zeroed_cache_msg :: C)) = C := by
    rw [show A ++ (B ++ zeroed_cache_msg :: C) = (A ++ (B ++ [zeroed_cache_msg])) ++ C by simp]
    exact List.drop_left' (by simp; omega)
  have e5 : List.drop (A.length + 1 + B.length) (A ++ x :: (B ++ C)) = C := by
    rw [show A ++ x :: (B ++ C) = (A ++ x :: B) ++ C by simp]
    exact List.drop_left' (by simp; omega)
  rw [hcached, ← hAB, ← hA, hMAX]
  rw [hq, hcl]
  unfold cached_msgs
  simp only []
  refine ⟨by omega, by rw [e1, e2], e3, by rw [e4, e5], ?_⟩
  simp
  omega

/-- C35 on the queue of the examples (capacity 4, messages 11, 12 and 13) cleared at the
index 1: the messages 11 and 13 remain, in this order. -/
theorem C35_clear_cache_msg_by_index_witness :
    (example_cache_queue.astCacheMsg.length = 4 ∧ example_cache_queue.ucCacheMsgNum ≤ 4 ∧
      1 < example_cache_queue.ucCacheMsgNum) ∧
    CNAS_HSM_ClearCacheMsgByIndex 4 example_cache_queue 1
      = ⟨2, [⟨1, some ⟨5, 11, 0, 8⟩⟩, ⟨0, some ⟨5, 13, 0, 8⟩⟩, zeroed_cache_msg,
          zeroed_cache_msg]⟩ ∧
    ((CNAS_HSM_ClearCacheMsgByIndex 4 example_cache_queue 1).ucCacheMsgNum
        = example_cache_queue.ucCacheMsgNum - 1 ∧
      cached_msgs (CNAS_HSM_ClearCacheMsgByIndex 4 example_cache_queue 1)
        = (cached_msgs example_cache_queue).eraseIdx 1 ∧
      (CNAS_HSM_ClearCacheMsgByIndex 4 example_cache_queue 1).astCacheMsg[
          example_cache_queue.ucCacheMsgNum - 1]?
        = some zeroed_cache_msg ∧
      (CNAS_HSM_ClearCacheMsgByIndex 4 example_cache_queue 1).astCacheMsg.drop
          example_cache_queue.ucCacheMsgNum
        = example_cache_queue.astCacheMsg.drop example_cache_queue.ucCacheMsgNum ∧
      (CNAS_HSM_ClearCacheMsgByIndex 4 example_cache_queue 1).astCacheMsg.length = 4) :=
  ⟨by decide, by decide,
    C35_clear_cache_msg_by_index 4 example_cache_queue 1 (by decide) (by decide) (by decide)⟩

/-- C36, counterexample: on the queue of the examples, whose array has 4 elements and which
holds the messages 11, 12 and 13 at the indices 0 to 2, no message is cached at the index 3,
and CNAS_HSM_ClearCacheMsgByIndex called with the index 3 does not leave the queue
unchanged: it leaves the count 2 and zeroes the element of the message 13. -/
theorem C36_counterexample_index_below_capacity :
    example_cache_queue.ucCacheMsgNum = 3 ∧
    example_cache_queue.astCacheMsg[3]? = some zeroed_cache_msg ∧
    example_cache_queue.astCacheMsg[2]? = some ⟨0, some ⟨5, 13, 0, 8⟩⟩ ∧
    CNAS_HSM_ClearCacheMsgByIndex 4 example_cache_queue 3
      = ⟨2, [⟨1, some ⟨5, 11, 0, 8⟩⟩, ⟨0, some ⟨5, 12, 0, 8⟩⟩, zeroed_cache_msg,
          zeroed_cache_msg]⟩ ∧
    CNAS_HSM_ClearCacheMsgByIndex 4 example_cache_queue 3 ≠ example_cache_queue := by
  decide

/-- C36, amended: CNAS_HSM_ClearCacheMsgByIndex leaves the cache queue unchanged, count and
every element, exactly when the index is not below CNAS_HSM_MAX_CACHE_MSG_QUEUE_NUM or the
queue holds no message; for an index below that capacity on a queue that holds a message it
decrements the count, whether or not a message is cached at the index. -/
theorem C36_clear_cache_msg_guard (CNAS_HSM_MAX_CACHE_MSG_QUEUE_NUM : Nat)
    (pstMsgQueue : CNAS_HSM_CACHE_MSG_QUEUE_STRU) (ucIndex : Nat) :
    (CNAS_HSM_ClearCacheMsgByIndex CNAS_HSM_MAX_CACHE_MSG_QUEUE_NUM pstMsgQueue ucIndex
        = pstMsgQueue ↔
      (CNAS_HSM_MAX_CACHE_MSG_QUEUE_NUM ≤ ucIndex ∨ pstMsgQueue.ucCacheMsgNum = 0)) ∧
    (ucIndex < CNAS_HSM_MAX_CACHE_MSG_QUEUE_NUM → 0 < pstMsgQueue.ucCacheMsgNum →
      (CNAS_HSM_ClearCacheMsgByIndex CNAS_HSM_MAX_CACHE_MSG_QUEUE_NUM pstMsgQueue
        ucIndex).ucCacheMsgNum = pstMsgQueue.ucCacheMsgNum - 1) := by
  have hdec : ucIndex < CNAS_HSM_MAX_CACHE_MSG_QUEUE_NUM → 0 < pstMsgQueue.ucCacheMsgNum →
      (CNAS_HSM_ClearCacheMsgByIndex CNAS_HSM_MAX_CACHE_MSG_QUEUE_NUM pstMsgQueue
        ucIndex).ucCacheMsgNum = pstMsgQueue.ucCacheMsgNum - 1 := by
    intro hi hn
    unfold CNAS_HSM_ClearCacheMsgByIndex
    simp only []
    rw [if_neg (by omega), if_pos hn]
  refine ⟨⟨?_, ?_⟩, hdec⟩
  · intro heq
    by_contra hcon
    have hi : ucIndex < CNAS_HSM_MAX_CACHE_MSG_QUEUE_NUM := by omega
    have hn : 0 < pstMsgQueue.ucCacheMsgNum := by omega
    have h := hdec hi hn
    rw [heq] at h
    omega
  · intro h
    unfold CNAS_HSM_ClearCacheMsgByIndex
    simp only []
    rcases h with h | h
    · rw [if_pos h]
    · by_cases h2 : CNAS_HSM_MAX_CACHE_MSG_QUEUE_NUM ≤ ucIndex
      · rw [if_pos h2]
      · rw [if_neg h2, if_neg (by omega)]

/-- C36 on the queue of the examples, whose array has 4 elements and which holds 3
messages: the index 4 leaves it unchanged, the index 3 leaves the count 2. -/
theorem C36_clear_cache_msg_guard_witness :
    CNAS_HSM_ClearCacheMsgByIndex 4 example_cache_queue 4 = example_cache_queue ∧
    (3 < 4 ∧ 0 < example_cache_queue.ucCacheMsgNum ∧
      (CNAS_HSM_ClearCacheMsgByIndex 4 example_cache_queue 3).ucCacheMsgNum
        = example_cache_queue.ucCacheMsgNum - 1) :=
  ⟨(C36_clear_cache_msg_guard 4 example_cache_queue 4).1.mpr (Or.inl (by decide)),
    by decide, by decide,
    (C36_clear_cache_msg_guard 4 example_cache_queue 3).2 (by decide) (by decide)⟩

/-! ## Claim C37 -/

/-- C37: with CNAS_HSM_MAX_INT_MSG_QUEUE_NUM below 256, for every internal queue whose
array has that many pointers and whose count is at most that, and every sequence of
CNAS_HSM_PutMsgInIntMsgQueue and CNAS_HSM_GetNextIntMsg calls, the gets return what a bounded
first-in first-out queue of that capacity returns (the queued messages in the order they
were put, the null pointer on an empty queue), the queued messages after the sequence are
those of the bounded queue, and ucIntMsgNum is at most the capacity; a get on an empty
queue returns null and leaves the queue, a put on a full queue leaves the queue, and
CNAS_HSM_InitIntMsgQueue leaves an empty queue. -/
theorem C37_int_msg_queue_fifo (MAX : Nat) (q : CNAS_HSM_INT_MSG_QUEUE_STRU)
    (ops : List int_msg_op) (hmax : MAX < 256) (hlen : q.pastIntMsg.length = MAX)
    (hn : q.ucIntMsgNum ≤ MAX) :
    (int_queue_run MAX ops q).1 = (fifo_run MAX ops (int_msgs q)).1 ∧
    int_msgs (int_queue_run MAX ops q).2 = (fifo_run MAX ops (int_msgs q)).2 ∧
    (int_queue_run MAX ops q).2.ucIntMsgNum ≤ MAX ∧
    (int_queue_run MAX ops q).2.ucIntMsgNum = (fifo_run MAX ops (int_msgs q)).2.length ∧
    (q.ucIntMsgNum = 0 → CNAS_HSM_GetNextIntMsg q = (none, q)) ∧
    (∀ m, q.ucIntMsgNum = MAX → CNAS_HSM_PutMsgInIntMsgQueue MAX q m = q) ∧
    (CNAS_HSM_InitIntMsgQueue MAX q).ucIntMsgNum = 0 ∧
    (CNAS_HSM_InitIntMsgQueue MAX q).pastIntMsg.length = MAX ∧
    int_msgs (CNAS_HSM_InitIntMsgQueue MAX q) = [] := by
  obtain ⟨h1, h2, h3, h4⟩ := int_queue_run_fifo MAX hmax ops q hlen hn
  refine ⟨h1, h2, h3, ?_, ?_, ?_, ?_⟩
  · rw [← h2]
    unfold int_msgs
    rw [List.length_take]
    omega
  · intro h0
    unfold CNAS_HSM_GetNextIntMsg
    rw [if_neg (by omega)]
  · intro m hfull
    unfold CNAS_HSM_PutMsgInIntMsgQueue CNAS_HSM_GetIntMsgNum
    rw [if_pos (by omega)]
  · rw [init_int_msg_queue_eq MAX q hlen]
    exact ⟨rfl, List.length_replicate _ _, rfl⟩

/-- C37 on a queue of the capacity 2, initialised, under the calls put 7, put 8, put 9,
get, get, get, put 5: the third put finds the queue full, the gets return 7, 8 and null,
and the message 5 is left queued. -/
theorem C37_int_msg_queue_fifo_witness :
    (int_queue_run 2
        [int_msg_op.put (some 7), int_msg_op.put (some 8), int_msg_op.put (some 9),
          int_msg_op.get, int_msg_op.get, int_msg_op.get, int_msg_op.put (some 5)]
        (CNAS_HSM_InitIntMsgQueue 2 ⟨1, [some 3, none]⟩))
      = ([some 7, some 8, none], ⟨1, [some 5, none]⟩) ∧
    (int_queue_run 2
        [int_msg_op.put (some 7), int_msg_op.put (some 8), int_msg_op.put (some 9),
          int_msg_op.get, int_msg_op.get, int_msg_op.get, int_msg_op.put (some 5)]
        (CNAS_HSM_InitIntMsgQueue 2 ⟨1, [some 3, none]⟩)).1
      = (fifo_run 2
        [int_msg_op.put (some 7), int_msg_op.put (some 8), int_msg_op.put (some 9),
          int_msg_op.get, int_msg_op.get, int_msg_op.get, int_msg_op.put (some 5)]
        (int_msgs (CNAS_HSM_InitIntMsgQueue 2 ⟨1, [some 3, none]⟩))).1 :=
  ⟨by decide,
    (C37_int_msg_queue_fifo 2 (CNAS_HSM_InitIntMsgQueue 2 ⟨1, [some 3, none]⟩)
      [int_msg_op.put (some 7), int_msg_op.put (some 8), int_msg_op.put (some 9),
        int_msg_op.get, int_msg_op.get, int_msg_op.get, int_msg_op.put (some 5)]
      (by decide) (by decide) (by decide)).1⟩

end CnasHsm

namespace CnasXcc

/-! ## Facts about CNAS_XCC_AllocConnectedId -/

/-- The loop entered at or before the first inactive entity k ends there, with VOS_TRUE,
the index k and the connect id k + 1 written to that entity. -/
theorem alloc_loop_found (MAX : Nat) (ctx : CNAS_XCC_CTX_STRU) (hmax : MAX ≤ 255) (k : Nat)
    (hk : k < MAX)
    (hfree : (ctx.astFsmEntity.getD k default).stCallInfoCtx.ucIsEntityActive = VOS_FALSE)
    (fuel i : Nat) (hi : i ≤ k) (hfuel : k - i < fuel)
    (hbusy : ∀ j, i ≤ j → j < k →
      (ctx.astFsmEntity.getD j default).stCallInfoCtx.ucIsEntityActive ≠ VOS_FALSE) :
    alloc_loop MAX ctx fuel i =
      some (VOS_TRUE, some k,
        { astFsmEntity := ctx.astFsmEntity.set k
            { stCallInfoCtx :=
                { (ctx.astFsmEntity.getD k default).stCallInfoCtx with
                  ucConnectId := k + 1 } } }) := by
  induction fuel generalizing i with
  | zero => omega
  | succ fuel ih =>
    simp only [alloc_loop]
    rw [if_pos (by omega)]
    by_cases hik : i = k
    · subst hik
      rw [if_pos hfree.symm, Nat.mod_eq_of_lt (by omega)]
    · have hb := hbusy i (le_refl _) (by omega)
      rw [if_neg (fun h => hb h.symm), Nat.mod_eq_of_lt (by omega)]
      exact ih (i + 1) (by omega) (by omega) (fun j h1 h2 => hbusy j (by omega) h2)

/-- The loop entered where every entity still to visit is active ends with VOS_FALSE and
writes nothing. -/
theorem alloc_loop_none (MAX : Nat) (ctx : CNAS_XCC_CTX_STRU) (hmax : MAX ≤ 255)
    (fuel i : Nat) (hi : i ≤ MAX) (hfuel : MAX - i < fuel)
    (hbusy : ∀ j, i ≤ j → j < MAX →
      (ctx.astFsmEntity.getD j default).stCallInfoCtx.ucIsEntityActive ≠ VOS_FALSE) :
    alloc_loop MAX ctx fuel i = some (VOS_FALSE, none, ctx) := by
  induction fuel generalizing i with
  | zero => omega
  | succ fuel ih =>
    simp only [alloc_loop]
    by_cases him : i < MAX
    · have hb := hbusy i (le_refl _) him
      rw [if_pos him, if_neg (fun h => hb h.symm), Nat.mod_eq_of_lt (by omega)]
      exact ih (i + 1) (by omega) (by omega) (fun j h1 h2 => hbusy j (by omega) h2)
    · rw [if_neg him]

/-! ## Claim C38 -/

/-- C38: with CNAS_XCC_MAX_FSM_ENTITY_NUM at most 255 and fuel for more rounds than that,
CNAS_XCC_AllocConnectedId returns VOS_TRUE with the lowest index k whose entity has
ucIsEntityActive equal to VOS_FALSE, writes the connect id k + 1, which is not 0, to that
entity and leaves every other entity and the active flags as they are; when no entity below
CNAS_XCC_MAX_FSM_ENTITY_NUM has ucIsEntityActive equal to VOS_FALSE it returns VOS_FALSE and
leaves the context as it is; it returns VOS_FALSE exactly in that case. -/
theorem C38_alloc_connected_id (MAX : Nat) (ctx : CNAS_XCC_CTX_STRU) (fuel : Nat)
    (hmax : MAX ≤ 255) (hlen : ctx.astFsmEntity.length = MAX) (hfuel : MAX < fuel) :
    (∀ k, k < MAX →
      (ctx.astFsmEntity.getD k default).stCallInfoCtx.ucIsEntityActive = VOS_FALSE →
      (∀ j, j < k →
        (ctx.astFsmEntity.getD j default).stCallInfoCtx.ucIsEntityActive ≠ VOS_FALSE) →
      ∃ ctx2, CNAS_XCC_AllocConnectedId MAX ctx fuel = some (VOS_TRUE, some k, ctx2) ∧
        ctx2.astFsmEntity[k]?
          = some { stCallInfoCtx :=
              { ucIsEntityActive := VOS_FALSE, ucConnectId := k + 1 } } ∧
        k + 1 ≠ 0 ∧ k + 1 < 256 ∧
        ctx2.astFsmEntity.length = MAX ∧
        (∀ j, j ≠ k → ctx2.astFsmEntity[j]? = ctx.astFsmEntity[j]?)) ∧
    ((∀ j, j < MAX →
        (ctx.astFsmEntity.getD j default).stCallInfoCtx.ucIsEntityActive ≠ VOS_FALSE) →
      CNAS_XCC_AllocConnectedId MAX ctx fuel = some (VOS_FALSE, none, ctx)) ∧
    (∃ r, CNAS_XCC_AllocConnectedId MAX ctx fuel = some r ∧
      (r.1 = VOS_FALSE ↔
        ∀ j, j < MAX →
          (ctx.astFsmEntity.getD j default).stCallInfoCtx.ucIsEntityActive ≠ VOS_FALSE)) := by
  have hfound : ∀ k, k < MAX →
      (ctx.astFsmEntity.getD k default).stCallInfoCtx.ucIsEntityActive = VOS_FALSE →
      (∀ j, j < k →
        (ctx.astFsmEntity.getD j default).stCallInfoCtx.ucIsEntityActive ≠ VOS_FALSE) →
      CNAS_XCC_AllocConnectedId MAX ctx fuel =
        some (VOS_TRUE, some k,
          { astFsmEntity := ctx.astFsmEntity.set k
              { stCallInfoCtx :=
                  { (ctx.astFsmEntity.getD k default).stCallInfoCtx with
                    ucConnectId := k + 1 } } }) := by
    intro k hk hfree hbusy
    exact alloc_loop_found MAX ctx hmax k hk hfree fuel 0 (Nat.zero_le _) (by omega)
      (fun j _ h2 => hbusy j h2)
  have hnone : (∀ j, j < MAX →
        (ctx.astFsmEntity.getD j default).stCallInfoCtx.ucIsEntityActive ≠ VOS_FALSE) →
      CNAS_XCC_AllocConnectedId MAX ctx fuel = some (VOS_FALSE, none, ctx) := by
    intro hbusy
    exact alloc_loop_none MAX ctx hmax fuel 0 (Nat.zero_le _) (by omega)
      (fun j _ h2 => hbusy j h2)
  refine ⟨?_, hnone, ?_⟩
  · intro k hk hfree hbusy
    refine ⟨_, hfound k hk hfree hbusy, ?_, by omega, by omega, ?_, ?_⟩
    · simp only []
      rw [List.getElem?_set_self (by omega), hfree]
    · simp only [List.length_set]
      exact hlen
    · intro j hj
      simp only []
      exact List.getElem?_set_ne (fun h => hj h.symm)
  · by_cases hall : ∀ j, j < MAX →
        (ctx.astFsmEntity.getD j default).stCallInfoCtx.ucIsEntityActive ≠ VOS_FALSE
    · exact ⟨_, hnone hall, fun _ => hall, fun _ => rfl⟩
    · have hex : ∃ k, k < MAX ∧
          (ctx.astFsmEntity.getD k default).stCallInfoCtx.ucIsEntityActive = VOS_FALSE := by
        by_contra hcon
        apply hall
        intro j hj hfree
        exact hcon ⟨j, hj, hfree⟩
      have hmin := Nat.find_spec hex
      have hlow : ∀ j, j < Nat.find hex →
          (ctx.astFsmEntity.getD j default).stCallInfoCtx.ucIsEntityActive ≠ VOS_FALSE := by
        intro j hj hfree
        exact Nat.find_min hex hj ⟨by omega, hfree⟩
      refine ⟨_, hfound (Nat.find hex) hmin.1 hmin.2 hlow, ?_, ?_⟩
      · intro h
        have h2 : VOS_TRUE = VOS_FALSE := h
        exact absurd h2 (by decide)
      · intro h
        exact absurd h hall

/-- C38 on the context of the examples, four entities of which the first two are active:
the index 2 is returned and the connect id 3 is written to the entity 2; with all four
entities active VOS_FALSE is returned. -/
theorem C38_alloc_connected_id_witness :
    CNAS_XCC_AllocConnectedId 4 example_ctx 5
      = some (VOS_TRUE, some 2, ⟨[⟨⟨1, 1⟩⟩, ⟨⟨1, 2⟩⟩, ⟨⟨0, 3⟩⟩, ⟨⟨0, 9⟩⟩]⟩) ∧
    CNAS_XCC_AllocConnectedId 4 ⟨[⟨⟨1, 1⟩⟩, ⟨⟨1, 2⟩⟩, ⟨⟨1, 3⟩⟩, ⟨⟨1, 4⟩⟩]⟩ 5
      = some (VOS_FALSE, none, ⟨[⟨⟨1, 1⟩⟩, ⟨⟨1, 2⟩⟩, ⟨⟨1, 3⟩⟩, ⟨⟨1, 4⟩⟩]⟩) ∧
    (∃ ctx2, CNAS_XCC_AllocConnectedId 4 example_ctx 5 = some (VOS_TRUE, some 2, ctx2) ∧
      ctx2.astFsmEntity[2]?
        = some { stCallInfoCtx := { ucIsEntityActive := VOS_FALSE, ucConnectId := 2 + 1 } } ∧
      2 + 1 ≠ 0 ∧ 2 + 1 < 256 ∧
      ctx2.astFsmEntity.length = 4 ∧
      (∀ j, j ≠ 2 → ctx2.astFsmEntity[j]? = example_ctx.astFsmEntity[j]?)) :=
  ⟨by decide, by decide,
    (C38_alloc_connected_id 4 example_ctx 5 (by decide) (by decide) (by decide)).1 2
      (by decide) (by decide) (by decide)⟩

end CnasXcc
